import Mathlib

/-!
AUTONEWAPP backend: booking lifecycle, subscription quota, logins and password hashes.

A shallow embedding of the reservation handlers of
`src/controllers/reservaController.js`, of `actualizarEstadoReserva`, `getReservaParaQR`
and `cambiarContrasena` of `src/controllers/empresaController.js`, of `login`,
`loginEmpresa` and `changePassword` of `src/controllers/authController.js`, of the handler
of `GET /mi-suscripcion/activa` of `src/routes/planRoutes.js`, of `crearCalificacion` of
`src/controllers/calificacionController.js` and of `src/utils/djangoPassword.js`, over an
explicit storage state.

Conventions of the embedding

* A table is a list of rows; a `SELECT ... WHERE` is a `List.filter`, `rows[0]` is the
  head of the filtered list, an `UPDATE ... WHERE` is a `List.map` that rewrites the
  matching rows, an `INSERT` appends a row.
* Prices are JavaScript numbers (IEEE 754 doubles) in the source; they are embedded as
  exact rationals. The embedding does not represent the rounding of an operation on
  doubles, so nothing is proved of a price that rounding could change: what is proved are
  order comparisons that rounding preserves and values that are exact in doubles.
* Dates and times are kept as the normalised strings the handlers pass to the queries.
  The date arithmetic of the storage layer (`fecha + hora` as a clock value) is a
  parameter of the expiry sweep; the current calendar date and hour are parameters of
  the handlers that read them.
* `Math.floor(Math.random() * 10)` is an integer between 0 and 9: a `Fin 10` drawn from
  an environment stream. `Date.now()` is a natural number of milliseconds.
* A handler is a function from the request and the storage state to the response and
  the storage state afterwards.
* `crearReserva` runs on the connection `client` inside a transaction: `Conexion` keeps
  the committed tables and the working tables of the open transaction, and `BEGIN`,
  `COMMIT` and `ROLLBACK` act on it. Every statement it sends may throw; the environment
  says which statements throw (`Entorno.falla`). The id of the inserted reservation comes
  from the storage sequence and is taken from the environment.
* The other handlers send their statements through the pool outside a transaction and
  are embedded on a storage layer that answers.
* The authentication handlers and the reads of the quota select columns that the booking
  handlers do not: their rows are `CuentaUsuario`, `CuentaEmpresa` and `SuscripcionFechas`.
  Timestamps are natural numbers of milliseconds; the clock of the server (`new Date()`)
  and the clock of the storage (`NOW()`) are separate parameters. Quotients of clock
  differences are exact: they are taken in the rationals, or as integer quotients
  rounded down.
* The key derivation `crypto.pbkdf2Sync` and the comparison `bcrypt.compare` are
  parameters: any deterministic functions, the first of which may throw. The random bytes
  of a salt are a parameter. `split`, `parseInt`, the `base64` encoding and the decimal
  string of a number are embedded. An iteration count is a natural number, written in
  decimal digits as JavaScript writes an integer below 10^21.
-/

namespace Autonew

/-! ## JavaScript helpers -/

/-- Truthiness of an optional string field of a request body: `undefined`, `null` and
the empty string are falsy. -/
def truthyStr : Option String → Bool
  | none => false
  | some s => s != ""

/-- Truthiness of an optional numeric field: `undefined`, `null` and `0` are falsy. -/
def truthyNat : Option Nat → Bool
  | none => false
  | some n => n != 0

/-- JavaScript `s.slice(-k)`: the last `k` characters of `s`, or all of `s` when it is
shorter. -/
def sliceUltimos (k : Nat) (s : String) : String :=
  String.mk (s.data.drop (s.data.length - k))

/-! ## Booking number generator -/

/-- One draw of `Math.floor(Math.random() * 10)`. -/
abbrev Digito := Fin 10

/-- The inner `for` loop of `generarNumeroReserva`: seven draws, each appended as its
decimal string. `base` is the number of draws already consumed from the stream. -/
def numeroAleatorio (rnd : Nat → Digito) (base : Nat) : String :=
  (List.range 7).foldl (fun acc i => acc ++ toString (rnd (base + i)).val) ""

/-- Letter of the booking kind: `esReservaEmpresarial ? 'E' : 'B'`. -/
def tipoReserva (esReservaEmpresarial : Bool) : String :=
  if esReservaEmpresarial then "E" else "B"

/-- What `generarNumeroReserva` hands back, together with the codes it sent to the
existence query, in order. -/
structure Generado where
  numero : String
  consultas : List String
deriving DecidableEq, Repr

/-- The `while (intentos < maxIntentos)` loop of `generarNumeroReserva` followed by the
timestamp fallback. `restantes` is `maxIntentos - intentos`. The existence query of
attempt `intentos` answers `some true` (a row exists), `some false` (no row) or `none`
(the query throws, and so does the generator). -/
def generarLoop (esReservaEmpresarial : Bool) (existe : Nat → String → Option Bool)
    (rnd : Nat → Digito) (ahora : Nat) : Nat → Nat → List String → Option Generado
  | 0, _, qs =>
      some ⟨"ANW-" ++ tipoReserva esReservaEmpresarial ++ sliceUltimos 7 (toString ahora), qs⟩
  | restantes + 1, intentos, qs =>
      let numeroPropuesto :=
        "ANW-" ++ tipoReserva esReservaEmpresarial ++ numeroAleatorio rnd (7 * intentos)
      match existe intentos numeroPropuesto with
      | none => none
      | some false => some ⟨numeroPropuesto, qs ++ [numeroPropuesto]⟩
      | some true =>
          generarLoop esReservaEmpresarial existe rnd ahora restantes (intentos + 1)
            (qs ++ [numeroPropuesto])

/-- The constant `maxIntentos` of `generarNumeroReserva`. -/
def maxIntentos : Nat := 10

/-- Embedding of `generarNumeroReserva` of `reservaController.js`. -/
def generarNumeroReserva (esReservaEmpresarial : Bool) (existe : Nat → String → Option Bool)
    (rnd : Nat → Digito) (ahora : Nat) : Option Generado :=
  generarLoop esReservaEmpresarial existe rnd ahora maxIntentos 0 []

/-- The code proposed at attempt `i`. -/
def propuesta (esReservaEmpresarial : Bool) (rnd : Nat → Digito) (i : Nat) : String :=
  "ANW-" ++ tipoReserva esReservaEmpresarial ++ numeroAleatorio rnd (7 * i)

/-- The fallback code built from the clock. -/
def numeroFallback (esReservaEmpresarial : Bool) (ahora : Nat) : String :=
  "ANW-" ++ tipoReserva esReservaEmpresarial ++ sliceUltimos 7 (toString ahora)

/-- A string matches `ANW-[BE]\d{7}` with the given kind letter: the characters are
`A`, `N`, `W`, `-`, the letter, then exactly seven decimal digits. -/
def FormatoNumero (letra : Char) (s : String) : Prop :=
  ∃ ds : List Char, s.data = ['A', 'N', 'W', '-', letra] ++ ds ∧ ds.length = 7 ∧
    ∀ c ∈ ds, c.isDigit = true

/-- The last `k` decimal digits of `n`, most significant first, as characters. -/
def ultimosDigitos : Nat → Nat → List Char
  | 0, _ => []
  | k + 1, n => ultimosDigitos k (n / 10) ++ [Nat.digitChar (n % 10)]

/-! ## Storage -/

/-- A row of `lavado_auto_usuario` (the columns the booking handlers read). -/
structure Usuario where
  id_usuario : Nat
  nombre_completo : Option String
deriving DecidableEq, Repr

/-- A row of `lavado_auto_empresa` (the columns the booking handlers read). -/
structure Empresa where
  id_empresa : Nat
  nombre_empresa : String
  verificada : Bool
deriving DecidableEq, Repr

/-- A row of `lavado_auto_servicio`. -/
structure Servicio where
  id_servicio : Nat
  nombre_servicio : String
  precio : ℚ
deriving DecidableEq, Repr

/-- A row of `lavado_auto_plan`. -/
structure Plan where
  id_plan : Nat
  cantidad_servicios_mes : Int
deriving DecidableEq, Repr

/-- A row of `lavado_auto_suscripcionusuario`. `ultimo_reinicio_contador` is a clock
value in milliseconds. -/
structure Suscripcion where
  id_suscripcion : Nat
  usuario_id : Nat
  plan_id : Nat
  estado : String
  servicios_utilizados_mes : Int
  ultimo_reinicio_contador : Nat
deriving DecidableEq, Repr

/-- A row of `lavado_auto_reserva`. -/
structure Reserva where
  id_reserva : Nat
  numero_reserva : Option String
  fecha : String
  hora : String
  estado : String
  empresa_id : Nat
  usuario_id : Nat
  es_pago_individual : Bool
  es_reserva_empresarial : Bool
  placa_vehiculo : Option String
  tipo_vehiculo : String
  conductor_asignado : String
  observaciones_empresariales : String
  suscripcion_utilizada_id : Option Nat
  pagado_empresa : Bool
  fue_recuperada : Bool
  recargo_recuperacion : ℚ
deriving DecidableEq, Repr

/-- A row of `lavado_auto_reservaservicio`: one line item of a reservation. -/
structure ReservaServicio where
  reserva_id : Nat
  servicio_id : Nat
  precio_aplicado : ℚ
  precio_original : ℚ
  es_servicio_plan : Bool
  descuento_plan_individual : ℚ
  descuento_empresarial : ℚ
deriving DecidableEq, Repr

/-- The stored state: the tables the booking handlers touch. -/
structure DB where
  usuarios : List Usuario
  empresas : List Empresa
  servicios : List Servicio
  planes : List Plan
  suscripciones : List Suscripcion
  reservas : List Reserva
  reservaServicios : List ReservaServicio
deriving DecidableEq, Repr

/-! ## Requests and responses -/

/-- The envelope every handler answers with: HTTP status, the `success` flag and the
`message`. -/
structure Respuesta where
  status : Nat
  success : Bool
  message : String
deriving DecidableEq, Repr

/-- The principal `req.user` that the `protect` middleware takes from the bearer token. -/
structure Principal where
  id : Nat
  rol : String
deriving DecidableEq, Repr

/-- One element of the `servicios` array of a `crearReserva` body: either a bare service
id or an object `{ id_servicio, es_servicio_plan, descuento }`. -/
inductive ServicioData where
  | id (id_servicio : Nat)
  | obj (id_servicio : Nat) (es_servicio_plan : Bool) (descuento : ℚ)
deriving DecidableEq, Repr

/-- Value of `typeof servicioData === 'object' ? servicioData.id_servicio : servicioData`. -/
def ServicioData.servicioId : ServicioData → Nat
  | .id n => n
  | .obj n _ _ => n

/-- Value of `typeof servicioData === 'object' ? servicioData.es_servicio_plan : false`. -/
def ServicioData.esServicioPlan : ServicioData → Bool
  | .id _ => false
  | .obj _ p _ => p

/-- Value of `typeof servicioData === 'object' ? servicioData.descuento : 0`, a number. -/
def ServicioData.descuentoPlan : ServicioData → ℚ
  | .id _ => 0
  | .obj _ _ d => d

/-- The body of a `crearReserva` request. A field the client left out is `none`. -/
structure CrearReservaBody where
  fecha : Option String
  hora : Option String
  empresa_id : Option Nat
  servicios : Option (List ServicioData)
  placa_vehiculo : Option String
  tipo_vehiculo : Option String
  conductor_asignado : Option String
  observaciones_empresariales : Option String
  es_pago_individual : Option Bool
  es_reserva_empresarial : Option Bool
  usar_suscripcion : Bool
  suscripcion_id : Option Nat
deriving DecidableEq, Repr

/-- The statements `crearReserva` sends to the storage layer, each of which may throw. -/
inductive Paso where
  | nombreUsuario
  | begin
  | selectSuscripcion
  | updateContador
  | existeNumero (intento : Nat)
  | insertReserva
  | selectPrecio (i : Nat)
  | insertLinea (i : Nat)
  | commit
  | selectCompleta
deriving DecidableEq, Repr

/-- What a `crearReserva` request takes from its environment: the clock, the random
stream, the id the storage sequence gives to the inserted reservation, and the
statements that throw. -/
structure Entorno where
  ahora : Nat
  rnd : Nat → Digito
  idNuevo : Nat
  falla : Paso → Bool

/-! ## The connection `client` and its transaction -/

/-- State of the storage as seen from the connection `client`: the committed tables and,
while a transaction is open, the working tables of the transaction. -/
structure Conexion where
  almacen : DB
  transaccion : Option DB
deriving DecidableEq, Repr

namespace Conexion

/-- What a statement sent on `client` reads: the working tables of the open transaction,
the committed tables when none is open. -/
def vista (c : Conexion) : DB := c.transaccion.getD c.almacen

/-- Statement `BEGIN`: opens a transaction on the committed tables. -/
def begin (c : Conexion) : Conexion :=
  match c.transaccion with
  | none => { c with transaccion := some c.almacen }
  | some _ => c

/-- A writing statement sent on `client`: it rewrites the working tables of the open
transaction, the committed tables when none is open. -/
def escribir (f : DB → DB) (c : Conexion) : Conexion :=
  match c.transaccion with
  | some tx => { c with transaccion := some (f tx) }
  | none => { c with almacen := f c.almacen }

/-- Statement `COMMIT`: the working tables become the committed ones. -/
def commit (c : Conexion) : Conexion :=
  match c.transaccion with
  | some tx => { almacen := tx, transaccion := none }
  | none => c

/-- Statement `ROLLBACK`: the working tables are dropped. -/
def rollback (c : Conexion) : Conexion := { c with transaccion := none }

end Conexion

/-- How a piece of a `try` block ends: it runs to its end with a value (`sigue`), it
answers the request and returns (`responde`), or a statement throws (`lanza`). Each
carries the state of the connection at that point. -/
inductive Curso (α : Type) where
  | sigue (a : α) (c : Conexion)
  | responde (r : Respuesta) (c : Conexion)
  | lanza (c : Conexion)

/-- A piece of a `try` block: from the state of the connection to how it ends. -/
def Accion (α : Type) : Type := Conexion → Curso α

/-- Running a piece of a `try` block from a state of the connection. -/
def Accion.run {α : Type} (m : Accion α) (c : Conexion) : Curso α := m c

/-- Sequencing: what follows runs only when the first piece runs to its end. -/
def Accion.luego {α β : Type} (m : Accion α) (f : α → Accion β) : Accion β :=
  fun c =>
    match m c with
    | .sigue a c1 => f a c1
    | .responde r c1 => .responde r c1
    | .lanza c1 => .lanza c1

instance : Monad Accion where
  pure a := fun c => .sigue a c
  bind := Accion.luego

/-- Call `await client.query(...)` for a reading statement: it throws when the environment
says so, otherwise it hands back the rows read from the view of the connection. -/
def consulta {α : Type} (env : Entorno) (p : Paso) (leer : DB → α) : Accion α :=
  fun c => if env.falla p then .lanza c else .sigue (leer c.vista) c

/-- Call `await pool.query(...)` for a reading statement sent outside the connection: it reads
the committed tables. -/
def consultaPool {α : Type} (env : Entorno) (p : Paso) (leer : DB → α) : Accion α :=
  fun c => if env.falla p then .lanza c else .sigue (leer c.almacen) c

/-- Call `await client.query(...)` for a writing statement. -/
def sentencia (env : Entorno) (p : Paso) (f : DB → DB) : Accion Unit :=
  fun c => if env.falla p then .lanza c else .sigue () (c.escribir f)

/-- Call `await client.query('BEGIN')`. -/
def comenzar (env : Entorno) : Accion Unit :=
  fun c => if env.falla .begin then .lanza c else .sigue () c.begin

/-- Call `await client.query('COMMIT')`. -/
def confirmar (env : Entorno) : Accion Unit :=
  fun c => if env.falla .commit then .lanza c else .sigue () c.commit

/-- Call `await client.query('ROLLBACK')`. -/
def deshacer : Accion Unit := fun c => .sigue () c.rollback

/-- Early `return res.status(...).json(...)` inside the `try` block. -/
def responder {α : Type} (r : Respuesta) : Accion α := fun c => .responde r c

/-! ## Reservation creation -/

/-- Value of `userResult.rows[0]?.nombre_completo || ''`. -/
def nombreUsuario (db : DB) (usuario_id : Nat) : String :=
  match (db.usuarios.filter fun u => u.id_usuario = usuario_id).head? with
  | some u => if truthyStr u.nombre_completo then u.nombre_completo.getD "" else ""
  | none => ""

/-- The subscription a body asks to use: `usar_suscripcion && suscripcion_id`. -/
def suscripcionSolicitada (b : CrearReservaBody) : Option Nat :=
  if b.usar_suscripcion && truthyNat b.suscripcion_id then b.suscripcion_id else none

/-- Rows of the subscription query of `crearReserva`: the subscription with that id,
of that user, in state `activa`, joined with its plan. -/
def suscripcionesActivas (tx : DB) (suscripcion_id usuario_id : Nat) :
    List (Suscripcion × Plan) :=
  (tx.suscripciones.filter fun su =>
      su.id_suscripcion = suscripcion_id ∧ su.usuario_id = usuario_id ∧
        su.estado = "activa").flatMap
    fun su => (tx.planes.filter fun p => su.plan_id = p.id_plan).map fun p => (su, p)

/-- Statement `UPDATE lavado_auto_suscripcionusuario SET servicios_utilizados_mes =
servicios_utilizados_mes + 1 WHERE id_suscripcion = $1`. -/
def incrementarContador (tx : DB) (suscripcion_id : Nat) : DB :=
  { tx with suscripciones := tx.suscripciones.map fun su =>
      if su.id_suscripcion = suscripcion_id then
        { su with servicios_utilizados_mes := su.servicios_utilizados_mes + 1 }
      else su }

/-- The answer to a request on an exhausted quota. -/
def respuestaSinCupo : Respuesta :=
  ⟨400, false, "No tienes servicios disponibles en tu plan este mes"⟩

/-- The condition of line 332:
`cantidadMes > 0 && susc.servicios_utilizados_mes >= cantidadMes`. -/
def cupoAgotado (susc : Suscripcion) (plan : Plan) : Bool :=
  plan.cantidad_servicios_mes > 0 ∧
    susc.servicios_utilizados_mes ≥ plan.cantidad_servicios_mes

/-- The subscription block of `crearReserva` (lines 316-350): its value is
`suscripcionUtilizada`. -/
def usarSuscripcion (env : Entorno) (usuario_id : Nat) (b : CrearReservaBody) :
    Accion (Option Nat) :=
  match suscripcionSolicitada b with
  | none => pure none
  | some suscripcion_id => do
      let rows ← consulta env .selectSuscripcion
        fun tx => suscripcionesActivas tx suscripcion_id usuario_id
      match rows.head? with
      | none => pure none
      | some (susc, plan) =>
          if cupoAgotado susc plan then do
            deshacer
            responder respuestaSinCupo
          else do
            sentencia env .updateContador fun tx => incrementarContador tx suscripcion_id
            pure (some suscripcion_id)

/-- The existence query of `generarNumeroReserva` inside the transaction:
`SELECT 1 FROM lavado_auto_reserva WHERE numero_reserva = $1`. -/
def existeNumero (env : Entorno) (tx : DB) (intento : Nat) (numero : String) : Option Bool :=
  if env.falla (.existeNumero intento) then none
  else some (tx.reservas.any fun r => r.numero_reserva = some numero)

/-- Call `await generarNumeroReserva(es_reserva_empresarial === true, client)`. -/
def generarNumero (env : Entorno) (esReservaEmpresarial : Bool) : Accion Generado :=
  fun c =>
    match generarNumeroReserva esReservaEmpresarial (existeNumero env c.vista) env.rnd
        env.ahora with
    | none => .lanza c
    | some generado => .sigue generado c

/-- The row `crearReserva` inserts into `lavado_auto_reserva`. -/
def nuevaReserva (env : Entorno) (usuario_id : Nat) (b : CrearReservaBody)
    (conductorFinal numeroReserva : String) (suscripcionUtilizada : Option Nat) : Reserva :=
  { id_reserva := env.idNuevo
    numero_reserva := some numeroReserva
    fecha := b.fecha.getD ""
    hora := b.hora.getD ""
    estado := "pendiente"
    empresa_id := b.empresa_id.getD 0
    usuario_id := usuario_id
    es_pago_individual := b.es_pago_individual != some false && suscripcionUtilizada.isNone
    es_reserva_empresarial := b.es_reserva_empresarial == some true
    placa_vehiculo := if truthyStr b.placa_vehiculo then b.placa_vehiculo else none
    tipo_vehiculo :=
      if b.es_reserva_empresarial == some true then
        (if truthyStr b.tipo_vehiculo then b.tipo_vehiculo.getD "" else "No especificado")
      else "No especificado"
    conductor_asignado := conductorFinal
    observaciones_empresariales :=
      if truthyStr b.observaciones_empresariales then b.observaciones_empresariales.getD ""
      else ""
    suscripcion_utilizada_id := suscripcionUtilizada
    pagado_empresa := false
    fue_recuperada := false
    recargo_recuperacion := 0 }

/-- Value of `parseFloat(precioResult.rows[0]?.precio || 0)` for
`SELECT precio FROM lavado_auto_servicio WHERE id_servicio = $1`. -/
def precioServicio (tx : DB) (servicioId : Nat) : ℚ :=
  match (tx.servicios.filter fun s => s.id_servicio = servicioId).head? with
  | some s => s.precio
  | none => 0

/-- Value of `esServicioPlan ? precioOriginal * (1 - descuentoPlan / 100) : precioOriginal`. -/
def precioAplicado (servicioData : ServicioData) (precioOriginal : ℚ) : ℚ :=
  if servicioData.esServicioPlan then precioOriginal * (1 - servicioData.descuentoPlan / 100)
  else precioOriginal

/-- The row inserted into `lavado_auto_reservaservicio` for one requested service. -/
def lineaServicio (reservaId : Nat) (servicioData : ServicioData) (precioOriginal : ℚ) :
    ReservaServicio :=
  { reserva_id := reservaId
    servicio_id := servicioData.servicioId
    precio_aplicado := precioAplicado servicioData precioOriginal
    precio_original := precioOriginal
    es_servicio_plan := servicioData.esServicioPlan
    descuento_plan_individual := servicioData.descuentoPlan
    descuento_empresarial := 0 }

/-- The line items of a request: one row per element of the requested services, in
order, each priced from the catalog of `tx`. -/
def lineasServicios (reservaId : Nat) (tx : DB) (servicios : List ServicioData) :
    List ReservaServicio :=
  servicios.map fun sd => lineaServicio reservaId sd (precioServicio tx sd.servicioId)

/-- Statement `INSERT INTO lavado_auto_reservaservicio ...`: one row appended. -/
def insertarLinea (linea : ReservaServicio) (tx : DB) : DB :=
  { tx with reservaServicios := tx.reservaServicios ++ [linea] }

/-- Statement `INSERT INTO lavado_auto_reserva ...`: one row appended. -/
def insertarReserva (reserva : Reserva) (tx : DB) : DB :=
  { tx with reservas := tx.reservas ++ [reserva] }

/-- The `for (const servicioData of servicios)` loop of `crearReserva` (lines 390-413):
a price query and a line-item insert per element, `i` counting the elements done. -/
def insertarServicios (env : Entorno) (reservaId : Nat) :
    Nat → List ServicioData → Accion Unit
  | _, [] => pure ()
  | i, servicioData :: resto => do
      let precioOriginal ← consulta env (.selectPrecio i)
        fun tx => precioServicio tx servicioData.servicioId
      sentencia env (.insertLinea i)
        (insertarLinea (lineaServicio reservaId servicioData precioOriginal))
      insertarServicios env reservaId (i + 1) resto

/-- Lines 352-445 of the `try` block: the booking number, the reservation row, the line
items, `COMMIT` and the read of the created reservation. -/
def registrarReserva (env : Entorno) (usuario_id : Nat) (b : CrearReservaBody)
    (conductorFinal : String) (suscripcionUtilizada : Option Nat) : Accion Unit := do
  let generado ← generarNumero env (b.es_reserva_empresarial == some true)
  sentencia env .insertReserva
    (insertarReserva
      (nuevaReserva env usuario_id b conductorFinal generado.numero suscripcionUtilizada))
  insertarServicios env env.idNuevo 0 (b.servicios.getD [])
  confirmar env
  consultaPool env .selectCompleta fun _ => ()

/-- Lines 314-445 of the `try` block: `BEGIN`, the subscription block and the rest. -/
def crearReservaTransaccion (env : Entorno) (usuario_id : Nat) (b : CrearReservaBody)
    (conductorFinal : String) : Accion Unit := do
  comenzar env
  let suscripcionUtilizada ← usarSuscripcion env usuario_id b
  registrarReserva env usuario_id b conductorFinal suscripcionUtilizada

/-- The `try` block of `crearReserva` after validation (lines 304-445). -/
def crearReservaTry (env : Entorno) (usuario_id : Nat) (b : CrearReservaBody) : Accion Unit := do
  let conductorFinal ←
    if truthyStr b.conductor_asignado then pure (b.conductor_asignado.getD "")
    else consultaPool env .nombreUsuario fun db => nombreUsuario db usuario_id
  crearReservaTransaccion env usuario_id b conductorFinal

/-- The validation of `crearReserva` (line 297):
`!fecha || !hora || !empresa_id || !servicios || servicios.length === 0`. -/
def faltanDatos (b : CrearReservaBody) : Bool :=
  !truthyStr b.fecha || !truthyStr b.hora || !truthyNat b.empresa_id ||
    b.servicios.isNone || (b.servicios.getD []).length == 0

/-- Embedding of `crearReserva` of `reservaController.js` (lines 274-458): the response
and the committed tables afterwards. The `catch` block sends `ROLLBACK` and answers
500. -/
def crearReserva (env : Entorno) (user : Principal) (b : CrearReservaBody) (db : DB) :
    Respuesta × DB :=
  if faltanDatos b then
    (⟨400, false, "Faltan datos requeridos para crear la reserva"⟩, db)
  else
    match (crearReservaTry env user.id b).run ⟨db, none⟩ with
    | .sigue _ c => (⟨201, true, "Reserva creada exitosamente"⟩, c.almacen)
    | .responde r c => (r, c.almacen)
    | .lanza c => (⟨500, false, "Error al crear la reserva"⟩, c.rollback.almacen)

/-! ## What a `crearReserva` request commits -/

/-- The value of `conductorFinal` (lines 305-312). -/
def conductorFinal (b : CrearReservaBody) (db : DB) (usuario_id : Nat) : String :=
  if truthyStr b.conductor_asignado then b.conductor_asignado.getD ""
  else nombreUsuario db usuario_id

/-- The value of `suscripcionUtilizada` when the subscription block runs to its end: the
requested subscription when the query finds it active and owned by the caller, `null`
otherwise. -/
def suscripcionUtilizada (b : CrearReservaBody) (db : DB) (usuario_id : Nat) : Option Nat :=
  match suscripcionSolicitada b with
  | none => none
  | some sid =>
      match (suscripcionesActivas db sid usuario_id).head? with
      | none => none
      | some _ => some sid

/-- The tables after the subscription block ran to its end. -/
def tablasTrasSuscripcion (b : CrearReservaBody) (db : DB) (usuario_id : Nat) : DB :=
  match suscripcionUtilizada b db usuario_id with
  | none => db
  | some sid => incrementarContador db sid

/-- The tables after lines 352-415 went through on the working tables `tx`, the
generator having returned `numero`: one reservation row and one line item per requested
service are appended. -/
def tablasRegistradas (env : Entorno) (usuario_id : Nat) (b : CrearReservaBody)
    (conductor : String) (suscripcion : Option Nat) (tx : DB) (numero : String) : DB :=
  { tx with
    reservas := tx.reservas ++ [nuevaReserva env usuario_id b conductor numero suscripcion]
    reservaServicios := tx.reservaServicios ++
      lineasServicios env.idNuevo tx (b.servicios.getD []) }

/-- The tables a request commits when every statement up to `COMMIT` went through and
the generator returned `numero`: the counter of the used subscription is incremented,
one reservation row and one line item per requested service are appended. -/
def tablasConfirmadas (env : Entorno) (usuario_id : Nat) (b : CrearReservaBody) (db : DB)
    (numero : String) : DB :=
  tablasRegistradas env usuario_id b (conductorFinal b db usuario_id)
    (suscripcionUtilizada b db usuario_id) (tablasTrasSuscripcion b db usuario_id) numero

/-- No statement of the subscription block throws and the quota is not exhausted. -/
def suscripcionPasa (env : Entorno) (b : CrearReservaBody) (db : DB) (usuario_id : Nat) : Prop :=
  match suscripcionSolicitada b with
  | none => True
  | some sid =>
      env.falla .selectSuscripcion = false ∧
        match (suscripcionesActivas db sid usuario_id).head? with
        | none => True
        | some (susc, plan) => cupoAgotado susc plan = false ∧ env.falla .updateContador = false

/-- The reservation insert, the price query and the insert of every requested service,
and `COMMIT` go through. -/
def registroPasa (env : Entorno) (b : CrearReservaBody) : Prop :=
  env.falla .insertReserva = false ∧
  (∀ j, j < (b.servicios.getD []).length →
    env.falla (.selectPrecio j) = false ∧ env.falla (.insertLinea j) = false) ∧
  env.falla .commit = false

/-- Every statement of the request up to `COMMIT`, the existence queries of the
generator apart, goes through: the user query when it is sent, `BEGIN`, the
subscription block, the inserts, the price queries and `COMMIT`. -/
def transaccionPasa (env : Entorno) (b : CrearReservaBody) (db : DB) (usuario_id : Nat) : Prop :=
  (truthyStr b.conductor_asignado = false → env.falla .nombreUsuario = false) ∧
  env.falla .begin = false ∧
  suscripcionPasa env b db usuario_id ∧
  registroPasa env b

/-- The booking number the generator returns inside the transaction opened on `db`, if
none of its existence queries throws. -/
def numeroGenerado (env : Entorno) (b : CrearReservaBody) (db : DB) : Option Generado :=
  generarNumeroReserva (b.es_reserva_empresarial == some true) (existeNumero env db) env.rnd
    env.ahora

/-- The three ways lines 314-445 can end when run from the committed tables `db` with no
transaction open: a statement throws before `COMMIT` is through and the committed tables
are still `db`; the quota rejection answers after its `ROLLBACK`; or everything up to
`COMMIT` went through and the tables of `tablasRegistradas` are committed, the read that
follows throwing or not. -/
def cursoTransaccion (env : Entorno) (usuario_id : Nat) (b : CrearReservaBody) (cf : String)
    (db : DB) (r : Curso Unit) : Prop :=
  (∃ c, r = .lanza c ∧ c.almacen = db ∧
      ¬ (env.falla .begin = false ∧ suscripcionPasa env b db usuario_id ∧ registroPasa env b ∧
          (numeroGenerado env b db).isSome)) ∨
  (r = .responde respuestaSinCupo ⟨db, none⟩ ∧
      ∃ sid susc plan, suscripcionSolicitada b = some sid ∧
        (suscripcionesActivas db sid usuario_id).head? = some (susc, plan) ∧
        cupoAgotado susc plan = true) ∨
  (∃ g, numeroGenerado env b db = some g ∧ env.falla .begin = false ∧
      suscripcionPasa env b db usuario_id ∧ registroPasa env b ∧
      r = if env.falla .selectCompleta then
            .lanza ⟨tablasRegistradas env usuario_id b cf (suscripcionUtilizada b db usuario_id)
              (tablasTrasSuscripcion b db usuario_id) g.numero, none⟩
          else
            .sigue () ⟨tablasRegistradas env usuario_id b cf
              (suscripcionUtilizada b db usuario_id) (tablasTrasSuscripcion b db usuario_id)
              g.numero, none⟩)

/-- The booking codes of the stored reservations that carry one. -/
def codigos (db : DB) : List String :=
  db.reservas.filterMap fun r => r.numero_reserva

/-! ## Client-side state changes -/

/-- Row `rows[0]` of `SELECT ... FROM lavado_auto_reserva WHERE id_reserva = $1`. -/
def buscarReserva (db : DB) (reservaId : Nat) : Option Reserva :=
  (db.reservas.filter fun r => r.id_reserva = reservaId).head?

/-- Statement `UPDATE lavado_auto_reserva SET ... WHERE id_reserva = $1`: the rows with that id
are rewritten by `f`. -/
def actualizarReserva (db : DB) (reservaId : Nat) (f : Reserva → Reserva) : DB :=
  { db with reservas := db.reservas.map fun r => if r.id_reserva = reservaId then f r else r }

/-- The body of a `cancelarReserva` request. `usuario_id` is the value of
`parseInt(req.body.usuario_id)`, `none` standing for `NaN`. -/
structure CancelarBody where
  usuario_id : Option Int
deriving DecidableEq, Repr

/-- Embedding of `cancelarReserva` of `reservaController.js` (lines 532-584). The
handler receives `req.user` from the `protect` middleware and never reads it. -/
def cancelarReserva (_user : Principal) (reservaId : Nat) (body : CancelarBody) (db : DB) :
    Respuesta × DB :=
  match buscarReserva db reservaId with
  | none => (⟨404, false, "Reserva no encontrada"⟩, db)
  | some reserva =>
      if some (reserva.usuario_id : Int) ≠ body.usuario_id then
        (⟨403, false, "No tienes permiso para cancelar esta reserva"⟩, db)
      else if reserva.estado = "cancelada" ∨ reserva.estado = "completado" then
        (⟨400, false, "No se puede cancelar una reserva en estado: " ++ reserva.estado⟩, db)
      else
        (⟨200, true, "Reserva cancelada exitosamente"⟩,
          actualizarReserva db reservaId fun r => { r with estado := "cancelada" })

/-- The body of a `reagendarReserva` request. -/
structure ReagendarBody where
  nueva_fecha : Option String
  nueva_hora : Option String
  usuario_id : Option Int
deriving DecidableEq, Repr

/-- Rows of the slot query of `reagendarReserva`: the reservations of that business at
that date and time, in a state other than `cancelada`, other than the one moved. -/
def horarioOcupado (db : DB) (empresa_id : Nat) (fecha hora : String) (reservaId : Nat) :
    List Reserva :=
  db.reservas.filter fun r =>
    r.empresa_id = empresa_id ∧ r.fecha = fecha ∧ r.hora = hora ∧
      r.estado ≠ "cancelada" ∧ r.id_reserva ≠ reservaId

/-- Embedding of `reagendarReserva` of `reservaController.js` (lines 587-677). The
handler receives `req.user` and never reads it. -/
def reagendarReserva (_user : Principal) (reservaId : Nat) (body : ReagendarBody) (db : DB) :
    Respuesta × DB :=
  if !truthyStr body.nueva_fecha || !truthyStr body.nueva_hora then
    (⟨400, false, "Se requiere nueva_fecha y nueva_hora"⟩, db)
  else
    match buscarReserva db reservaId with
    | none => (⟨404, false, "Reserva no encontrada"⟩, db)
    | some reserva =>
        if some (reserva.usuario_id : Int) ≠ body.usuario_id then
          (⟨403, false, "No tienes permiso para modificar esta reserva"⟩, db)
        else if reserva.estado = "cancelada" ∨ reserva.estado = "completado" then
          (⟨400, false, "No se puede reagendar una reserva en estado: " ++ reserva.estado⟩, db)
        else if (horarioOcupado db reserva.empresa_id (body.nueva_fecha.getD "")
            (body.nueva_hora.getD "") reservaId).length > 0 then
          (⟨400, false, "El horario seleccionado ya no está disponible"⟩, db)
        else
          (⟨200, true, "Reserva reagendada exitosamente"⟩,
            actualizarReserva db reservaId fun r =>
              { r with fecha := body.nueva_fecha.getD "", hora := body.nueva_hora.getD "" })

/-- The body of a `verificarYCompletarReservaQR` request. -/
structure QRBody where
  numero_reserva : Option String
  id_reserva : Option Nat
deriving DecidableEq, Repr

/-- Row `rows[0]` of the lookup of `verificarYCompletarReservaQR`: by booking code when one
is submitted, by id otherwise, inner-joined with the business and the user. -/
def buscarReservaQR (db : DB) (body : QRBody) : Option Reserva :=
  (db.reservas.filter fun r =>
    (if truthyStr body.numero_reserva then r.numero_reserva = body.numero_reserva
      else some r.id_reserva = body.id_reserva) ∧
    (db.empresas.any fun e => r.empresa_id = e.id_empresa) ∧
    (db.usuarios.any fun u => r.usuario_id = u.id_usuario)).head?

/-- Embedding of `verificarYCompletarReservaQR` of `reservaController.js`
(lines 753-857). `hoy` is the current calendar date. -/
def verificarYCompletarReservaQR (user : Principal) (hoy : String) (body : QRBody) (db : DB) :
    Respuesta × DB :=
  if !truthyStr body.numero_reserva && !truthyNat body.id_reserva then
    (⟨400, false, "Se requiere el número de reserva o ID de reserva"⟩, db)
  else
    match buscarReservaQR db body with
    | none => (⟨404, false, "Reserva no encontrada. El código QR puede ser inválido."⟩, db)
    | some reserva =>
        if reserva.usuario_id ≠ user.id then
          (⟨403, false,
            "Esta reserva no te pertenece. Solo puedes completar tus propias reservas."⟩, db)
        else if reserva.estado ≠ "pendiente" then
          (⟨400, false, "Esta reserva ya está " ++ reserva.estado ++ ". No se puede completar."⟩,
            db)
        else if reserva.fecha ≠ hoy then
          (⟨400, false, "Solo puedes completar reservas del día de hoy."⟩, db)
        else
          (⟨200, true, "¡Reserva completada exitosamente!"⟩,
            actualizarReserva db reserva.id_reserva fun r => { r with estado := "completado" })

/-- The body of a `recuperarReservaVencida` request. `pago_confirmado` is the truthiness
of the field. -/
structure RecuperarBody where
  nueva_fecha : Option String
  nueva_hora : Option String
  usuario_id : Option Int
  pago_confirmado : Bool
deriving DecidableEq, Repr

/-- Value of `COALESCE(SUM(rs.precio_aplicado), 0)` over the line items of a reservation. -/
def totalOriginal (db : DB) (reservaId : Nat) : ℚ :=
  ((db.reservaServicios.filter fun rs => rs.reserva_id = reservaId).map
    fun rs => rs.precio_aplicado).sum

/-- Rows of the slot query of `recuperarReservaVencida`: as `horarioOcupado`, with the
states `cancelada` and `vencida` both left out. -/
def horarioOcupadoRecuperar (db : DB) (empresa_id : Nat) (fecha hora : String)
    (reservaId : Nat) : List Reserva :=
  db.reservas.filter fun r =>
    r.empresa_id = empresa_id ∧ r.fecha = fecha ∧ r.hora = hora ∧
      (r.estado ≠ "cancelada" ∧ r.estado ≠ "vencida") ∧ r.id_reserva ≠ reservaId

/-- Embedding of `recuperarReservaVencida` of `reservaController.js` (lines 976-1089).
The handler receives `req.user` and never reads it. -/
def recuperarReservaVencida (_user : Principal) (reservaId : Nat) (body : RecuperarBody)
    (db : DB) : Respuesta × DB :=
  if !truthyStr body.nueva_fecha || !truthyStr body.nueva_hora then
    (⟨400, false, "Se requiere nueva_fecha y nueva_hora"⟩, db)
  else if !body.pago_confirmado then
    (⟨400, false, "Debe confirmar el pago del recargo para recuperar la reserva"⟩, db)
  else
    match buscarReserva db reservaId with
    | none => (⟨404, false, "Reserva no encontrada"⟩, db)
    | some reserva =>
        if some (reserva.usuario_id : Int) ≠ body.usuario_id then
          (⟨403, false, "No tienes permiso para modificar esta reserva"⟩, db)
        else if reserva.estado ≠ "vencida" then
          (⟨400, false, "Solo se pueden recuperar reservas con estado vencida"⟩, db)
        else if (horarioOcupadoRecuperar db reserva.empresa_id (body.nueva_fecha.getD "")
            (body.nueva_hora.getD "") reservaId).length > 0 then
          (⟨400, false, "El horario seleccionado ya no está disponible"⟩, db)
        else
          (⟨200, true, "Reserva recuperada exitosamente. Se aplicó un recargo del 25%."⟩,
            actualizarReserva db reservaId fun r =>
              { r with
                fecha := body.nueva_fecha.getD ""
                hora := body.nueva_hora.getD ""
                estado := "pendiente"
                fue_recuperada := true
                recargo_recuperacion := totalOriginal db reservaId * 0.25 })

/-! ## Expiry sweep and listing of a user's reservations -/

/-- One hour, in the unit of the clock. -/
def unaHora : Nat := 3600000

/-- The condition of the sweep of `getReservasPorUsuario` on one row:
`usuario_id = $1 AND estado IN ('pendiente', 'confirmada') AND
(fecha + hora + INTERVAL '1 hour') < NOW()`. The date arithmetic of the storage layer is
the parameter `instante`: the clock value of `fecha + hora`. -/
def debeVencer (instante : String → String → Nat) (ahora : Nat) (usuarioId : Nat)
    (r : Reserva) : Bool :=
  r.usuario_id = usuarioId ∧ (r.estado = "pendiente" ∨ r.estado = "confirmada") ∧
    instante r.fecha r.hora + unaHora < ahora

/-- The statement `UPDATE lavado_auto_reserva SET estado = 'vencida' WHERE ...` that
`getReservasPorUsuario` sends first. -/
def marcarVencidas (instante : String → String → Nat) (ahora : Nat) (usuarioId : Nat)
    (db : DB) : DB :=
  { db with reservas := db.reservas.map fun r =>
      if debeVencer instante ahora usuarioId r then { r with estado := "vencida" } else r }

/-- Lexicographic order on character codes: `a` is at most `b`. On normalised dates
(`YYYY-MM-DD`) and times it is the chronological order. -/
def cadenaLe : List Char → List Char → Bool
  | [], _ => true
  | _ :: _, [] => false
  | a :: as, b :: bs => decide (a.toNat < b.toNat) || (decide (a.toNat = b.toNat) && cadenaLe as bs)

/-- Order of `ORDER BY r.fecha DESC, r.hora DESC` on the normalised strings: `a` comes no
later than `b` in the result. -/
def masReciente (a b : Reserva) : Prop :=
  if b.fecha = a.fecha then cadenaLe b.hora.data a.hora.data = true
  else cadenaLe b.fecha.data a.fecha.data = true

instance : DecidableRel masReciente := fun a b =>
  inferInstanceAs (Decidable (if b.fecha = a.fecha then cadenaLe b.hora.data a.hora.data = true
    else cadenaLe b.fecha.data a.fecha.data = true))

/-- Rows of the listing query of `getReservasPorUsuario`: the reservations of the user,
inner-joined with their business, with the optional filter on `estado`, most recent
first. -/
def listarReservas (db : DB) (usuarioId : Nat) (estado : Option String) : List Reserva :=
  (db.reservas.filter fun r =>
    r.usuario_id = usuarioId ∧ (db.empresas.any fun e => r.empresa_id = e.id_empresa) ∧
      (if truthyStr estado then some r.estado = estado else True)).insertionSort masReciente

/-- What `getReservasPorUsuario` answers: the envelope and `data.reservas`. -/
structure ReservasRespuesta where
  respuesta : Respuesta
  reservas : List Reserva
deriving DecidableEq, Repr

/-- Embedding of `getReservasPorUsuario` of `reservaController.js` (lines 461-529).
`usuarioId` is the route parameter, `estado` the optional query parameter; the handler
receives `req.user` and never reads it. -/
def getReservasPorUsuario (_user : Principal) (instante : String → String → Nat) (ahora : Nat)
    (usuarioId : Nat) (estado : Option String) (db : DB) : ReservasRespuesta × DB :=
  let db1 := marcarVencidas instante ahora usuarioId db
  (⟨⟨200, true, ""⟩, listarReservas db1 usuarioId estado⟩, db1)

/-! ## Surcharge quote -/

/-- What `calcularRecargoRecuperacion` answers: the envelope and, on success,
`data.total_original` and `data.recargo`. -/
structure RecargoRespuesta where
  respuesta : Respuesta
  total_original : Option ℚ
  recargo : Option ℚ
deriving DecidableEq, Repr

/-- Row `rows[0]` of the lookup of `calcularRecargoRecuperacion`: the reservation with
that id, inner-joined with its business. -/
def buscarReservaConEmpresa (db : DB) (reservaId : Nat) : Option Reserva :=
  (db.reservas.filter fun r =>
    r.id_reserva = reservaId ∧ (db.empresas.any fun e => r.empresa_id = e.id_empresa)).head?

/-- Embedding of `calcularRecargoRecuperacion` of `reservaController.js`
(lines 904-973). `usuario_id` is the value of `parseInt(req.query.usuario_id)`, `none`
standing for `NaN`; the handler receives `req.user` and never reads it. It writes
nothing. -/
def calcularRecargoRecuperacion (_user : Principal) (reservaId : Nat)
    (usuario_id : Option Int) (db : DB) : RecargoRespuesta :=
  match buscarReservaConEmpresa db reservaId with
  | none => ⟨⟨404, false, "Reserva no encontrada"⟩, none, none⟩
  | some reserva =>
      if some (reserva.usuario_id : Int) ≠ usuario_id then
        ⟨⟨403, false, "No tienes permiso para ver esta reserva"⟩, none, none⟩
      else if reserva.estado ≠ "vencida" then
        ⟨⟨400, false, "Solo se pueden recuperar reservas vencidas"⟩, none, none⟩
      else
        ⟨⟨200, true, ""⟩, some (totalOriginal db reservaId),
          some (totalOriginal db reservaId * 0.25)⟩

/-! ## Available time slots -/

/-- The constant `todosLosHorarios` of `getHorariosDisponibles`. -/
def todosLosHorarios : List String :=
  ["08:00", "09:00", "10:00", "11:00", "12:00", "13:00",
    "14:00", "15:00", "16:00", "17:00", "18:00"]

/-- JavaScript `s.substring(0, 5)`. -/
def primerosCinco (s : String) : String := String.mk (s.data.take 5)

/-- JavaScript `parseInt(hora.split(':')[0])` on a string that starts with decimal
digits: the number written before the first colon. -/
def horaNum (hora : String) : Nat :=
  ((hora.data.takeWhile fun c => c != ':').takeWhile Char.isDigit).foldl
    (fun n c => 10 * n + (c.toNat - 48)) 0

/-- Rows of the query of `getHorariosDisponibles`, each turned into `HH:MM`: the times
held at that business on that date by a reservation in a state other than
`cancelada`. -/
def horasOcupadas (db : DB) (empresaId : Nat) (fecha : String) : List String :=
  (db.reservas.filter fun r =>
    r.empresa_id = empresaId ∧ r.fecha = fecha ∧ r.estado ≠ "cancelada").map
    fun r => primerosCinco r.hora

/-- One element of `todosLosHorarios` in the answer of `getHorariosDisponibles`. -/
structure HorarioEstado where
  hora : String
  disponible : Bool
  ocupado : Bool
  pasado : Bool
deriving DecidableEq, Repr

/-- What `getHorariosDisponibles` answers. -/
structure HorariosRespuesta where
  respuesta : Respuesta
  horariosDisponibles : List String
  todosLosHorarios : List HorarioEstado
  horasOcupadas : List String
  esHoy : Bool
deriving DecidableEq, Repr

/-- The element of `horariosConEstado` for one slot of the grid. -/
def horarioConEstado (ocupadas : List String) (esHoy : Bool) (horaActual : Nat)
    (hora : String) : HorarioEstado :=
  let ocupado := ocupadas.contains hora
  let pasado := esHoy && decide (horaNum hora ≤ horaActual)
  { hora := hora, disponible := !ocupado && !pasado, ocupado := ocupado, pasado := pasado }

/-- Embedding of `getHorariosDisponibles` of `reservaController.js` (lines 680-750).
`hoy` is the current calendar date and `horaActual` the value of `hoy.getHours()`;
`empresaId` and `fecha` are the query parameters. It writes nothing. -/
def getHorariosDisponibles (hoy : String) (horaActual : Nat) (empresaId : Option Nat)
    (fecha : Option String) (db : DB) : HorariosRespuesta :=
  match empresaId, fecha with
  | some empresa, some f =>
      if f = "" then ⟨⟨400, false, "Se requiere empresaId y fecha"⟩, [], [], [], false⟩
      else
        let ocupadas := horasOcupadas db empresa f
        let esHoy := decide (hoy = f)
        let horariosConEstado :=
          todosLosHorarios.map (horarioConEstado ocupadas esHoy horaActual)
        ⟨⟨200, true, ""⟩,
          (horariosConEstado.filter fun h => h.disponible).map fun h => h.hora,
          horariosConEstado, ocupadas, esHoy⟩
  | _, _ => ⟨⟨400, false, "Se requiere empresaId y fecha"⟩, [], [], [], false⟩

/-! ## Business-side state change -/

/-- The constant `estadosValidos` of `actualizarEstadoReserva`. -/
def estadosValidos : List String := ["pendiente", "completado", "cancelada"]

/-- The body of an `actualizarEstadoReserva` request. -/
structure EstadoBody where
  estado : Option String
deriving DecidableEq, Repr

/-- Rows of the lookup of `actualizarEstadoReserva`:
`SELECT id_reserva, estado FROM lavado_auto_reserva WHERE id_reserva = $1 AND
empresa_id = $2`. -/
def reservasDeEmpresa (db : DB) (reservaId empresaId : Nat) : List Reserva :=
  db.reservas.filter fun r => r.id_reserva = reservaId ∧ r.empresa_id = empresaId

/-- Embedding of `actualizarEstadoReserva` of `empresaController.js` (lines 361-412).
The principal is the business that `protectEmpresa` authenticated. -/
def actualizarEstadoReserva (user : Principal) (reservaId : Nat) (body : EstadoBody)
    (db : DB) : Respuesta × DB :=
  match body.estado with
  | none => (⟨400, false, "Estado no válido"⟩, db)
  | some estado =>
      if !estadosValidos.contains estado then (⟨400, false, "Estado no válido"⟩, db)
      else if (reservasDeEmpresa db reservaId user.id).length = 0 then
        (⟨404, false, "Reserva no encontrada"⟩, db)
      else
        (⟨200, true, "Estado actualizado correctamente"⟩,
          actualizarReserva db reservaId fun r => { r with estado := estado })

/-! ## Invariant of the surcharge -/

/-- The surcharge of a reservation is non-zero only if the reservation was recovered. -/
def recargoSoloSiRecuperada (db : DB) : Prop :=
  ∀ r ∈ db.reservas, r.recargo_recuperacion ≠ 0 → r.fue_recuperada = true

/-! ## Password hashes of `utils/djangoPassword.js` -/

/-- JavaScript `s.split('$')` on the characters of `s`: the pieces between the occurrences
of the separator. There is always at least one piece. -/
def splitDolar : List Char → List (List Char)
  | [] => [[]]
  | c :: cs =>
      if c = '$' then [] :: splitDolar cs
      else
        match splitDolar cs with
        | [] => [[c]]
        | p :: ps => (c :: p) :: ps

/-- Code points of the white space and line terminators that `parseInt` skips at the
start of its argument. -/
def espacios : List Nat :=
  [9, 10, 11, 12, 13, 32, 160, 5760, 8192, 8193, 8194, 8195, 8196, 8197, 8198, 8199, 8200,
    8201, 8202, 8232, 8233, 8239, 8287, 12288, 65279]

/-- Whether `parseInt` skips the character. -/
def esEspacio (c : Char) : Bool := espacios.contains c.toNat

/-- The value of a character as a digit in the given radix, if it is one: `0`-`9`, then
the letters in either case. -/
def digitoEnBase (base : Nat) (c : Char) : Option Nat :=
  let v : Option Nat :=
    if 48 ≤ c.toNat ∧ c.toNat ≤ 57 then some (c.toNat - 48)
    else if 97 ≤ c.toNat ∧ c.toNat ≤ 122 then some (c.toNat - 87)
    else if 65 ≤ c.toNat ∧ c.toNat ≤ 90 then some (c.toNat - 55)
    else none
  v.filter fun d => d < base

/-- The number read from the longest prefix of digits of the radix; `acc` is the value
read so far, `none` while no digit has been read. -/
def leerDigitos (base : Nat) : List Char → Option Nat → Option Nat
  | [], acc => acc
  | c :: cs, acc =>
      match digitoEnBase base c with
      | none => acc
      | some d => leerDigitos base cs (some (acc.getD 0 * base + d))

/-- The optional sign at the start of the argument of `parseInt`: whether it is a minus
sign, and what follows it. -/
def quitarSigno : List Char → Bool × List Char
  | [] => (false, [])
  | c :: r => if c = '-' then (true, r) else if c = '+' then (false, r) else (false, c :: r)

/-- The radix `parseInt` reads in when called without one, and what it reads: 16 after a
prefix `0x` or `0X`, 10 otherwise. -/
def quitarPrefijoHex : List Char → Nat × List Char
  | a :: b :: r => if a = '0' ∧ (b = 'x' ∨ b = 'X') then (16, r) else (10, a :: b :: r)
  | r => (10, r)

/-- JavaScript `parseInt(s)`: leading white space is skipped, then an optional sign and an
optional hexadecimal prefix, then the longest run of digits is read. `none` is `NaN`. -/
def parseInt (s : List Char) : Option Int :=
  let signo := quitarSigno (s.dropWhile esEspacio)
  let base := quitarPrefijoHex signo.2
  (leerDigitos base.1 base.2 none).map fun n => if signo.1 then -(n : Int) else (n : Int)

/-- One byte of a `Buffer`. -/
abbrev Byte := Fin 256

/-- The alphabet of the `base64` encoding. -/
def alfabeto64 : List Char :=
  "ABCDEFGHIJKLMNOPQRSTUVWXYZabcdefghijklmnopqrstuvwxyz0123456789+/".data

/-- The character of a six-bit value. -/
def car64 (n : Nat) : Char := alfabeto64.getD (n % 64) 'A'

/-- Encoding `buffer.toString('base64')`: three bytes give four characters, and a last
group of one or two bytes is padded with `=`. -/
def base64 : List Byte → List Char
  | [] => []
  | [a] => [car64 (a.val / 4), car64 (a.val % 4 * 16), '=', '=']
  | [a, b] => [car64 (a.val / 4), car64 (a.val % 4 * 16 + b.val / 16), car64 (b.val % 16 * 4), '=']
  | a :: b :: c :: resto =>
      car64 (a.val / 4) :: car64 (a.val % 4 * 16 + b.val / 16) ::
        car64 (b.val % 16 * 4 + c.val / 64) :: car64 (c.val % 64) :: base64 resto

/-- The key derivation `crypto.pbkdf2Sync(password, salt, iterations, 32, 'sha256')` of the
platform, a deterministic function of the password, the salt and the iteration count. The
count is a JavaScript number (`none` is `NaN`); the result is `none` when the call throws. -/
abbrev Pbkdf2 := String → String → Option Int → Option (List Byte)

/-- The name of the algorithm in a legacy hash. -/
def algoritmoDjango : String := "pbkdf2_sha256"

/-- Embedding of `verifyDjangoPassword` of `djangoPassword.js` (lines 12-49). An exception
of the key derivation is caught and answered with `false`. -/
def verifyDjangoPassword (pbkdf2Sync : Pbkdf2) (password djangoHash : String) : Bool :=
  match splitDolar djangoHash.data with
  | [algorithm, iterations, salt, originalHash] =>
      if algorithm ≠ algoritmoDjango.data then false
      else
        match pbkdf2Sync password (String.mk salt) (parseInt iterations) with
        | none => false
        | some hash => base64 hash = originalHash
  | _ => false

/-- The salt of `hashDjangoPassword`: `crypto.randomBytes(12).toString('base64').slice(0, 12)`. -/
def saltAleatorio (randomBytes : Fin 12 → Byte) : String :=
  String.mk ((base64 (List.ofFn randomBytes)).take 12)

/-- The string `hashDjangoPassword` puts together from the iteration count, the salt and
the derived key. -/
def formatoDjango (iterations : Nat) (salt : String) (hash : List Byte) : String :=
  algoritmoDjango ++ "$" ++ toString iterations ++ "$" ++ salt ++ "$" ++ String.mk (base64 hash)

/-- Embedding of `hashDjangoPassword` of `djangoPassword.js` (lines 59-83). `randomBytes`
are the twelve bytes drawn for the salt. The result is `none` when the key derivation
throws: the function logs and throws again. -/
def hashDjangoPassword (pbkdf2Sync : Pbkdf2) (randomBytes : Fin 12 → Byte) (password : String)
    (iterations : Nat) : Option String :=
  match pbkdf2Sync password (saltAleatorio randomBytes) (some (iterations : Int)) with
  | none => none
  | some hash => some (formatoDjango iterations (saltAleatorio randomBytes) hash)

/-- The default of the parameter `iterations` of `hashDjangoPassword`. -/
def iteracionesDjango : Nat := 260000

/-- Embedding of `isDjangoHash` of `djangoPassword.js` (lines 91-98). -/
def isDjangoHash (hash : String) : Bool :=
  if hash = "" then false
  else (splitDolar hash.data).length = 4 ∧ (splitDolar hash.data).head? = some algoritmoDjango.data

/-- The comparison `bcrypt.compare(password, hash)` of the `bcryptjs` package. -/
abbrev BcryptCompare := String → String → Bool
/-! ## Accounts and logins of `authController.js` -/

/-- A row of `lavado_auto_usuario` with the columns the authentication handlers read and
write. Clock values are in milliseconds. -/
structure CuentaUsuario where
  id_usuario : Nat
  correo : String
  password : String
  rol : String
  is_active : Bool
  failed_login_attempts : Nat
  lockout_time : Option Nat
  first_warning_sent : Bool
  last_failed_login : Option Nat
deriving DecidableEq, Repr

/-- A row of `lavado_auto_empresa` with the columns the authentication handlers read and
write. -/
structure CuentaEmpresa where
  id_empresa : Nat
  email : String
  contrasena : String
  verificada : Bool
  is_active : Bool
  failed_login_attempts : Nat
  lockout_time : Option Nat
  first_warning_sent : Bool
  last_failed_login : Option Nat
deriving DecidableEq, Repr

/-- The two tables of accounts. -/
structure Cuentas where
  usuarios : List CuentaUsuario
  empresas : List CuentaEmpresa
deriving DecidableEq, Repr

/-- The payload `generateToken` signs: `{ id, email, rol }`. -/
structure Payload where
  id : Nat
  email : String
  rol : String
deriving DecidableEq, Repr

/-- What a login answers: the envelope, the fields `remainingMinutes` and
`remainingAttempts` when the answer carries them, and the payload of the token of a
successful login. -/
structure LoginRespuesta where
  respuesta : Respuesta
  remainingMinutes : Option Int
  remainingAttempts : Option Int
  token : Option Payload
deriving DecidableEq, Repr

/-- The body of a `login` request. -/
structure LoginBody where
  correo : Option String
  password : Option String
deriving DecidableEq, Repr

/-- The body of a `loginEmpresa` request. -/
structure LoginEmpresaBody where
  email : Option String
  password : Option String
deriving DecidableEq, Repr

/-- Value of `(currentTime - lockoutTime) / (1000 * 60)`: the minutes since the lock. -/
def timeDiff (currentTime lockoutTime : Nat) : ℚ :=
  ((currentTime : ℚ) - (lockoutTime : ℚ)) / (1000 * 60)

/-- The answer to a login on a locked account (status 423). -/
def respuestaBloqueada (currentTime lockoutTime : Nat) : LoginRespuesta :=
  { respuesta := ⟨423, false, "Cuenta bloqueada temporalmente. Intenta nuevamente en " ++
      toString ⌈15 - timeDiff currentTime lockoutTime⌉ ++ " minutos."⟩
    remainingMinutes := some ⌈15 - timeDiff currentTime lockoutTime⌉
    remainingAttempts := none
    token := none }

/-- The answer to the failure that sets the lock. -/
def respuestaBloqueo : LoginRespuesta :=
  { respuesta := ⟨423, false, "Cuenta bloqueada temporalmente por 15 minutos debido a " ++
      "múltiples intentos fallidos."⟩
    remainingMinutes := some 15
    remainingAttempts := none
    token := none }

/-- The answer to the failure that deactivates the account. -/
def respuestaDesactivada : LoginRespuesta :=
  { respuesta := ⟨403, false,
      "Cuenta desactivada por seguridad. Contacta al administrador para reactivarla."⟩
    remainingMinutes := none
    remainingAttempts := none
    token := none }

/-- The answer to any other failure, with the attempts left. -/
def respuestaIntentos (remainingAttempts : Int) : LoginRespuesta :=
  { respuesta := ⟨401, false,
      "Credenciales incorrectas. Te quedan " ++ toString remainingAttempts ++ " intentos."⟩
    remainingMinutes := none
    remainingAttempts := some remainingAttempts
    token := none }

/-- An answer that carries the envelope only. -/
def soloRespuesta (r : Respuesta) : LoginRespuesta := ⟨r, none, none, none⟩

/-- The verification of the submitted password against the stored hash, as `login`
(lines 218-227), `loginEmpresa` (lines 762-771) and `changePassword` (lines 499-506) write
it: the legacy verification for a hash in the legacy format, `bcrypt.compare` otherwise. -/
def isPasswordValid (pbkdf2Sync : Pbkdf2) (bcryptCompare : BcryptCompare)
    (password stored : String) : Bool :=
  if isDjangoHash stored then verifyDjangoPassword pbkdf2Sync password stored
  else bcryptCompare password stored

/-- Statement `UPDATE lavado_auto_usuario SET ... WHERE id_usuario = $1`. -/
def actualizarUsuario (c : Cuentas) (id : Nat) (f : CuentaUsuario → CuentaUsuario) : Cuentas :=
  { c with usuarios := c.usuarios.map fun u => if u.id_usuario = id then f u else u }

/-- Statement `UPDATE lavado_auto_empresa SET ... WHERE id_empresa = $1`. -/
def actualizarEmpresa (c : Cuentas) (id : Nat) (f : CuentaEmpresa → CuentaEmpresa) : Cuentas :=
  { c with empresas := c.empresas.map fun e => if e.id_empresa = id then f e else e }

/-- Rows of the lookup of `login`: the accounts with that address and the role `cliente`. -/
def usuariosPorCorreo (c : Cuentas) (correo : String) : List CuentaUsuario :=
  c.usuarios.filter fun u => u.correo = correo ∧ u.rol = "cliente"

/-- Lines 218-298 of `login`: the password check on the row read at the start, on the
tables as the lock check left them. -/
def loginPassword (pbkdf2Sync : Pbkdf2) (bcryptCompare : BcryptCompare) (now : Nat)
    (password : String) (user : CuentaUsuario) (c : Cuentas) : LoginRespuesta × Cuentas :=
  if !isPasswordValid pbkdf2Sync bcryptCompare password user.password then
    let newAttempts := user.failed_login_attempts + 1
    if !user.first_warning_sent && decide (newAttempts ≥ 3) then
      (respuestaBloqueo,
        actualizarUsuario c user.id_usuario fun u =>
          { u with
            failed_login_attempts := newAttempts
            last_failed_login := some now
            lockout_time := some now
            first_warning_sent := true })
    else if user.first_warning_sent && decide (newAttempts ≥ 6) then
      (respuestaDesactivada,
        actualizarUsuario c user.id_usuario fun u =>
          { u with
            failed_login_attempts := newAttempts
            last_failed_login := some now
            is_active := false
            lockout_time := none })
    else
      (respuestaIntentos
          (if user.first_warning_sent then 6 - (newAttempts : Int) else 3 - (newAttempts : Int)),
        actualizarUsuario c user.id_usuario fun u =>
          { u with failed_login_attempts := newAttempts, last_failed_login := some now })
  else
    ({ respuesta := ⟨200, true, "Login exitoso"⟩
       remainingMinutes := none
       remainingAttempts := none
       token := some ⟨user.id_usuario, user.correo, user.rol⟩ },
      actualizarUsuario c user.id_usuario fun u =>
        { u with
          failed_login_attempts := 0
          last_failed_login := none
          lockout_time := none
          first_warning_sent := false })

/-- Embedding of `login` of `authController.js` (lines 153-325). `currentTime` is the
clock of the server (`new Date()`), `now` the clock of the storage (`NOW()`). -/
def login (pbkdf2Sync : Pbkdf2) (bcryptCompare : BcryptCompare) (currentTime now : Nat)
    (body : LoginBody) (c : Cuentas) : LoginRespuesta × Cuentas :=
  if !truthyStr body.correo || !truthyStr body.password then
    (soloRespuesta ⟨400, false, "Por favor ingresa correo y contraseña"⟩, c)
  else
    match (usuariosPorCorreo c (body.correo.getD "")).head? with
    | none => (soloRespuesta ⟨401, false, "Credenciales incorrectas"⟩, c)
    | some user =>
        if !user.is_active then
          (soloRespuesta
            ⟨403, false, "Tu cuenta ha sido desactivada. Contacta al administrador."⟩, c)
        else
          match user.lockout_time with
          | some lockoutTime =>
              if timeDiff currentTime lockoutTime < 15 then
                (respuestaBloqueada currentTime lockoutTime, c)
              else
                loginPassword pbkdf2Sync bcryptCompare now (body.password.getD "") user
                  (actualizarUsuario c user.id_usuario fun u => { u with lockout_time := none })
          | none => loginPassword pbkdf2Sync bcryptCompare now (body.password.getD "") user c

/-- Rows of the lookup of `loginEmpresa`: the businesses with that address. -/
def empresasPorEmail (c : Cuentas) (email : String) : List CuentaEmpresa :=
  c.empresas.filter fun e => e.email = email

/-- Lines 762-840 of `loginEmpresa`: the password check on the row read at the start, on
the tables as the lock check left them. -/
def loginEmpresaPassword (pbkdf2Sync : Pbkdf2) (bcryptCompare : BcryptCompare) (now : Nat)
    (password : String) (empresa : CuentaEmpresa) (c : Cuentas) : LoginRespuesta × Cuentas :=
  if !isPasswordValid pbkdf2Sync bcryptCompare password empresa.contrasena then
    let newAttempts := empresa.failed_login_attempts + 1
    if !empresa.first_warning_sent && decide (newAttempts ≥ 3) then
      (respuestaBloqueo,
        actualizarEmpresa c empresa.id_empresa fun e =>
          { e with
            failed_login_attempts := newAttempts
            last_failed_login := some now
            lockout_time := some now
            first_warning_sent := true })
    else if empresa.first_warning_sent && decide (newAttempts ≥ 6) then
      (respuestaDesactivada,
        actualizarEmpresa c empresa.id_empresa fun e =>
          { e with
            failed_login_attempts := newAttempts
            last_failed_login := some now
            is_active := false
            lockout_time := none })
    else
      (respuestaIntentos
          (if empresa.first_warning_sent then 6 - (newAttempts : Int)
            else 3 - (newAttempts : Int)),
        actualizarEmpresa c empresa.id_empresa fun e =>
          { e with failed_login_attempts := newAttempts, last_failed_login := some now })
  else
    ({ respuesta := ⟨200, true, "Login exitoso"⟩
       remainingMinutes := none
       remainingAttempts := none
       token := some ⟨empresa.id_empresa, empresa.email, "empresa"⟩ },
      actualizarEmpresa c empresa.id_empresa fun e =>
        { e with
          failed_login_attempts := 0
          last_failed_login := none
          lockout_time := none
          first_warning_sent := false })

/-- Embedding of `loginEmpresa` of `authController.js` (lines 691-866). -/
def loginEmpresa (pbkdf2Sync : Pbkdf2) (bcryptCompare : BcryptCompare) (currentTime now : Nat)
    (body : LoginEmpresaBody) (c : Cuentas) : LoginRespuesta × Cuentas :=
  if !truthyStr body.email || !truthyStr body.password then
    (soloRespuesta ⟨400, false, "Por favor ingresa email y contraseña"⟩, c)
  else
    match (empresasPorEmail c (body.email.getD "")).head? with
    | none => (soloRespuesta ⟨401, false, "Credenciales incorrectas"⟩, c)
    | some empresa =>
        if !empresa.is_active then
          (soloRespuesta
            ⟨403, false, "Tu cuenta ha sido desactivada. Contacta al administrador."⟩, c)
        else if !empresa.verificada then
          (soloRespuesta
            ⟨403, false, "Tu empresa aún no ha sido verificada. Contacta al administrador."⟩,
            c)
        else
          match empresa.lockout_time with
          | some lockoutTime =>
              if timeDiff currentTime lockoutTime < 15 then
                (respuestaBloqueada currentTime lockoutTime, c)
              else
                loginEmpresaPassword pbkdf2Sync bcryptCompare now (body.password.getD "")
                  empresa
                  (actualizarEmpresa c empresa.id_empresa fun e =>
                    { e with lockout_time := none })
          | none =>
              loginEmpresaPassword pbkdf2Sync bcryptCompare now (body.password.getD "")
                empresa c

/-! ## Password changes -/

/-- JavaScript `s.length`: the number of UTF-16 code units of the string. -/
def jsLength (s : String) : Nat :=
  (s.data.map fun ch => if ch.toNat < 65536 then 1 else 2).sum

/-- The body of a `changePassword` request. -/
structure ChangePasswordBody where
  currentPassword : Option String
  newPassword : Option String
deriving DecidableEq, Repr

/-- Embedding of `changePassword` of `authController.js` (lines 460-534). The principal is
the customer that `protect` authenticated; `randomBytes` are the bytes drawn for the salt
of the new hash. An exception of `hashDjangoPassword` is answered by the `catch` block. -/
def changePassword (pbkdf2Sync : Pbkdf2) (bcryptCompare : BcryptCompare)
    (randomBytes : Fin 12 → Byte) (user : Principal) (body : ChangePasswordBody)
    (c : Cuentas) : Respuesta × Cuentas :=
  if !truthyStr body.currentPassword || !truthyStr body.newPassword then
    (⟨400, false, "Debes proporcionar la contraseña actual y la nueva contraseña"⟩, c)
  else if jsLength (body.newPassword.getD "") < 6 then
    (⟨400, false, "La nueva contraseña debe tener al menos 6 caracteres"⟩, c)
  else
    match (c.usuarios.filter fun u => u.id_usuario = user.id ∧ u.rol = "cliente").head? with
    | none => (⟨404, false, "Usuario no encontrado"⟩, c)
    | some usuario =>
        if !isPasswordValid pbkdf2Sync bcryptCompare (body.currentPassword.getD "")
            usuario.password then
          (⟨401, false, "La contraseña actual es incorrecta"⟩, c)
        else
          match hashDjangoPassword pbkdf2Sync randomBytes (body.newPassword.getD "")
              iteracionesDjango with
          | none => (⟨500, false, "Error al cambiar contraseña"⟩, c)
          | some hashedPassword =>
              (⟨200, true, "Contraseña actualizada exitosamente"⟩,
                actualizarUsuario c user.id fun u => { u with password := hashedPassword })

/-- The exports of `djangoPassword.js` that take a password and give a hash, by name
(lines 100-104): of the three exports `verifyDjangoPassword`, `hashDjangoPassword` and
`isDjangoHash`, the second. -/
def exportsHash (pbkdf2Sync : Pbkdf2) (randomBytes : Fin 12 → Byte) :
    List (String × (String → Option String)) :=
  [("hashDjangoPassword",
    fun password => hashDjangoPassword pbkdf2Sync randomBytes password iteracionesDjango)]

/-- The binding of `makeDjangoPassword` in `cambiarContrasena` (line 1203):
`const { verifyDjangoPassword, makeDjangoPassword } = require('../utils/djangoPassword')`
takes the property of that name of the exports, `undefined` (here `none`) when the module
exports no such name. -/
def makeDjangoPassword (pbkdf2Sync : Pbkdf2) (randomBytes : Fin 12 → Byte) :
    Option (String → Option String) :=
  (exportsHash pbkdf2Sync randomBytes).lookup "makeDjangoPassword"

/-- The body of a `cambiarContrasena` request. -/
structure CambiarContrasenaBody where
  contrasena_actual : Option String
  nueva_contrasena : Option String
deriving DecidableEq, Repr

/-- Embedding of `cambiarContrasena` of `empresaController.js` (lines 1166-1236). The
principal is the business that `protectEmpresa` authenticated. The current password is
checked with `verifyDjangoPassword` alone. Calling a binding that is `undefined` throws, and
the `catch` block answers 500. -/
def cambiarContrasena (pbkdf2Sync : Pbkdf2) (randomBytes : Fin 12 → Byte) (user : Principal)
    (body : CambiarContrasenaBody) (c : Cuentas) : Respuesta × Cuentas :=
  if !truthyStr body.contrasena_actual || !truthyStr body.nueva_contrasena then
    (⟨400, false, "Debe proporcionar la contraseña actual y la nueva contraseña"⟩, c)
  else if jsLength (body.nueva_contrasena.getD "") < 6 then
    (⟨400, false, "La nueva contraseña debe tener al menos 6 caracteres"⟩, c)
  else
    match (c.empresas.filter fun e => e.id_empresa = user.id).head? with
    | none => (⟨404, false, "Empresa no encontrada"⟩, c)
    | some empresa =>
        if !verifyDjangoPassword pbkdf2Sync (body.contrasena_actual.getD "")
            empresa.contrasena then
          (⟨400, false, "La contraseña actual es incorrecta"⟩, c)
        else
          match makeDjangoPassword pbkdf2Sync randomBytes with
          | none => (⟨500, false, "Error al cambiar contraseña"⟩, c)
          | some make =>
              match make (body.nueva_contrasena.getD "") with
              | none => (⟨500, false, "Error al cambiar contraseña"⟩, c)
              | some nuevaContrasenaHash =>
                  (⟨200, true, "Contraseña actualizada correctamente"⟩,
                    actualizarEmpresa c user.id fun e =>
                      { e with contrasena := nuevaContrasenaHash })

/-! ## Reads of the subscription quota -/

/-- A row of `lavado_auto_suscripcionusuario` with the two dates of validity that the reads
of the quota select. Dates are clock values in milliseconds. -/
structure SuscripcionFechas extends Suscripcion where
  fecha_inicio : Nat
  fecha_fin : Nat
deriving DecidableEq, Repr

/-- The two tables the reads of the quota join. -/
structure Planes where
  planes : List Plan
  suscripciones : List SuscripcionFechas
deriving DecidableEq, Repr

/-- A JSON value of an answer that is a number in one case and a string in another. -/
inductive Valor where
  | numero (n : Int)
  | texto (s : String)
deriving DecidableEq, Repr

/-- Rows of the query both reads send: the subscriptions of the user in state `activa` whose
`fecha_fin` is not before `CURRENT_DATE`, joined with their plan, ordered by `fecha_inicio`
descending. `usuarioId` is `none` for a parameter that is `undefined`. -/
def suscripcionesVigentes (db : Planes) (hoy : Nat) (usuarioId : Option Nat) :
    List (SuscripcionFechas × Plan) :=
  ((db.suscripciones.filter fun su =>
      some su.usuario_id = usuarioId ∧ su.estado = "activa" ∧ su.fecha_fin ≥ hoy).flatMap
    fun su => (db.planes.filter fun p => su.plan_id = p.id_plan).map fun p => (su, p)).insertionSort
    fun a b => a.1.fecha_inicio ≥ b.1.fecha_inicio

/-- One day, in the unit of the clock: `1000 * 60 * 60 * 24`. -/
def unDia : Int := 1000 * 60 * 60 * 24

/-- Value of `Math.floor((ahora - ultimoReinicio) / (1000 * 60 * 60 * 24))`: the quotient
of two integers, rounded down. -/
def diasDesdeReinicio (ahora ultimoReinicio : Nat) : Int :=
  ((ahora : Int) - (ultimoReinicio : Int)) / unDia

/-- Statement `UPDATE lavado_auto_suscripcionusuario SET servicios_utilizados_mes = 0,
ultimo_reinicio_contador = NOW() WHERE id_suscripcion = $1`. -/
def reiniciarContador (db : Planes) (now : Nat) (id_suscripcion : Nat) : Planes :=
  { db with suscripciones := db.suscripciones.map fun su =>
      if su.id_suscripcion = id_suscripcion then
        { su with servicios_utilizados_mes := 0, ultimo_reinicio_contador := now }
      else su }

/-- What `verificarSuscripcion` answers: the envelope, `tieneSuscripcion`, and of the
subscription its id, `serviciosUtilizadosMes` and `plan.cantidadServiciosMes`, and
`serviciosDisponibles`. -/
structure VerificarRespuesta where
  respuesta : Respuesta
  tieneSuscripcion : Bool
  id : Option Nat
  serviciosUtilizadosMes : Option Int
  cantidadServiciosMes : Option Int
  serviciosDisponibles : Valor
deriving DecidableEq, Repr

/-- Embedding of `verificarSuscripcion` of `reservaController.js` (lines 115-213). `hoy` is
`CURRENT_DATE`, `ahora` the clock of the server (`new Date()`), `now` the clock of the
storage (`NOW()`). -/
def verificarSuscripcion (hoy ahora now : Nat) (user : Principal) (db : Planes) :
    VerificarRespuesta × Planes :=
  match (suscripcionesVigentes db hoy (some user.id)).head? with
  | none => (⟨⟨200, true, ""⟩, false, none, none, none, .numero 0⟩, db)
  | some (suscripcion, plan) =>
      let reinicia : Bool := diasDesdeReinicio ahora suscripcion.ultimo_reinicio_contador ≥ 30
      let serviciosUtilizados := if reinicia then 0 else suscripcion.servicios_utilizados_mes
      let cantidadMes := plan.cantidad_servicios_mes
      let serviciosDisponibles : Int :=
        if cantidadMes = 0 then -1 else max 0 (cantidadMes - serviciosUtilizados)
      (⟨⟨200, true, ""⟩, true, some suscripcion.id_suscripcion, some serviciosUtilizados,
          some cantidadMes, .numero serviciosDisponibles⟩,
        if reinicia then reiniciarContador db now suscripcion.id_suscripcion else db)

/-- The object `data` of the answer of `GET /mi-suscripcion/activa`: the columns of the row
that the claims read, `dias_restantes` and `servicios_restantes`. -/
structure MiSuscripcionData where
  id_suscripcion : Nat
  servicios_utilizados_mes : Int
  ultimo_reinicio_contador : Nat
  cantidad_servicios_mes : Int
  dias_restantes : Int
  servicios_restantes : Valor
deriving DecidableEq, Repr

/-- What `GET /mi-suscripcion/activa` answers. -/
structure MiSuscripcionRespuesta where
  respuesta : Respuesta
  data : Option MiSuscripcionData
deriving DecidableEq, Repr

/-- Embedding of the handler of `GET /mi-suscripcion/activa` of `planRoutes.js`
(lines 67-153). The user id is `req.user.id || req.user.id_usuario`, and `protect` sets
no `id_usuario`. `hoy` is `CURRENT_DATE` and `ahora` the clock of the server. The handler
sends no statement that writes. -/
def miSuscripcionActiva (hoy ahora : Nat) (user : Principal) (db : Planes) :
    MiSuscripcionRespuesta × Planes :=
  match (suscripcionesVigentes db hoy (if user.id ≠ 0 then some user.id else none)).head? with
  | none => (⟨⟨200, true, "No tienes una suscripción activa"⟩, none⟩, db)
  | some (suscripcion, plan) =>
      (⟨⟨200, true, ""⟩, some
          { id_suscripcion := suscripcion.id_suscripcion
            servicios_utilizados_mes := suscripcion.servicios_utilizados_mes
            ultimo_reinicio_contador := suscripcion.ultimo_reinicio_contador
            cantidad_servicios_mes := plan.cantidad_servicios_mes
            dias_restantes := -(((ahora : Int) - (suscripcion.fecha_fin : Int)) / unDia)
            servicios_restantes :=
              if plan.cantidad_servicios_mes = 0 then .texto "Ilimitado"
              else .numero
                (max 0 (plan.cantidad_servicios_mes - suscripcion.servicios_utilizados_mes)) }⟩,
        db)

/-! ## Booking code of the business side -/

/-- The constant `letras` of `generarNumeroReserva` of `empresaController.js`. -/
def letras : List Char := "ABCDEFGHIJKLMNOPQRSTUVWXYZ".data

/-- Embedding of `generarNumeroReserva` of `empresaController.js` (lines 5-11), the second
function of that name in the repository. `letra` is the draw
`Math.floor(Math.random() * letras.length)` and `numero` the draw
`Math.floor(Math.random() * 90000000)`, so that `10000000 + numero` is the value of
`numeros`. -/
def generarNumeroReservaEmpresa (letra : Fin 26) (numero : Fin 90000000) : String :=
  "ANW" ++ "-" ++ String.singleton (letras.getD letra.val 'A') ++
    toString (10000000 + numero.val)

/-- What `getReservaParaQR` answers: the envelope and the field `numero_reserva` of `data`. -/
structure QRRespuesta where
  respuesta : Respuesta
  numero_reserva : Option String
deriving DecidableEq, Repr

/-- Rows of the lookup of `getReservaParaQR`: the reservation with that id at that
business, inner-joined with its user and its business. -/
def reservasParaQR (db : DB) (reservaId empresaId : Nat) : List Reserva :=
  db.reservas.filter fun r =>
    (r.id_reserva = reservaId ∧ r.empresa_id = empresaId) ∧
    (db.usuarios.any fun u => r.usuario_id = u.id_usuario) ∧
    (db.empresas.any fun e => r.empresa_id = e.id_empresa)

/-- Embedding of `getReservaParaQR` of `empresaController.js` (lines 633-707). The principal
is the business that `protectEmpresa` authenticated; `letra` and `numero` are the random
draws of the generator. -/
def getReservaParaQR (letra : Fin 26) (numero : Fin 90000000) (user : Principal)
    (reservaId : Nat) (db : DB) : QRRespuesta × DB :=
  match (reservasParaQR db reservaId user.id).head? with
  | none => (⟨⟨404, false, "Reserva no encontrada"⟩, none⟩, db)
  | some reserva =>
      if reserva.estado ≠ "pendiente" then
        (⟨⟨400, false, "Solo se puede generar QR para reservas pendientes"⟩, none⟩, db)
      else if !truthyStr reserva.numero_reserva then
        let nuevoNumeroReserva := generarNumeroReservaEmpresa letra numero
        (⟨⟨200, true, ""⟩, some nuevoNumeroReserva⟩,
          actualizarReserva db reserva.id_reserva fun r =>
            { r with numero_reserva := some nuevoNumeroReserva })
      else (⟨⟨200, true, ""⟩, reserva.numero_reserva⟩, db)

/-! ## Ratings -/

/-- A row of `lavado_auto_calificacionempresa`. -/
structure Calificacion where
  id_calificacion : Nat
  reserva_id : Nat
  empresa_id : Nat
  usuario_id : Nat
  puntuacion : Int
  comentario : String
deriving DecidableEq, Repr

/-- The body of a `crearCalificacion` request. -/
structure CalificacionBody where
  reserva_id : Option Nat
  empresa_id : Option Nat
  puntuacion : Option Int
  comentario : Option String
deriving DecidableEq, Repr

/-- The constraints of the table `lavado_auto_calificacionempresa` as `setup_ratings_db.js`
creates it, on a row about to be inserted: `reserva_id` is unique, `puntuacion` is between
1 and 5, and the reservation, the business and the user exist. -/
def restricciones (db : DB) (calificaciones : List Calificacion) (fila : Calificacion) : Bool :=
  (calificaciones.all fun k => k.reserva_id ≠ fila.reserva_id) ∧
  (1 ≤ fila.puntuacion ∧ fila.puntuacion ≤ 5) ∧
  (db.reservas.any fun r => r.id_reserva = fila.reserva_id) ∧
  (db.empresas.any fun e => e.id_empresa = fila.empresa_id) ∧
  (db.usuarios.any fun u => u.id_usuario = fila.usuario_id)

/-- Embedding of `crearCalificacion` of `calificacionController.js` (lines 6-66): the
answer and the table of ratings afterwards. `idNuevo` is the id the storage sequence gives
to the inserted row. An insert that breaks a constraint of the table throws, and the
`catch` block answers 500. -/
def crearCalificacion (idNuevo : Nat) (user : Principal) (body : CalificacionBody) (db : DB)
    (calificaciones : List Calificacion) : Respuesta × List Calificacion :=
  if !truthyNat body.reserva_id || !truthyNat body.empresa_id ||
      (body.puntuacion.getD 0 == 0) then
    (⟨400, false, "Faltan datos requeridos"⟩, calificaciones)
  else if body.puntuacion.getD 0 < 1 || body.puntuacion.getD 0 > 5 then
    (⟨400, false, "La puntuación debe estar entre 1 y 5"⟩, calificaciones)
  else if (calificaciones.filter fun k => some k.reserva_id = body.reserva_id).length > 0 then
    (⟨400, false, "Ya existe una calificación para esta reserva"⟩, calificaciones)
  else
    let fila : Calificacion :=
      { id_calificacion := idNuevo
        reserva_id := body.reserva_id.getD 0
        empresa_id := body.empresa_id.getD 0
        usuario_id := user.id
        puntuacion := body.puntuacion.getD 0
        comentario := if truthyStr body.comentario then body.comentario.getD "" else "" }
    if restricciones db calificaciones fila then
      (⟨201, true, "Calificación enviada exitosamente"⟩, calificaciones ++ [fila])
    else (⟨500, false, "Error al guardar la calificación"⟩, calificaciones)

/-- Each reservation has at most one rating. -/
def unaCalificacionPorReserva (calificaciones : List Calificacion) : Prop :=
  (calificaciones.map fun k => k.reserva_id).Nodup

/-! ## Slots of a business -/

/-- No two reservations of the same business in a state other than `cancelada` or `vencida`
share the same `fecha` and `hora`. Two rows are told apart by their position in the
table. -/
def horariosSinChoque (db : DB) : Prop :=
  db.reservas.Pairwise fun a b =>
    ¬(a.empresa_id = b.empresa_id ∧ a.fecha = b.fecha ∧ a.hora = b.hora ∧
      (a.estado ≠ "cancelada" ∧ a.estado ≠ "vencida") ∧
      (b.estado ≠ "cancelada" ∧ b.estado ≠ "vencida"))

instance (db : DB) : Decidable (horariosSinChoque db) :=
  inferInstanceAs (Decidable (List.Pairwise _ _))

/-! ## Sample states -/

/-- A reservation of user 1 at business 1 with one line item, in the given state. -/
def reservaEjemplo (id : Nat) (numero : String) (estado : String) : Reserva :=
  { id_reserva := id
    numero_reserva := some numero
    fecha := "2025-03-10"
    hora := "10:00"
    estado := estado
    empresa_id := 1
    usuario_id := 1
    es_pago_individual := true
    es_reserva_empresarial := false
    placa_vehiculo := none
    tipo_vehiculo := "No especificado"
    conductor_asignado := "Ana"
    observaciones_empresariales := ""
    suscripcion_utilizada_id := none
    pagado_empresa := false
    fue_recuperada := false
    recargo_recuperacion := 0 }

/-- A state with two users, one business, one service priced 100, one plan of three
services a month, an active subscription of user 1 with all three used, and one
reservation of user 1 in the given state with one line item. -/
def dbEjemplo (estado : String) : DB :=
  { usuarios := [⟨1, some "Ana"⟩, ⟨2, some "Luis"⟩]
    empresas := [⟨1, "Lavado Uno", true⟩]
    servicios := [⟨1, "Lavado básico", 100⟩]
    planes := [⟨1, 3⟩, ⟨2, 0⟩]
    suscripciones := [⟨1, 1, 1, "activa", 3, 0⟩, ⟨2, 2, 2, "activa", 7, 0⟩]
    reservas := [reservaEjemplo 1 "ANW-B0000000" estado]
    reservaServicios := [⟨1, 1, 100, 100, false, 0, 0⟩] }

/-- An environment in which no statement throws, every random draw is 0, the clock
reads 1700000000000 and the storage sequence hands out id 2. -/
def entornoEjemplo : Entorno :=
  { ahora := 1700000000000
    rnd := fun _ => 0
    idNuevo := 2
    falla := fun _ => false }

/-- A well-formed individual booking of service 1 at business 1. -/
def bodyEjemplo (servicios : List ServicioData) : CrearReservaBody :=
  { fecha := some "2025-03-11"
    hora := some "09:00"
    empresa_id := some 1
    servicios := some servicios
    placa_vehiculo := none
    tipo_vehiculo := none
    conductor_asignado := none
    observaciones_empresariales := none
    es_pago_individual := none
    es_reserva_empresarial := none
    usar_suscripcion := false
    suscripcion_id := none }

/-- The booking of `bodyEjemplo` for service 1, asking to use subscription `sid`. -/
def bodySuscripcion (sid : Nat) : CrearReservaBody :=
  { bodyEjemplo [.id 1] with usar_suscripcion := true, suscripcion_id := some sid }

/-- A calendar for the sample states: day 20157 of the epoch for `2025-03-10`, day 20158
for any other date, plus the hour of the time. -/
def instanteEjemplo (fecha hora : String) : Nat :=
  (if fecha = "2025-03-10" then 20157 else 20158) * 86400000 + horaNum hora * unaHora

/-- A state with two pending reservations of user 1 at business 1 on `2025-03-10`, at
`10:00` and at `11:00`, and a cancelled one of user 2 at `12:00`. -/
def dbDos : DB :=
  { dbEjemplo "pendiente" with
    reservas :=
      [reservaEjemplo 1 "ANW-B0000000" "pendiente",
        { reservaEjemplo 2 "ANW-B0000002" "pendiente" with hora := "11:00" },
        { reservaEjemplo 3 "ANW-B0000003" "cancelada" with hora := "12:00", usuario_id := 2 }] }

/-- A toy key derivation for the sample states: the bytes of the password followed by
those of the salt, for a positive iteration count. -/
def pbkdf2Ejemplo : Pbkdf2 := fun password salt iterations =>
  match iterations with
  | some n =>
      if 0 < n then some ((password ++ salt).data.map fun ch => (Fin.ofNat ch.toNat : Byte))
      else none
  | none => none

/-- A toy `bcrypt.compare` for the sample states: the hash of a password is the password
after the prefix of the format. -/
def bcryptEjemplo : BcryptCompare := fun password hash => hash = "$2a$10$" ++ password

/-- A customer account with the given failure counter, lock and warning flag, whose
password is `clave` under the toy `bcrypt`. -/
def usuarioEjemplo (id : Nat) (correo : String) (n : Nat) (lock : Option Nat) (w : Bool) :
    CuentaUsuario :=
  { id_usuario := id
    correo := correo
    password := "$2a$10$clave"
    rol := "cliente"
    is_active := true
    failed_login_attempts := n
    lockout_time := lock
    first_warning_sent := w
    last_failed_login := none }

/-- A business account with the given verification flag, failure counter, lock and
warning flag, whose password is `clave` under the toy `bcrypt`. -/
def empresaEjemplo (id : Nat) (email : String) (verificada : Bool) (n : Nat)
    (lock : Option Nat) (w : Bool) : CuentaEmpresa :=
  { id_empresa := id
    email := email
    contrasena := "$2a$10$clave"
    verificada := verificada
    is_active := true
    failed_login_attempts := n
    lockout_time := lock
    first_warning_sent := w
    last_failed_login := none }

/-- Sample accounts: customers with two failures, with five failures after a warning, and
locked at clock 1000000; businesses alike, and one that is active but not verified. -/
def cuentasEjemplo : Cuentas :=
  { usuarios :=
      [usuarioEjemplo 1 "ana@x.co" 2 none false, usuarioEjemplo 2 "luis@x.co" 5 none true,
        usuarioEjemplo 3 "eva@x.co" 3 (some 1000000) true]
    empresas :=
      [empresaEjemplo 1 "uno@x.co" true 2 none false, empresaEjemplo 2 "dos@x.co" true 5 none true,
        empresaEjemplo 3 "tres@x.co" true 3 (some 1000000) true,
        empresaEjemplo 4 "cuatro@x.co" false 0 (some 1000000) false] }

/-- The legacy hash `hashDjangoPassword` writes for the password `secreto1` under the toy
key derivation, every byte of the salt being 0. -/
def hashEjemplo : String :=
  (hashDjangoPassword pbkdf2Ejemplo (fun _ => 0) "secreto1" iteracionesDjango).getD ""

/-- Thirty-one days, in the unit of the clock. -/
def treintaYUnDias : Nat := 31 * 86400000

/-- A state of the quota tables: a plan of three services a month and an unlimited plan;
user 1 subscribed to the first with two services used and the counter last reset at
clock 0, user 2 to the second with seven used. Both subscriptions run to day 400. -/
def planesEjemplo : Planes :=
  { planes := [⟨1, 3⟩, ⟨2, 0⟩]
    suscripciones :=
      [{ id_suscripcion := 1, usuario_id := 1, plan_id := 1, estado := "activa",
         servicios_utilizados_mes := 2, ultimo_reinicio_contador := 0,
         fecha_inicio := 0, fecha_fin := 400 * 86400000 },
       { id_suscripcion := 2, usuario_id := 2, plan_id := 2, estado := "activa",
         servicios_utilizados_mes := 7, ultimo_reinicio_contador := 0,
         fecha_inicio := 0, fecha_fin := 400 * 86400000 }] }
/-- The state `planesEjemplo` with one more subscription: user 3 on the plan of three
services a month, with five services counted as used. -/
def planesExcedido : Planes :=
  { planesEjemplo with
    suscripciones := planesEjemplo.suscripciones ++
      [{ id_suscripcion := 3, usuario_id := 3, plan_id := 1, estado := "activa",
         servicios_utilizados_mes := 5, ultimo_reinicio_contador := 0,
         fecha_inicio := 0, fecha_fin := 400 * 86400000 }] }

/-- The state `dbEjemplo` with its reservation pending and without a booking code. -/
def dbSinNumero : DB :=
  { dbEjemplo "pendiente" with
    reservas := [{ reservaEjemplo 1 "" "pendiente" with numero_reserva := none }] }

/-! ## Decimal digits of the clock -/

theorem digitChar_isDigit (d : Fin 10) : (Nat.digitChar d.val).isDigit = true := by
  revert d; decide

theorem toString_digito (d : Fin 10) : (toString d.val).data = [Nat.digitChar d.val] := by
  revert d; decide

theorem digitChar_mod_isDigit (n : Nat) : (Nat.digitChar (n % 10)).isDigit = true :=
  digitChar_isDigit ⟨n % 10, Nat.mod_lt n (by decide)⟩

theorem toString_nat_data (n : Nat) : (toString n).data = Nat.toDigits 10 n := rfl

/-- The accumulator of `Nat.toDigitsCore` is a suffix of its result. -/
theorem toDigitsCore_acc (f : Nat) : ∀ (n : Nat) (acc : List Char),
    Nat.toDigitsCore 10 f n acc = Nat.toDigitsCore 10 f n [] ++ acc := by
  induction f with
  | zero => intro n acc; simp [Nat.toDigitsCore]
  | succ f ih =>
    intro n acc
    simp only [Nat.toDigitsCore]
    split
    · simp
    · rw [ih _ (_ :: acc), ih _ [_]]; simp

/-- With enough fuel, the decimal digits of `n` end in the last `k` decimal digits of
`n` as soon as there are `k` of them. -/
theorem toDigitsCore_drop (k : Nat) : ∀ (f n : Nat), n < f →
    k ≤ (Nat.toDigitsCore 10 f n []).length →
    (Nat.toDigitsCore 10 f n []).drop ((Nat.toDigitsCore 10 f n []).length - k)
      = ultimosDigitos k n := by
  induction k with
  | zero => intro f n _ _; simp [ultimosDigitos]
  | succ k ih =>
    intro f n hf hlen
    cases f with
    | zero => omega
    | succ f =>
      simp only [Nat.toDigitsCore] at hlen ⊢
      split
      · rename_i h0
        rw [if_pos h0] at hlen
        have hk : k = 0 := by simpa using hlen
        subst hk
        simp [ultimosDigitos]
      · rename_i h0
        rw [if_neg h0] at hlen
        rw [toDigitsCore_acc] at hlen ⊢
        have hlt : n / 10 < f := by omega
        have hlen2 : k ≤ (Nat.toDigitsCore 10 f (n / 10) []).length := by
          simpa using hlen
        have := ih f (n / 10) hlt hlen2
        simp only [ultimosDigitos, List.length_append, List.length_singleton]
        rw [Nat.add_sub_add_right, List.drop_append_of_le_length (by omega), this]

theorem toDigitsCore_length_ge (f : Nat) : ∀ (n k : Nat) (acc : List Char),
    n < f → 10 ^ k ≤ n → k + 1 + acc.length ≤ (Nat.toDigitsCore 10 f n acc).length := by
  induction f with
  | zero => intro n k acc h; omega
  | succ f ih =>
    intro n k acc hf hk
    have hpos : 0 < n := lt_of_lt_of_le (by positivity) hk
    simp only [Nat.toDigitsCore]
    cases k with
    | zero =>
      split
      · simp; omega
      · have := ih (n / 10) 0 (Nat.digitChar (n % 10) :: acc) (by omega) (by simp; omega)
        simp at this ⊢; omega
    | succ k =>
      have h10 : 10 ^ k ≤ n / 10 := by
        rw [Nat.le_div_iff_mul_le (by decide)]; rw [pow_succ] at hk; exact hk
      have hne : n / 10 ≠ 0 := by
        have : 0 < 10 ^ k := by positivity
        omega
      rw [if_neg hne]
      have := ih (n / 10) k (Nat.digitChar (n % 10) :: acc) (by omega) h10
      simp at this ⊢; omega

theorem ultimosDigitos_length (k : Nat) : ∀ n, (ultimosDigitos k n).length = k := by
  induction k with
  | zero => intro n; rfl
  | succ k ih => intro n; simp [ultimosDigitos, ih]

theorem ultimosDigitos_isDigit (k : Nat) : ∀ n, ∀ c ∈ ultimosDigitos k n, c.isDigit = true := by
  induction k with
  | zero => intro n c hc; simp [ultimosDigitos] at hc
  | succ k ih =>
    intro n c hc
    simp only [ultimosDigitos, List.mem_append, List.mem_singleton] at hc
    rcases hc with hc | rfl
    · exact ih _ c hc
    · exact digitChar_mod_isDigit n

/-- The string `Date.now().toString().slice(-7)` is the last seven decimal digits of the clock, for
a clock of at least seven digits. -/
theorem sliceUltimos_reloj (ahora : Nat) (h : 10 ^ 6 ≤ ahora) :
    (sliceUltimos 7 (toString ahora)).data = ultimosDigitos 7 ahora := by
  have hlen : 7 ≤ (Nat.toDigitsCore 10 (ahora + 1) ahora []).length := by
    have := toDigitsCore_length_ge (ahora + 1) ahora 6 [] (by omega) h
    simpa using this
  simp only [sliceUltimos, toString_nat_data, Nat.toDigits]
  exact toDigitsCore_drop 7 (ahora + 1) ahora (by omega) hlen

/-! ## Booking number generator: format and bound -/

theorem numeroAleatorio_data (rnd : Nat → Digito) (base : Nat) :
    (numeroAleatorio rnd base).data =
      (List.range 7).map (fun i => Nat.digitChar (rnd (base + i)).val) := by
  have h7 : List.range 7 = [0, 1, 2, 3, 4, 5, 6] := by decide
  simp [numeroAleatorio, h7, toString_digito]

theorem tipoReserva_data (esEmp : Bool) :
    ("ANW-" ++ tipoReserva esEmp).data = ['A', 'N', 'W', '-', if esEmp then 'E' else 'B'] := by
  cases esEmp <;> rfl

theorem propuesta_formato (esEmp : Bool) (rnd : Nat → Digito) (i : Nat) :
    FormatoNumero (if esEmp then 'E' else 'B') (propuesta esEmp rnd i) := by
  refine ⟨(List.range 7).map (fun j => Nat.digitChar (rnd (7 * i + j)).val), ?_, by simp, ?_⟩
  · unfold propuesta
    rw [String.data_append, tipoReserva_data, numeroAleatorio_data]
  · intro c hc
    obtain ⟨j, _, rfl⟩ := List.mem_map.mp hc
    exact digitChar_isDigit _

theorem numeroFallback_data (esEmp : Bool) (ahora : Nat) (h : 10 ^ 6 ≤ ahora) :
    (numeroFallback esEmp ahora).data =
      ['A', 'N', 'W', '-', if esEmp then 'E' else 'B'] ++ ultimosDigitos 7 ahora := by
  unfold numeroFallback
  rw [String.data_append, tipoReserva_data, sliceUltimos_reloj ahora h]

theorem numeroFallback_formato (esEmp : Bool) (ahora : Nat) (h : 10 ^ 6 ≤ ahora) :
    FormatoNumero (if esEmp then 'E' else 'B') (numeroFallback esEmp ahora) :=
  ⟨ultimosDigitos 7 ahora, numeroFallback_data esEmp ahora h, ultimosDigitos_length 7 ahora,
    ultimosDigitos_isDigit 7 ahora⟩

/-- The loop of the generator on an oracle that answers: it returns, and what it returns
is either the first proposal reported absent, after querying the proposals up to that
one, or the fallback after querying all remaining proposals. -/
theorem generarLoop_resultado (esEmp : Bool) (existe : Nat → String → Bool)
    (rnd : Nat → Digito) (ahora : Nat) :
    ∀ (restantes intentos : Nat) (qs : List String),
      ∃ g, generarLoop esEmp (fun i c => some (existe i c)) rnd ahora restantes intentos qs
          = some g ∧
        ((∃ i, intentos ≤ i ∧ i < intentos + restantes ∧
            existe i (propuesta esEmp rnd i) = false ∧
            (∀ j, intentos ≤ j → j < i → existe j (propuesta esEmp rnd j) = true) ∧
            g.numero = propuesta esEmp rnd i ∧
            g.consultas = qs ++
              (List.range' intentos (i + 1 - intentos)).map (propuesta esEmp rnd)) ∨
         ((∀ j, intentos ≤ j → j < intentos + restantes →
              existe j (propuesta esEmp rnd j) = true) ∧
            g.numero = numeroFallback esEmp ahora ∧
            g.consultas = qs ++ (List.range' intentos restantes).map (propuesta esEmp rnd))) := by
  intro restantes
  induction restantes with
  | zero =>
    intro intentos qs
    refine ⟨_, rfl, Or.inr ⟨?_, rfl, by simp⟩⟩
    intro j h1 h2; omega
  | succ r ih =>
    intro intentos qs
    cases hex : existe intentos (propuesta esEmp rnd intentos) with
    | false =>
      refine ⟨⟨propuesta esEmp rnd intentos, qs ++ [propuesta esEmp rnd intentos]⟩, ?_,
        Or.inl ⟨intentos, le_refl _, by omega, hex, ?_, rfl, by simp⟩⟩
      · simp only [generarLoop]
        rw [show existe intentos ("ANW-" ++ tipoReserva esEmp ++
          numeroAleatorio rnd (7 * intentos)) = false from hex]
        rfl
      · intro j h1 h2; omega
    | true =>
      obtain ⟨g, hg, hcases⟩ := ih (intentos + 1) (qs ++ [propuesta esEmp rnd intentos])
      refine ⟨g, ?_, ?_⟩
      · simp only [generarLoop]
        rw [show existe intentos ("ANW-" ++ tipoReserva esEmp ++
          numeroAleatorio rnd (7 * intentos)) = true from hex]
        exact hg
      · rcases hcases with ⟨i, h1, h2, h3, h4, h5, h6⟩ | ⟨h1, h2, h3⟩
        · refine Or.inl ⟨i, by omega, by omega, h3, ?_, h5, ?_⟩
          · intro j hj1 hj2
            rcases Nat.eq_or_lt_of_le hj1 with rfl | hlt
            · exact hex
            · exact h4 j hlt hj2
          · rw [h6, show i + 1 - intentos = (i + 1 - (intentos + 1)) + 1 by omega,
              List.range'_succ]
            simp
        · refine Or.inr ⟨?_, h2, ?_⟩
          · intro j hj1 hj2
            rcases Nat.eq_or_lt_of_le hj1 with rfl | hlt
            · exact hex
            · exact h1 j hlt (by omega)
          · rw [h3, List.range'_succ]; simp

/-- C2: for every booking kind, every answer sequence of the uniqueness oracle, every
sequence of random digits and every clock value of at least seven decimal digits,
`generarNumeroReserva` returns a string made of `ANW-`, then `E` for a business booking
and `B` otherwise, then exactly seven decimal digits. -/
theorem generarNumeroReserva_formato (esEmp : Bool) (existe : Nat → String → Bool)
    (rnd : Nat → Digito) (ahora : Nat) (h : 10 ^ 6 ≤ ahora) :
    ∃ g, generarNumeroReserva esEmp (fun i c => some (existe i c)) rnd ahora = some g ∧
      FormatoNumero (if esEmp then 'E' else 'B') g.numero := by
  obtain ⟨g, hg, hcases⟩ := generarLoop_resultado esEmp existe rnd ahora maxIntentos 0 []
  refine ⟨g, hg, ?_⟩
  rcases hcases with ⟨i, _, _, _, _, hnum, _⟩ | ⟨_, hnum, _⟩
  · rw [hnum]; exact propuesta_formato esEmp rnd i
  · rw [hnum]; exact numeroFallback_formato esEmp ahora h

theorem generarNumeroReserva_formato_witness :
    10 ^ 6 ≤ 1700001234567 ∧
      ∃ g, generarNumeroReserva true (fun i c => some ((fun _ _ => true) i c)) (fun _ => 3)
          1700001234567 = some g ∧
        FormatoNumero (if true then 'E' else 'B') g.numero :=
  ⟨by decide, generarNumeroReserva_formato true (fun _ _ => true) (fun _ => 3) 1700001234567
    (by decide)⟩

/-- C4: on an oracle that answers, `generarNumeroReserva` returns after at most 10
oracle queries. Either some proposal among the 10 is reported absent, and it returns the
first such proposal having queried exactly the proposals up to it; or all 10 proposals
are reported present, and it returns the fallback code having queried exactly those 10
proposals and nothing else, where for a clock of at least seven digits the digits of the
fallback code are the last seven decimal digits of the clock. -/
theorem generarNumeroReserva_acotado (esEmp : Bool) (existe : Nat → String → Bool)
    (rnd : Nat → Digito) (ahora : Nat) :
    ∃ g, generarNumeroReserva esEmp (fun i c => some (existe i c)) rnd ahora = some g ∧
      g.consultas.length ≤ 10 ∧
      ((∃ i, i < 10 ∧ existe i (propuesta esEmp rnd i) = false ∧
          (∀ j, j < i → existe j (propuesta esEmp rnd j) = true) ∧
          g.numero = propuesta esEmp rnd i ∧
          g.consultas = (List.range (i + 1)).map (propuesta esEmp rnd)) ∨
       ((∀ j, j < 10 → existe j (propuesta esEmp rnd j) = true) ∧
          g.numero = numeroFallback esEmp ahora ∧
          g.consultas = (List.range 10).map (propuesta esEmp rnd) ∧
          (10 ^ 6 ≤ ahora → g.numero.data =
            ['A', 'N', 'W', '-', if esEmp then 'E' else 'B'] ++ ultimosDigitos 7 ahora))) := by
  obtain ⟨g, hg, hcases⟩ := generarLoop_resultado esEmp existe rnd ahora maxIntentos 0 []
  refine ⟨g, hg, ?_⟩
  rcases hcases with ⟨i, _, hi, habs, hpres, hnum, hq⟩ | ⟨hpres, hnum, hq⟩
  · have hi10 : i < 10 := by simpa [maxIntentos] using hi
    have hq2 : g.consultas = (List.range (i + 1)).map (propuesta esEmp rnd) := by
      rw [hq, List.range_eq_range']; simp
    refine ⟨?_, Or.inl ⟨i, hi10, habs, fun j hj => hpres j (Nat.zero_le j) hj, hnum, hq2⟩⟩
    rw [hq2]; simp; omega
  · have hq2 : g.consultas = (List.range 10).map (propuesta esEmp rnd) := by
      rw [hq, List.range_eq_range']; simp [maxIntentos]
    refine ⟨?_, Or.inr ⟨fun j hj => hpres j (Nat.zero_le j) (by simpa [maxIntentos] using hj),
      hnum, hq2, fun h => ?_⟩⟩
    · rw [hq2]; simp
    · rw [hnum]; exact numeroFallback_data esEmp ahora h

/-! ## Ownership and terminal states of the client-side operations -/

/-- The answer and the effect of `cancelarReserva`, `reagendarReserva` and
`recuperarReservaVencida` do not depend on the authenticated principal: only the
`usuario_id` of the body is compared with the owner. -/
theorem principal_no_leido (p q : Principal) (reservaId : Nat) (db : DB) :
    (∀ body, cancelarReserva p reservaId body db = cancelarReserva q reservaId body db) ∧
    (∀ body, reagendarReserva p reservaId body db = reagendarReserva q reservaId body db) ∧
    (∀ body, recuperarReservaVencida p reservaId body db
        = recuperarReservaVencida q reservaId body db) :=
  ⟨fun _ => rfl, fun _ => rfl, fun _ => rfl⟩

/-- C1 (failing input): principal 2 does not own reservation 1, which belongs to user 1,
and sends the owner's id in the body. `cancelarReserva` answers 200 and the reservation
is cancelled; `reagendarReserva` answers 200 and the reservation is moved;
`recuperarReservaVencida` answers 200 and the expired reservation is pending again. -/
theorem no_propietario_muta_reserva :
    (buscarReserva (dbEjemplo "pendiente") 1).map (fun r => r.usuario_id) = some 1 ∧
    (cancelarReserva ⟨2, "cliente"⟩ 1 ⟨some 1⟩ (dbEjemplo "pendiente")).1.status = 200 ∧
    (buscarReserva (cancelarReserva ⟨2, "cliente"⟩ 1 ⟨some 1⟩ (dbEjemplo "pendiente")).2 1).map
        (fun r => r.estado) = some "cancelada" ∧
    (reagendarReserva ⟨2, "cliente"⟩ 1 ⟨some "2025-04-01", some "15:00", some 1⟩
        (dbEjemplo "pendiente")).1.status = 200 ∧
    (buscarReserva (reagendarReserva ⟨2, "cliente"⟩ 1 ⟨some "2025-04-01", some "15:00", some 1⟩
        (dbEjemplo "pendiente")).2 1).map (fun r => (r.fecha, r.hora))
      = some ("2025-04-01", "15:00") ∧
    (recuperarReservaVencida ⟨2, "cliente"⟩ 1 ⟨some "2025-04-01", some "15:00", some 1, true⟩
        (dbEjemplo "vencida")).1.status = 200 ∧
    (buscarReserva (recuperarReservaVencida ⟨2, "cliente"⟩ 1
        ⟨some "2025-04-01", some "15:00", some 1, true⟩ (dbEjemplo "vencida")).2 1).map
        (fun r => (r.estado, r.fue_recuperada)) = some ("pendiente", true) := by
  decide

/-- C10 (counterexample): reservation 1 is `completado` and belongs to user 1; a
`cancelarReserva` request carrying user 2 is answered 403, neither 409 nor 400. -/
theorem terminal_responde_403 :
    (buscarReserva (dbEjemplo "completado") 1).map (fun r => r.estado) = some "completado" ∧
    (cancelarReserva ⟨2, "cliente"⟩ 1 ⟨some 2⟩ (dbEjemplo "completado")).1.status = 403 ∧
    ¬ ((cancelarReserva ⟨2, "cliente"⟩ 1 ⟨some 2⟩ (dbEjemplo "completado")).1.status = 409 ∨
       (cancelarReserva ⟨2, "cliente"⟩ 1 ⟨some 2⟩ (dbEjemplo "completado")).1.status = 400) := by
  decide

/-- C10 (amended): for a reservation in state `completado` or `cancelada` that a
client-side state-changing operation resolves its request to, every request is answered
with `success = false` and status 400, or 403 when the ownership check fails (status 400
whenever the ownership check passes), and the stored state is unchanged. -/
theorem terminal_rechaza (user : Principal) (reservaId : Nat) (r : Reserva) (db : DB)
    (hterm : r.estado = "completado" ∨ r.estado = "cancelada") :
    (buscarReserva db reservaId = some r →
      (∀ body : CancelarBody,
        (cancelarReserva user reservaId body db).1.success = false ∧
        ((cancelarReserva user reservaId body db).1.status = 400 ∨
          (cancelarReserva user reservaId body db).1.status = 403) ∧
        (body.usuario_id = some (r.usuario_id : Int) →
          (cancelarReserva user reservaId body db).1.status = 400) ∧
        (cancelarReserva user reservaId body db).2 = db) ∧
      (∀ body : ReagendarBody,
        (reagendarReserva user reservaId body db).1.success = false ∧
        ((reagendarReserva user reservaId body db).1.status = 400 ∨
          (reagendarReserva user reservaId body db).1.status = 403) ∧
        (body.usuario_id = some (r.usuario_id : Int) →
          (reagendarReserva user reservaId body db).1.status = 400) ∧
        (reagendarReserva user reservaId body db).2 = db) ∧
      (∀ body : RecuperarBody,
        (recuperarReservaVencida user reservaId body db).1.success = false ∧
        ((recuperarReservaVencida user reservaId body db).1.status = 400 ∨
          (recuperarReservaVencida user reservaId body db).1.status = 403) ∧
        (body.usuario_id = some (r.usuario_id : Int) →
          (recuperarReservaVencida user reservaId body db).1.status = 400) ∧
        (recuperarReservaVencida user reservaId body db).2 = db)) ∧
    (∀ (hoy : String) (body : QRBody), buscarReservaQR db body = some r →
        (verificarYCompletarReservaQR user hoy body db).1.success = false ∧
        ((verificarYCompletarReservaQR user hoy body db).1.status = 400 ∨
          (verificarYCompletarReservaQR user hoy body db).1.status = 403) ∧
        (r.usuario_id = user.id →
          (verificarYCompletarReservaQR user hoy body db).1.status = 400) ∧
        (verificarYCompletarReservaQR user hoy body db).2 = db) := by
  have hpend : r.estado ≠ "pendiente" := by
    rcases hterm with h | h <;> rw [h] <;> decide
  have hvenc : r.estado ≠ "vencida" := by
    rcases hterm with h | h <;> rw [h] <;> decide
  have hterm2 : r.estado = "cancelada" ∨ r.estado = "completado" := hterm.symm
  refine ⟨fun hb => ⟨fun body => ?_, fun body => ?_, fun body => ?_⟩, fun hoy body hb => ?_⟩
  · simp only [cancelarReserva, hb]
    by_cases ho : some (r.usuario_id : Int) = body.usuario_id
    · simp [← ho, hterm2]
    · have ho2 : ¬ body.usuario_id = some (r.usuario_id : Int) := fun h => ho h.symm
      simp [ho, ho2]
  · simp only [reagendarReserva]
    split
    · simp
    · simp only [hb]
      by_cases ho : some (r.usuario_id : Int) = body.usuario_id
      · simp [← ho, hterm2]
      · have ho2 : ¬ body.usuario_id = some (r.usuario_id : Int) := fun h => ho h.symm
        simp [ho, ho2]
  · simp only [recuperarReservaVencida]
    split
    · simp
    · split
      · simp
      · simp only [hb]
        by_cases ho : some (r.usuario_id : Int) = body.usuario_id
        · simp [← ho, hvenc]
        · have ho2 : ¬ body.usuario_id = some (r.usuario_id : Int) := fun h => ho h.symm
          simp [ho, ho2]
  · simp only [verificarYCompletarReservaQR]
    split
    · simp
    · simp only [hb]
      by_cases ho : r.usuario_id = user.id
      · simp [ho, hpend]
      · simp [ho]

theorem terminal_rechaza_witness :
    ((reservaEjemplo 1 "ANW-B0000000" "completado").estado = "completado" ∨
      (reservaEjemplo 1 "ANW-B0000000" "completado").estado = "cancelada") ∧
    buscarReserva (dbEjemplo "completado") 1
      = some (reservaEjemplo 1 "ANW-B0000000" "completado") ∧
    (cancelarReserva ⟨1, "cliente"⟩ 1 ⟨some 1⟩ (dbEjemplo "completado")).1.status = 400 ∧
    (cancelarReserva ⟨1, "cliente"⟩ 1 ⟨some 1⟩ (dbEjemplo "completado")).2
      = dbEjemplo "completado" :=
  have h := terminal_rechaza ⟨1, "cliente"⟩ 1 (reservaEjemplo 1 "ANW-B0000000" "completado")
    (dbEjemplo "completado") (Or.inl rfl)
  have hb : buscarReserva (dbEjemplo "completado") 1
      = some (reservaEjemplo 1 "ANW-B0000000" "completado") := by decide
  ⟨Or.inl rfl, hb, ((h.1 hb).1 ⟨some 1⟩).2.2.1 rfl, ((h.1 hb).1 ⟨some 1⟩).2.2.2⟩

/-! ## Running the pieces of the `try` block -/

theorem run_pure {α : Type} (a : α) (c : Conexion) :
    (pure a : Accion α).run c = .sigue a c := rfl

theorem run_bind {α β : Type} (m : Accion α) (f : α → Accion β) (c : Conexion) :
    (m >>= f).run c =
      match m.run c with
      | .sigue a c1 => (f a).run c1
      | .responde r c1 => .responde r c1
      | .lanza c1 => .lanza c1 := rfl

theorem run_consulta {α : Type} (env : Entorno) (p : Paso) (leer : DB → α) (c : Conexion) :
    (consulta env p leer).run c = if env.falla p then .lanza c else .sigue (leer c.vista) c :=
  rfl

theorem run_consultaPool {α : Type} (env : Entorno) (p : Paso) (leer : DB → α)
    (c : Conexion) :
    (consultaPool env p leer).run c =
      if env.falla p then .lanza c else .sigue (leer c.almacen) c := rfl

theorem run_sentencia (env : Entorno) (p : Paso) (f : DB → DB) (c : Conexion) :
    (sentencia env p f).run c = if env.falla p then .lanza c else .sigue () (c.escribir f) :=
  rfl

theorem run_comenzar (env : Entorno) (c : Conexion) :
    (comenzar env).run c = if env.falla .begin then .lanza c else .sigue () c.begin := rfl

theorem run_confirmar (env : Entorno) (c : Conexion) :
    (confirmar env).run c = if env.falla .commit then .lanza c else .sigue () c.commit := rfl

theorem run_deshacer (c : Conexion) : deshacer.run c = .sigue () c.rollback := rfl

theorem run_responder {α : Type} (r : Respuesta) (c : Conexion) :
    (responder r : Accion α).run c = .responde r c := rfl

/-- The subscription block run inside the transaction opened on `db`. -/
theorem usarSuscripcion_run (env : Entorno) (usuario_id : Nat) (b : CrearReservaBody)
    (db : DB) :
    (usarSuscripcion env usuario_id b).run ⟨db, some db⟩ =
      match suscripcionSolicitada b with
      | none => .sigue none ⟨db, some db⟩
      | some sid =>
          if env.falla .selectSuscripcion then .lanza ⟨db, some db⟩
          else
            match (suscripcionesActivas db sid usuario_id).head? with
            | none => .sigue none ⟨db, some db⟩
            | some (susc, plan) =>
                if cupoAgotado susc plan then .responde respuestaSinCupo ⟨db, none⟩
                else if env.falla .updateContador then .lanza ⟨db, some db⟩
                else .sigue (some sid) ⟨db, some (incrementarContador db sid)⟩ := by
  unfold usarSuscripcion
  cases hs : suscripcionSolicitada b with
  | none => rfl
  | some sid =>
    simp only [run_bind, run_consulta]
    by_cases hf : env.falla .selectSuscripcion = true
    · simp [hf]
    · simp only [hf, if_false, Bool.false_eq_true, Conexion.vista, Option.getD_some]
      cases hh : (suscripcionesActivas db sid usuario_id).head? with
      | none => rfl
      | some sp =>
        obtain ⟨susc, plan⟩ := sp
        by_cases hc : cupoAgotado susc plan = true
        · simp [hc, run_bind, run_deshacer, run_responder, Conexion.rollback]
        · by_cases hu : env.falla .updateContador = true
          · simp [hc, hu, run_bind, run_sentencia]
          · simp [hc, hu, run_bind, run_sentencia, run_pure, Conexion.escribir]

/-- The rows the loop over the requested services appends. -/
theorem insertarServicios_run (env : Entorno) (reservaId : Nat) (db : DB) :
    ∀ (servicios : List ServicioData) (i : Nat) (tx : DB),
      ((∀ j, j < servicios.length →
          env.falla (.selectPrecio (i + j)) = false ∧ env.falla (.insertLinea (i + j)) = false) ∧
        (insertarServicios env reservaId i servicios).run ⟨db, some tx⟩ =
          .sigue () ⟨db, some { tx with
            reservaServicios := tx.reservaServicios ++ lineasServicios reservaId tx servicios }⟩) ∨
      ((∃ j, j < servicios.length ∧
          (env.falla (.selectPrecio (i + j)) = true ∨ env.falla (.insertLinea (i + j)) = true)) ∧
        ∃ tx1, (insertarServicios env reservaId i servicios).run ⟨db, some tx⟩
          = .lanza ⟨db, some tx1⟩) := by
  intro servicios
  induction servicios with
  | nil =>
    intro i tx
    left
    refine ⟨fun j hj => absurd hj (by simp), ?_⟩
    simp [insertarServicios, run_pure, lineasServicios]
  | cons sd resto ih =>
    intro i tx
    simp only [insertarServicios, run_bind, run_consulta, run_sentencia]
    by_cases h1 : env.falla (.selectPrecio i) = true
    · right
      exact ⟨⟨0, by simp, Or.inl (by simpa using h1)⟩, tx, by simp [h1]⟩
    · by_cases h2 : env.falla (.insertLinea i) = true
      · right
        exact ⟨⟨0, by simp, Or.inr (by simpa using h2)⟩, tx, by simp [h1, h2]⟩
      · simp only [h1, h2, if_false, Bool.false_eq_true, Conexion.vista, Option.getD_some,
          Conexion.escribir]
        rcases ih (i + 1) (insertarLinea
          (lineaServicio reservaId sd (precioServicio tx sd.servicioId)) tx) with
          ⟨hok, hrun⟩ | ⟨⟨j, hj, hfalla⟩, tx1, hrun⟩
        · left
          refine ⟨?_, ?_⟩
          · intro j hj
            cases j with
            | zero => exact ⟨by simpa using h1, by simpa using h2⟩
            | succ j =>
              have := hok j (by simpa using hj)
              rwa [show i + (j + 1) = i + 1 + j by omega]
          · rw [hrun]
            simp [insertarLinea, precioServicio, lineasServicios]
        · right
          refine ⟨⟨j + 1, by simpa using hj, ?_⟩, tx1, hrun⟩
          rwa [show i + (j + 1) = i + 1 + j by omega]

theorem run_generarNumero (env : Entorno) (e : Bool) (c : Conexion) :
    (generarNumero env e).run c =
      match generarNumeroReserva e (existeNumero env c.vista) env.rnd env.ahora with
      | none => .lanza c
      | some generado => .sigue generado c := rfl

/-- Lines 352-445 run inside the transaction opened on `db` with working tables `tx`:
either a statement before the end of `COMMIT` throws and the committed tables are still
`db`, or the reservation and its line items are committed. -/
theorem registrarReserva_run (env : Entorno) (usuario_id : Nat) (b : CrearReservaBody)
    (cf : String) (sus : Option Nat) (db tx : DB) :
    (∃ c, (registrarReserva env usuario_id b cf sus).run ⟨db, some tx⟩ = .lanza c ∧
        c.almacen = db ∧
        ¬ ((generarNumeroReserva (b.es_reserva_empresarial == some true) (existeNumero env tx)
              env.rnd env.ahora).isSome ∧ registroPasa env b)) ∨
    (∃ g, generarNumeroReserva (b.es_reserva_empresarial == some true) (existeNumero env tx)
          env.rnd env.ahora = some g ∧ registroPasa env b ∧
        (registrarReserva env usuario_id b cf sus).run ⟨db, some tx⟩ =
          if env.falla .selectCompleta then
            .lanza ⟨tablasRegistradas env usuario_id b cf sus tx g.numero, none⟩
          else .sigue () ⟨tablasRegistradas env usuario_id b cf sus tx g.numero, none⟩) := by
  unfold registrarReserva
  simp only [run_bind, run_generarNumero, Conexion.vista, Option.getD_some]
  cases hg : generarNumeroReserva (b.es_reserva_empresarial == some true) (existeNumero env tx)
      env.rnd env.ahora with
  | none =>
    left
    exact ⟨⟨db, some tx⟩, rfl, rfl, by simp⟩
  | some g =>
    simp only [run_sentencia]
    by_cases h1 : env.falla .insertReserva = true
    · left
      refine ⟨⟨db, some tx⟩, by simp [h1], rfl, ?_⟩
      rintro ⟨_, h, _⟩
      rw [h] at h1; exact Bool.false_ne_true h1
    · simp only [h1, if_false, Bool.false_eq_true, Conexion.escribir]
      rcases insertarServicios_run env env.idNuevo db (b.servicios.getD []) 0
          (insertarReserva (nuevaReserva env usuario_id b cf g.numero sus) tx) with
        ⟨hok, hrun⟩ | ⟨⟨j, hj, hfalla⟩, tx1, hrun⟩
      · rw [hrun]
        simp only [run_confirmar]
        by_cases h2 : env.falla .commit = true
        · left
          simp only [h2, if_true]
          refine ⟨_, rfl, rfl, ?_⟩
          rintro ⟨_, _, _, h⟩
          rw [h] at h2; exact Bool.false_ne_true h2
        · right
          refine ⟨g, rfl, ⟨by simpa using h1, fun j hj => ?_, by simpa using h2⟩, ?_⟩
          · simpa using hok j hj
          · simp only [h2, if_false, Bool.false_eq_true, Conexion.commit, run_consultaPool]
            rfl
      · left
        rw [hrun]
        refine ⟨_, rfl, rfl, ?_⟩
        rintro ⟨_, _, h, _⟩
        have := h j hj
        simp only [Nat.zero_add] at hfalla
        rcases hfalla with hf | hf
        · rw [this.1] at hf; exact Bool.false_ne_true hf
        · rw [this.2] at hf; exact Bool.false_ne_true hf

/-- The registration block after a subscription block that ran to its end. -/
theorem registrar_tras_suscripcion (env : Entorno) (usuario_id : Nat) (b : CrearReservaBody)
    (cf : String) (db : DB) (sus : Option Nat) (tx : DB)
    (hex : existeNumero env tx = existeNumero env db)
    (hsus : suscripcionUtilizada b db usuario_id = sus)
    (htx : tablasTrasSuscripcion b db usuario_id = tx)
    (hpasa : suscripcionPasa env b db usuario_id) (hbegin : env.falla .begin = false) :
    cursoTransaccion env usuario_id b cf db
      ((registrarReserva env usuario_id b cf sus).run ⟨db, some tx⟩) := by
  rcases registrarReserva_run env usuario_id b cf sus db tx with
    ⟨c, hrun, hc, hno⟩ | ⟨g, hg, hreg, hrun⟩
  · refine Or.inl ⟨c, hrun, hc, ?_⟩
    rintro ⟨_, _, hreg, hsome⟩
    apply hno
    rw [hex]
    exact ⟨hsome, hreg⟩
  · refine Or.inr (Or.inr ⟨g, ?_, hbegin, hpasa, hreg, ?_⟩)
    · rw [← hg, hex]; rfl
    · rw [hrun, hsus, htx]

/-- Lines 314-445 run from the committed tables `db`. -/
theorem crearReservaTransaccion_run (env : Entorno) (usuario_id : Nat) (b : CrearReservaBody)
    (cf : String) (db : DB) :
    cursoTransaccion env usuario_id b cf db
      ((crearReservaTransaccion env usuario_id b cf).run ⟨db, none⟩) := by
  unfold crearReservaTransaccion
  simp only [run_bind, run_comenzar]
  by_cases hb : env.falla .begin = true
  · refine Or.inl ⟨⟨db, none⟩, by simp [hb], rfl, ?_⟩
    rintro ⟨h, _⟩
    rw [h] at hb; exact Bool.false_ne_true hb
  · have hb2 : env.falla .begin = false := by simpa using hb
    simp only [hb2, if_false, Bool.false_eq_true, Conexion.begin, usarSuscripcion_run]
    cases hs : suscripcionSolicitada b with
    | none =>
      exact registrar_tras_suscripcion env usuario_id b cf db none db rfl
        (by simp [suscripcionUtilizada, hs]) (by simp [tablasTrasSuscripcion, suscripcionUtilizada, hs])
        (by simp [suscripcionPasa, hs]) hb2
    | some sid =>
      by_cases hf : env.falla .selectSuscripcion = true
      · refine Or.inl ⟨⟨db, some db⟩, by simp [hf], rfl, ?_⟩
        rintro ⟨_, h, _⟩
        simp [suscripcionPasa, hs, hf] at h
      · have hf2 : env.falla .selectSuscripcion = false := by simpa using hf
        simp only [hf2, if_false, Bool.false_eq_true]
        cases hh : (suscripcionesActivas db sid usuario_id).head? with
        | none =>
          exact registrar_tras_suscripcion env usuario_id b cf db none db rfl
            (by simp [suscripcionUtilizada, hs, hh])
            (by simp [tablasTrasSuscripcion, suscripcionUtilizada, hs, hh])
            (by simp [suscripcionPasa, hs, hh, hf2]) hb2
        | some sp =>
          obtain ⟨susc, plan⟩ := sp
          by_cases hc : cupoAgotado susc plan = true
          · refine Or.inr (Or.inl ⟨by simp [hc], sid, susc, plan, hs, hh, hc⟩)
          · have hc2 : cupoAgotado susc plan = false := by simpa using hc
            by_cases hu : env.falla .updateContador = true
            · refine Or.inl ⟨⟨db, some db⟩, by simp [hc2, hu], rfl, ?_⟩
              rintro ⟨_, h, _⟩
              simp [suscripcionPasa, hs, hh, hu] at h
            · have hu2 : env.falla .updateContador = false := by simpa using hu
              simp only [hc2, hu2, if_false, Bool.false_eq_true]
              exact registrar_tras_suscripcion env usuario_id b cf db (some sid)
                (incrementarContador db sid) rfl
                (by simp [suscripcionUtilizada, hs, hh])
                (by simp [tablasTrasSuscripcion, suscripcionUtilizada, hs, hh])
                (by simp [suscripcionPasa, hs, hh, hf2, hc2, hu2]) hb2

/-- The `try` block run from the committed tables `db`: the user query throws, or the
block continues as lines 314-445 with the driver name of `conductorFinal`. -/
theorem crearReservaTry_run (env : Entorno) (usuario_id : Nat) (b : CrearReservaBody)
    (db : DB) :
    (truthyStr b.conductor_asignado = false ∧ env.falla .nombreUsuario = true ∧
      (crearReservaTry env usuario_id b).run ⟨db, none⟩ = .lanza ⟨db, none⟩) ∨
    ((truthyStr b.conductor_asignado = false → env.falla .nombreUsuario = false) ∧
      (crearReservaTry env usuario_id b).run ⟨db, none⟩ =
        (crearReservaTransaccion env usuario_id b (conductorFinal b db usuario_id)).run
          ⟨db, none⟩) := by
  unfold crearReservaTry
  by_cases hc : truthyStr b.conductor_asignado = true
  · right
    refine ⟨fun h => by rw [h] at hc; exact absurd hc Bool.false_ne_true, ?_⟩
    simp only [hc, if_true, run_bind, run_pure, conductorFinal]
  · have hc2 : truthyStr b.conductor_asignado = false := by simpa using hc
    by_cases hf : env.falla .nombreUsuario = true
    · left
      refine ⟨hc2, hf, ?_⟩
      simp only [hc2, if_false, Bool.false_eq_true, run_bind, run_consultaPool, hf, if_true]
    · right
      have hf2 : env.falla .nombreUsuario = false := by simpa using hf
      refine ⟨fun _ => hf2, ?_⟩
      simp only [hc2, if_false, Bool.false_eq_true, run_bind, run_consultaPool, hf2,
        conductorFinal]

/-- The two ways a `crearReserva` request can end: nothing is committed, the answer is a
failure and some statement up to `COMMIT` did not go through (or validation failed, or
the quota was exhausted); or everything up to `COMMIT` went through and the tables of
`tablasConfirmadas` are committed. -/
theorem crearReserva_curso (env : Entorno) (user : Principal) (b : CrearReservaBody)
    (db : DB) :
    ((crearReserva env user b db).2 = db ∧ (crearReserva env user b db).1.success = false ∧
      (crearReserva env user b db).1.status ≠ 201 ∧
      ¬ (faltanDatos b = false ∧ transaccionPasa env b db user.id ∧
          (numeroGenerado env b db).isSome) ∧
      ((crearReserva env user b db).1 = respuestaSinCupo →
        ∃ sid susc plan, suscripcionSolicitada b = some sid ∧
          (suscripcionesActivas db sid user.id).head? = some (susc, plan) ∧
          cupoAgotado susc plan = true)) ∨
    (faltanDatos b = false ∧ transaccionPasa env b db user.id ∧
      ∃ g, numeroGenerado env b db = some g ∧
        crearReserva env user b db =
          (if env.falla .selectCompleta then ⟨500, false, "Error al crear la reserva"⟩
            else ⟨201, true, "Reserva creada exitosamente"⟩,
            tablasConfirmadas env user.id b db g.numero)) := by
  by_cases hv : faltanDatos b = true
  · left
    have hval : crearReserva env user b db =
        (⟨400, false, "Faltan datos requeridos para crear la reserva"⟩, db) := by
      simp [crearReserva, hv]
    rw [hval]
    refine ⟨rfl, rfl, by simp, ?_, fun h => absurd h (by simp [respuestaSinCupo])⟩
    rintro ⟨h, _⟩
    rw [h] at hv; exact Bool.false_ne_true hv
  · have hv2 : faltanDatos b = false := by simpa using hv
    have hval : crearReserva env user b db =
        match (crearReservaTry env user.id b).run ⟨db, none⟩ with
        | .sigue _ c => (⟨201, true, "Reserva creada exitosamente"⟩, c.almacen)
        | .responde r c => (r, c.almacen)
        | .lanza c => (⟨500, false, "Error al crear la reserva"⟩, c.rollback.almacen) := by
      simp [crearReserva, hv2]
    rw [hval]
    rcases crearReservaTry_run env user.id b db with ⟨hc, hf, hrun⟩ | ⟨hcond, hrun⟩
    · left
      rw [hrun]
      refine ⟨rfl, rfl, by simp, ?_, fun h => absurd h (by simp [respuestaSinCupo])⟩
      rintro ⟨_, h, _⟩
      have := h.1 hc
      rw [this] at hf; exact Bool.false_ne_true hf
    · rw [hrun]
      rcases crearReservaTransaccion_run env user.id b (conductorFinal b db user.id) db with
        ⟨c, hr, hc, hno⟩ | ⟨hr, sid, susc, plan, hs, hh, hq⟩ | ⟨g, hg, hb, hsus, hreg, hr⟩
      · left
        rw [hr]
        refine ⟨hc, rfl, by simp, ?_, fun h => absurd h (by simp [respuestaSinCupo])⟩
        rintro ⟨_, h, hsome⟩
        exact hno ⟨h.2.1, h.2.2.1, h.2.2.2, hsome⟩
      · left
        rw [hr]
        refine ⟨rfl, rfl, by simp [respuestaSinCupo], ?_,
          fun _ => ⟨sid, susc, plan, hs, hh, hq⟩⟩
        rintro ⟨_, h, _⟩
        have := h.2.2.1
        simp [suscripcionPasa, hs, hh, hq] at this
      · right
        refine ⟨hv2, ⟨hcond, hb, hsus, hreg⟩, g, hg, ?_⟩
        rw [hr]
        by_cases hsel : env.falla .selectCompleta = true
        · simp only [hsel, if_true]; rfl
        · simp only [hsel, if_false]; rfl

/-- A request that answers 201, or that changes the committed tables, went through up
to `COMMIT` and committed the tables of `tablasConfirmadas`. -/
theorem crearReserva_confirmada (env : Entorno) (user : Principal) (b : CrearReservaBody)
    (db : DB)
    (h : (crearReserva env user b db).1.status = 201 ∨ (crearReserva env user b db).2 ≠ db) :
    faltanDatos b = false ∧ transaccionPasa env b db user.id ∧
      ∃ g, numeroGenerado env b db = some g ∧
        crearReserva env user b db =
          (if env.falla .selectCompleta then ⟨500, false, "Error al crear la reserva"⟩
            else ⟨201, true, "Reserva creada exitosamente"⟩,
            tablasConfirmadas env user.id b db g.numero) := by
  rcases crearReserva_curso env user b db with ⟨h1, _, h3, _⟩ | hc
  · rcases h with h | h
    · exact absurd h h3
    · exact absurd h1 h
  · exact hc

theorem tablasTrasSuscripcion_resto (b : CrearReservaBody) (db : DB) (usuario_id : Nat) :
    (tablasTrasSuscripcion b db usuario_id).reservas = db.reservas ∧
    (tablasTrasSuscripcion b db usuario_id).reservaServicios = db.reservaServicios ∧
    (tablasTrasSuscripcion b db usuario_id).servicios = db.servicios ∧
    (tablasTrasSuscripcion b db usuario_id).usuarios = db.usuarios ∧
    (tablasTrasSuscripcion b db usuario_id).empresas = db.empresas ∧
    (tablasTrasSuscripcion b db usuario_id).planes = db.planes := by
  unfold tablasTrasSuscripcion
  cases suscripcionUtilizada b db usuario_id <;> simp [incrementarContador]

theorem tablasConfirmadas_reservas (env : Entorno) (usuario_id : Nat) (b : CrearReservaBody)
    (db : DB) (numero : String) :
    (tablasConfirmadas env usuario_id b db numero).reservas =
      db.reservas ++ [nuevaReserva env usuario_id b (conductorFinal b db usuario_id) numero
        (suscripcionUtilizada b db usuario_id)] := by
  simp [tablasConfirmadas, tablasRegistradas, (tablasTrasSuscripcion_resto b db usuario_id).1]

theorem tablasConfirmadas_lineas (env : Entorno) (usuario_id : Nat) (b : CrearReservaBody)
    (db : DB) (numero : String) :
    (tablasConfirmadas env usuario_id b db numero).reservaServicios =
      db.reservaServicios ++ lineasServicios env.idNuevo db (b.servicios.getD []) := by
  simp [tablasConfirmadas, tablasRegistradas, lineasServicios, precioServicio,
    (tablasTrasSuscripcion_resto b db usuario_id).2.1,
    (tablasTrasSuscripcion_resto b db usuario_id).2.2.1]

theorem tablasConfirmadas_suscripciones (env : Entorno) (usuario_id : Nat)
    (b : CrearReservaBody) (db : DB) (numero : String) :
    (tablasConfirmadas env usuario_id b db numero).suscripciones =
      (tablasTrasSuscripcion b db usuario_id).suscripciones := rfl

/-! ## Line items of a created reservation -/

theorem lineasServicios_mem (reservaId : Nat) (db : DB) (servicios : List ServicioData)
    (l : ReservaServicio) (hl : l ∈ lineasServicios reservaId db servicios) :
    ∃ sd ∈ servicios, l = lineaServicio reservaId sd (precioServicio db sd.servicioId) := by
  unfold lineasServicios at hl
  obtain ⟨sd, hsd, rfl⟩ := List.mem_map.mp hl
  exact ⟨sd, hsd, rfl⟩

theorem precioServicio_nonneg (db : DB) (servicioId : Nat)
    (h : ∀ s ∈ db.servicios, 0 ≤ s.precio) : 0 ≤ precioServicio db servicioId := by
  unfold precioServicio
  cases hh : (db.servicios.filter fun s => s.id_servicio = servicioId).head? with
  | none => exact le_refl 0
  | some s =>
    have hmem : s ∈ db.servicios.filter fun s => s.id_servicio = servicioId :=
      List.mem_of_mem_head? hh
    exact h s (List.mem_filter.mp hmem).1

/-- C6 (counterexample): a request with a plan-sourced line carrying the discount -50 on
the service priced 100 is accepted, and the persisted line has `precio_aplicado` 150
above `precio_original` 100. -/
theorem descuento_negativo_sube_precio :
    (crearReserva entornoEjemplo ⟨1, "cliente"⟩ (bodyEjemplo [.obj 1 true (-50)])
        (dbEjemplo "pendiente")).1.status = 201 ∧
    ∃ l ∈ (crearReserva entornoEjemplo ⟨1, "cliente"⟩ (bodyEjemplo [.obj 1 true (-50)])
        (dbEjemplo "pendiente")).2.reservaServicios,
      l.precio_original = 100 ∧ l.precio_aplicado = 150 ∧
        ¬ (l.precio_aplicado ≤ l.precio_original) := by
  have hrs : (crearReserva entornoEjemplo ⟨1, "cliente"⟩ (bodyEjemplo [.obj 1 true (-50)])
      (dbEjemplo "pendiente")).2.reservaServicios =
      [⟨1, 1, 100, 100, false, 0, 0⟩,
        ⟨2, 1, precioAplicado (.obj 1 true (-50)) 100, 100, true, -50, 0⟩] := rfl
  have hp : precioAplicado (.obj 1 true (-50)) 100 = 150 := by
    norm_num [precioAplicado, ServicioData.esServicioPlan, ServicioData.descuentoPlan]
  refine ⟨by decide, ⟨2, 1, 150, 100, true, -50, 0⟩, ?_, rfl, rfl, by norm_num⟩
  rw [hrs, hp]
  simp

/-- C6 (amended): for every request `crearReserva` accepts over a catalog of
non-negative prices, in which every plan-sourced line carries a discount of at least 0,
every line item it persists has `precio_aplicado ≤ precio_original`. -/
theorem crearReserva_precio_aplicado_le (env : Entorno) (user : Principal)
    (b : CrearReservaBody) (db : DB)
    (h : (crearReserva env user b db).1.status = 201 ∨ (crearReserva env user b db).2 ≠ db)
    (hprecios : ∀ s ∈ db.servicios, 0 ≤ s.precio)
    (hdesc : ∀ sd ∈ b.servicios.getD [], sd.esServicioPlan = true → 0 ≤ sd.descuentoPlan) :
    ∃ lineas : List ReservaServicio,
      (crearReserva env user b db).2.reservaServicios = db.reservaServicios ++ lineas ∧
      ∀ l ∈ lineas, l.precio_aplicado ≤ l.precio_original := by
  obtain ⟨_, _, g, _, hval⟩ := crearReserva_confirmada env user b db h
  refine ⟨lineasServicios env.idNuevo db (b.servicios.getD []), ?_, ?_⟩
  · rw [hval]; exact tablasConfirmadas_lineas env user.id b db g.numero
  · intro l hl
    obtain ⟨sd, hsd, rfl⟩ := lineasServicios_mem _ _ _ _ hl
    simp only [lineaServicio, precioAplicado]
    split
    · rename_i hplan
      have hp := precioServicio_nonneg db sd.servicioId hprecios
      have hd := hdesc sd hsd hplan
      have : 0 ≤ precioServicio db sd.servicioId * (sd.descuentoPlan / 100) :=
        mul_nonneg hp (div_nonneg hd (by norm_num))
      linarith
    · exact le_refl _

theorem crearReserva_precio_aplicado_le_witness :
    ((crearReserva entornoEjemplo ⟨1, "cliente"⟩ (bodyEjemplo [.obj 1 true 20])
        (dbEjemplo "pendiente")).1.status = 201 ∨
      (crearReserva entornoEjemplo ⟨1, "cliente"⟩ (bodyEjemplo [.obj 1 true 20])
        (dbEjemplo "pendiente")).2 ≠ dbEjemplo "pendiente") ∧
    (∀ s ∈ (dbEjemplo "pendiente").servicios, 0 ≤ s.precio) ∧
    (∀ sd ∈ (bodyEjemplo [.obj 1 true 20]).servicios.getD [],
      sd.esServicioPlan = true → 0 ≤ sd.descuentoPlan) ∧
    ∃ lineas : List ReservaServicio,
      (crearReserva entornoEjemplo ⟨1, "cliente"⟩ (bodyEjemplo [.obj 1 true 20])
        (dbEjemplo "pendiente")).2.reservaServicios
        = (dbEjemplo "pendiente").reservaServicios ++ lineas ∧
      ∀ l ∈ lineas, l.precio_aplicado ≤ l.precio_original :=
  have hp : ∀ s ∈ (dbEjemplo "pendiente").servicios, 0 ≤ s.precio := by
    intro s hs
    simp only [dbEjemplo, List.mem_singleton] at hs
    rw [hs]; norm_num
  have hd : ∀ sd ∈ (bodyEjemplo [.obj 1 true 20]).servicios.getD [],
      sd.esServicioPlan = true → 0 ≤ sd.descuentoPlan := by
    intro sd hsd _
    simp only [bodyEjemplo, Option.getD_some, List.mem_singleton] at hsd
    rw [hsd]; norm_num [ServicioData.descuentoPlan]
  ⟨Or.inl (by decide), hp, hd,
    crearReserva_precio_aplicado_le entornoEjemplo ⟨1, "cliente"⟩ (bodyEjemplo [.obj 1 true 20])
      (dbEjemplo "pendiente") (Or.inl (by decide)) hp hd⟩

/-- C7: a request whose service list is missing or empty is answered 400 with the
validation message and commits nothing; a request that answers 201 (or that changes the
committed tables at all) commits exactly one reservation row, in state `pendiente`, and
exactly one line item of that reservation per element of the requested service list, in
order, so at least one. -/
theorem crearReserva_lineas (env : Entorno) (user : Principal) (b : CrearReservaBody)
    (db : DB) :
    ((b.servicios = none ∨ b.servicios = some []) →
      crearReserva env user b db =
        (⟨400, false, "Faltan datos requeridos para crear la reserva"⟩, db)) ∧
    (((crearReserva env user b db).1.status = 201 ∨ (crearReserva env user b db).2 ≠ db) →
      ∃ (servicios : List ServicioData) (r : Reserva) (lineas : List ReservaServicio),
        b.servicios = some servicios ∧
        (crearReserva env user b db).2.reservas = db.reservas ++ [r] ∧
        r.id_reserva = env.idNuevo ∧ r.estado = "pendiente" ∧
        (crearReserva env user b db).2.reservaServicios = db.reservaServicios ++ lineas ∧
        lineas.length = servicios.length ∧ 1 ≤ lineas.length ∧
        List.Forall₂ (fun (sd : ServicioData) (l : ReservaServicio) =>
          l.reserva_id = r.id_reserva ∧ l.servicio_id = sd.servicioId ∧
          l.es_servicio_plan = sd.esServicioPlan ∧
          l.descuento_plan_individual = sd.descuentoPlan) servicios lineas) := by
  refine ⟨fun h => ?_, fun h => ?_⟩
  · have : faltanDatos b = true := by
      rcases h with h | h <;> simp [faltanDatos, h]
    simp [crearReserva, this]
  · obtain ⟨hv, _, g, _, hval⟩ := crearReserva_confirmada env user b db h
    cases hs : b.servicios with
    | none => simp [faltanDatos, hs] at hv
    | some servicios =>
      have hne : servicios ≠ [] := by
        intro he
        simp [faltanDatos, hs, he] at hv
      refine ⟨servicios,
        nuevaReserva env user.id b (conductorFinal b db user.id) g.numero
          (suscripcionUtilizada b db user.id),
        lineasServicios env.idNuevo db servicios, rfl, ?_, rfl, rfl, ?_, ?_, ?_, ?_⟩
      · rw [hval]; exact tablasConfirmadas_reservas env user.id b db g.numero
      · rw [hval]
        have := tablasConfirmadas_lineas env user.id b db g.numero
        rw [hs] at this
        exact this
      · simp [lineasServicios]
      · have : 0 < servicios.length := List.length_pos.mpr hne
        simpa [lineasServicios] using this
      · unfold lineasServicios
        rw [List.forall₂_map_right_iff, List.forall₂_same]
        intro sd _
        exact ⟨rfl, rfl, rfl, rfl⟩

/-! ## Booking codes in storage -/

/-- The loop of the generator on an oracle that may throw, when it returns: the result
is the first proposal reported absent, every earlier one having been reported present,
or the fallback, every proposal having been reported present. -/
theorem generarLoop_some (esEmp : Bool) (ex : Nat → String → Option Bool)
    (rnd : Nat → Digito) (ahora : Nat) :
    ∀ (restantes intentos : Nat) (qs : List String) (g : Generado),
      generarLoop esEmp ex rnd ahora restantes intentos qs = some g →
        (∃ k, intentos ≤ k ∧ k < intentos + restantes ∧
            ex k (propuesta esEmp rnd k) = some false ∧
            (∀ j, intentos ≤ j → j < k → ex j (propuesta esEmp rnd j) = some true) ∧
            g.numero = propuesta esEmp rnd k) ∨
        ((∀ j, intentos ≤ j → j < intentos + restantes →
            ex j (propuesta esEmp rnd j) = some true) ∧
          g.numero = numeroFallback esEmp ahora) := by
  intro restantes
  induction restantes with
  | zero =>
    intro intentos qs g h
    simp only [generarLoop, Option.some.injEq] at h
    refine Or.inr ⟨fun j h1 h2 => by omega, ?_⟩
    rw [← h]; rfl
  | succ r ih =>
    intro intentos qs g h
    simp only [generarLoop] at h
    cases hex : ex intentos (propuesta esEmp rnd intentos) with
    | none =>
      rw [show ex intentos ("ANW-" ++ tipoReserva esEmp ++
        numeroAleatorio rnd (7 * intentos)) = none from hex] at h
      simp at h
    | some v =>
      rw [show ex intentos ("ANW-" ++ tipoReserva esEmp ++
        numeroAleatorio rnd (7 * intentos)) = some v from hex] at h
      cases v with
      | false =>
        simp only [Option.some.injEq] at h
        refine Or.inl ⟨intentos, le_refl _, by omega, hex, fun j h1 h2 => by omega, ?_⟩
        rw [← h]; rfl
      | true =>
        rcases ih (intentos + 1) _ g h with ⟨k, h1, h2, h3, h4, h5⟩ | ⟨h1, h2⟩
        · refine Or.inl ⟨k, by omega, by omega, h3, ?_, h5⟩
          intro j hj1 hj2
          rcases Nat.eq_or_lt_of_le hj1 with rfl | hlt
          · exact hex
          · exact h4 j hlt hj2
        · refine Or.inr ⟨?_, h2⟩
          intro j hj1 hj2
          rcases Nat.eq_or_lt_of_le hj1 with rfl | hlt
          · exact hex
          · exact h1 j hlt (by omega)

theorem existeNumero_false (env : Entorno) (db : DB) (i : Nat) (numero : String)
    (h : existeNumero env db i numero = some false) :
    env.falla (.existeNumero i) = false ∧ numero ∉ codigos db := by
  unfold existeNumero at h
  split at h
  · simp at h
  · rename_i hf
    refine ⟨by simpa using hf, ?_⟩
    simp only [Option.some.injEq, List.any_eq_false] at h
    intro hmem
    obtain ⟨r, hr, hnum⟩ := List.mem_filterMap.mp hmem
    exact h r hr (by simpa using hnum)

theorem existeNumero_true (env : Entorno) (db : DB) (i : Nat) (numero : String)
    (h : existeNumero env db i numero = some true) :
    env.falla (.existeNumero i) = false ∧ numero ∈ codigos db := by
  unfold existeNumero at h
  split at h
  · simp at h
  · rename_i hf
    refine ⟨by simpa using hf, ?_⟩
    simp only [Option.some.injEq, List.any_eq_true] at h
    obtain ⟨r, hr, hnum⟩ := h
    exact List.mem_filterMap.mpr ⟨r, hr, by simpa using hnum⟩

/-- What the generator returns inside the transaction opened on `db`: a proposal that no
stored reservation carries, or the fallback after ten proposals that stored reservations
carry. No existence query it sent threw. -/
theorem numeroGenerado_some (env : Entorno) (b : CrearReservaBody) (db : DB) (g : Generado)
    (h : numeroGenerado env b db = some g) :
    (∃ k, k < 10 ∧ g.numero = propuesta (b.es_reserva_empresarial == some true) env.rnd k ∧
        g.numero ∉ codigos db ∧
        (∀ j, j ≤ k → env.falla (.existeNumero j) = false) ∧
        (∀ j, j < k →
          propuesta (b.es_reserva_empresarial == some true) env.rnd j ∈ codigos db)) ∨
    (g.numero = numeroFallback (b.es_reserva_empresarial == some true) env.ahora ∧
        ∀ j, j < 10 → env.falla (.existeNumero j) = false ∧
          propuesta (b.es_reserva_empresarial == some true) env.rnd j ∈ codigos db) := by
  rcases generarLoop_some _ _ _ _ maxIntentos 0 [] g h with
    ⟨k, _, hk, habs, hpres, hnum⟩ | ⟨hpres, hnum⟩
  · left
    have hk10 : k < 10 := by simpa [maxIntentos] using hk
    have ha := existeNumero_false env db k _ habs
    refine ⟨k, hk10, hnum, by rw [hnum]; exact ha.2, ?_, ?_⟩
    · intro j hj
      rcases Nat.eq_or_lt_of_le hj with rfl | hlt
      · exact ha.1
      · exact (existeNumero_true env db j _ (hpres j (Nat.zero_le j) hlt)).1
    · intro j hj
      exact (existeNumero_true env db j _ (hpres j (Nat.zero_le j) hj)).2
  · right
    refine ⟨hnum, fun j hj => ?_⟩
    exact existeNumero_true env db j _ (hpres j (Nat.zero_le j) (by simpa [maxIntentos] using hj))

theorem codigos_tablasConfirmadas (env : Entorno) (usuario_id : Nat) (b : CrearReservaBody)
    (db : DB) (numero : String) :
    codigos (tablasConfirmadas env usuario_id b db numero) = codigos db ++ [numero] := by
  simp [codigos, tablasConfirmadas_reservas, List.filterMap_append, nuevaReserva]

/-- C3 at a state that stores the code `ANW-B0000000`, with every random draw 0 and a
clock that ends in seven zeros: the generator queries its ten proposals, each of them that
stored code, and then returns the code built from the clock, `ANW-B0000000` again, without
querying it, so the code it returns is one the existence query reports as stored.
`crearReserva` sends that code to the `INSERT`; on the storage as embedded, which puts no
uniqueness constraint on the column (the source shows none), the request is answered 201
and two stored reservations carry the code. -/
theorem generarNumeroReserva_repite_codigo :
    codigos (dbEjemplo "pendiente") = ["ANW-B0000000"] ∧
    numeroGenerado entornoEjemplo (bodyEjemplo [.id 1]) (dbEjemplo "pendiente") =
      some ⟨"ANW-B0000000", List.replicate 10 "ANW-B0000000"⟩ ∧
    existeNumero entornoEjemplo (dbEjemplo "pendiente") 10 "ANW-B0000000" = some true ∧
    (crearReserva entornoEjemplo ⟨1, "cliente"⟩ (bodyEjemplo [.id 1])
        (dbEjemplo "pendiente")).1.status = 201 ∧
    codigos (crearReserva entornoEjemplo ⟨1, "cliente"⟩ (bodyEjemplo [.id 1])
        (dbEjemplo "pendiente")).2 = ["ANW-B0000000", "ANW-B0000000"] ∧
    ¬(codigos (crearReserva entornoEjemplo ⟨1, "cliente"⟩ (bodyEjemplo [.id 1])
        (dbEjemplo "pendiente")).2).Nodup := by
  decide

/-- When the generator does not reach its fallback the codes stay distinct: from a state
whose booking codes are pairwise distinct, after a `crearReserva` request that answers 201
(or changes the committed tables at all) and for which one of the ten random proposals is
carried by no stored reservation, the booking codes of the stored reservations are still
pairwise distinct. -/
theorem crearReserva_codigos_distintos (env : Entorno) (user : Principal)
    (b : CrearReservaBody) (db : DB)
    (hnodup : (codigos db).Nodup)
    (h : (crearReserva env user b db).1.status = 201 ∨ (crearReserva env user b db).2 ≠ db)
    (hlibre : ∃ i, i < 10 ∧
      propuesta (b.es_reserva_empresarial == some true) env.rnd i ∉ codigos db) :
    (codigos (crearReserva env user b db).2).Nodup := by
  obtain ⟨_, _, g, hg, hval⟩ := crearReserva_confirmada env user b db h
  rw [hval]
  show (codigos (tablasConfirmadas env user.id b db g.numero)).Nodup
  rw [codigos_tablasConfirmadas]
  rcases numeroGenerado_some env b db g hg with ⟨k, _, _, hnot, _, _⟩ | ⟨_, hall⟩
  · exact List.Nodup.append hnodup (List.nodup_singleton _) (by simpa using hnot)
  · obtain ⟨i, hi, hni⟩ := hlibre
    exact absurd (hall i hi).2 hni

theorem crearReserva_codigos_distintos_witness :
    (codigos (dbEjemplo "pendiente")).Nodup ∧
    ((crearReserva { entornoEjemplo with rnd := fun _ => 7 } ⟨1, "cliente"⟩ (bodyEjemplo [.id 1])
        (dbEjemplo "pendiente")).1.status = 201 ∨
      (crearReserva { entornoEjemplo with rnd := fun _ => 7 } ⟨1, "cliente"⟩
        (bodyEjemplo [.id 1]) (dbEjemplo "pendiente")).2 ≠ dbEjemplo "pendiente") ∧
    (∃ i, i < 10 ∧
      propuesta ((bodyEjemplo [.id 1]).es_reserva_empresarial == some true)
        ({ entornoEjemplo with rnd := fun _ => 7 } : Entorno).rnd i
        ∉ codigos (dbEjemplo "pendiente")) ∧
    (codigos (crearReserva { entornoEjemplo with rnd := fun _ => 7 } ⟨1, "cliente"⟩
      (bodyEjemplo [.id 1]) (dbEjemplo "pendiente")).2).Nodup :=
  ⟨by decide, Or.inl (by decide), ⟨0, by decide, by decide⟩,
    crearReserva_codigos_distintos { entornoEjemplo with rnd := fun _ => 7 } ⟨1, "cliente"⟩
      (bodyEjemplo [.id 1]) (dbEjemplo "pendiente") (by decide) (Or.inl (by decide))
      ⟨0, by decide, by decide⟩⟩

/-! ## Subscription quota -/

theorem filter_unico {α β : Type} [DecidableEq β] (f : α → β) (p : α → Bool) (x : α) :
    ∀ (l : List α), (l.map f).Nodup → x ∈ l → p x = true →
      (∀ y ∈ l, p y = true → f y = f x) → l.filter p = [x] := by
  intro l
  induction l with
  | nil => intro _ hx; simp at hx
  | cons y ys ih =>
    intro hnd hx hpx hall
    simp only [List.map_cons, List.nodup_cons] at hnd
    rcases List.mem_cons.mp hx with rfl | hmem
    · have hrest : ys.filter p = [] := by
        rw [List.filter_eq_nil_iff]
        intro z hz hpz
        have := hall z (List.mem_cons_of_mem _ hz) hpz
        exact hnd.1 (this ▸ List.mem_map_of_mem f hz)
      simp [List.filter_cons, hpx, hrest]
    · have hpy : p y = false := by
        by_contra hne
        have hpy : p y = true := by simpa using hne
        have := hall y (List.mem_cons_self _ _) hpy
        exact hnd.1 (this ▸ List.mem_map_of_mem f hmem)
      rw [List.filter_cons, hpy]
      exact ih hnd.2 hmem hpx (fun z hz => hall z (List.mem_cons_of_mem _ hz))

/-- With distinct subscription ids and distinct plan ids, the subscription query of
`crearReserva` returns the active subscription of the caller with its plan. -/
theorem suscripcionesActivas_head (db : DB) (usuario_id : Nat) (susc : Suscripcion)
    (plan : Plan)
    (hpkS : (db.suscripciones.map fun su => su.id_suscripcion).Nodup)
    (hpkP : (db.planes.map fun p => p.id_plan).Nodup)
    (hsusc : susc ∈ db.suscripciones) (hown : susc.usuario_id = usuario_id)
    (hact : susc.estado = "activa") (hplan : plan ∈ db.planes)
    (hpid : plan.id_plan = susc.plan_id) :
    (suscripcionesActivas db susc.id_suscripcion usuario_id).head? = some (susc, plan) := by
  unfold suscripcionesActivas
  have h1 : (db.suscripciones.filter fun su =>
      decide (su.id_suscripcion = susc.id_suscripcion ∧ su.usuario_id = usuario_id ∧
        su.estado = "activa")) = [susc] := by
    apply filter_unico (fun su : Suscripcion => su.id_suscripcion) _ susc _ hpkS hsusc
    · simp [hown, hact]
    · intro y _ hy
      simp only [decide_eq_true_eq] at hy
      exact hy.1
  have h2 : (db.planes.filter fun p => decide (susc.plan_id = p.id_plan)) = [plan] := by
    apply filter_unico (fun p : Plan => p.id_plan) _ plan _ hpkP hplan
    · simp [hpid]
    · intro y _ hy
      simp only [decide_eq_true_eq] at hy
      rw [← hy, hpid]
  rw [h1]
  simp [h2]

/-- On an exhausted quota, with the statements before the quota check going through, the
request is answered with the quota rejection and commits nothing. -/
theorem crearReserva_sinCupo (env : Entorno) (user : Principal) (b : CrearReservaBody)
    (db : DB) (sid : Nat) (susc : Suscripcion) (plan : Plan)
    (hv : faltanDatos b = false)
    (hn : truthyStr b.conductor_asignado = false → env.falla .nombreUsuario = false)
    (hb : env.falla .begin = false) (hf : env.falla .selectSuscripcion = false)
    (hs : suscripcionSolicitada b = some sid)
    (hh : (suscripcionesActivas db sid user.id).head? = some (susc, plan))
    (hc : cupoAgotado susc plan = true) :
    crearReserva env user b db = (respuestaSinCupo, db) := by
  have hrun : (crearReservaTry env user.id b).run ⟨db, none⟩ =
      .responde respuestaSinCupo ⟨db, none⟩ := by
    rcases crearReservaTry_run env user.id b db with ⟨h1, h2, _⟩ | ⟨_, hrun⟩
    · rw [hn h1] at h2; exact absurd h2 Bool.false_ne_true
    · rw [hrun]
      unfold crearReservaTransaccion
      simp [run_bind, run_comenzar, hb, Conexion.begin, usarSuscripcion_run, hs, hf, hh, hc]
  simp [crearReserva, hv, hrun]

/-- When no statement throws, the generator returns. -/
theorem numeroGenerado_sin_fallos (env : Entorno) (b : CrearReservaBody) (db : DB)
    (hno : ∀ p, env.falla p = false) : (numeroGenerado env b db).isSome = true := by
  have hex : existeNumero env db =
      fun i c => some ((fun _ numero => db.reservas.any fun r => r.numero_reserva = some numero)
        i c) := by
    funext i c
    simp [existeNumero, hno]
  obtain ⟨g, hg, _⟩ := generarLoop_resultado (b.es_reserva_empresarial == some true)
    (fun _ numero => db.reservas.any fun r => r.numero_reserva = some numero) env.rnd env.ahora
    maxIntentos 0 []
  unfold numeroGenerado generarNumeroReserva
  rw [hex, hg]
  rfl

/-- C8: for a `crearReserva` request that asks to use subscription `sid`, an active
subscription of the caller with plan `plan` (subscription ids and plan ids being
distinct): if the plan quota is positive and the usage counter has reached it, the
request is rejected and the committed tables are unchanged, with the quota answer when
validation passes and no statement throws; if the plan quota is 0 the request is never
answered with the quota rejection; and when the quota is not exhausted, a request that
commits anything commits the counter of that subscription incremented by exactly 1 (all
other counters as they were), which is what happens with status 201 when validation
passes and no statement throws. -/
theorem crearReserva_cupo (env : Entorno) (user : Principal) (b : CrearReservaBody) (db : DB)
    (sid : Nat) (susc : Suscripcion) (plan : Plan)
    (hpkS : (db.suscripciones.map fun su => su.id_suscripcion).Nodup)
    (hpkP : (db.planes.map fun p => p.id_plan).Nodup)
    (hsol : b.usar_suscripcion = true ∧ b.suscripcion_id = some sid ∧ sid ≠ 0)
    (hsusc : susc ∈ db.suscripciones) (hid : susc.id_suscripcion = sid)
    (hown : susc.usuario_id = user.id) (hact : susc.estado = "activa")
    (hplan : plan ∈ db.planes) (hpid : plan.id_plan = susc.plan_id) :
    ((0 < plan.cantidad_servicios_mes ∧
        plan.cantidad_servicios_mes ≤ susc.servicios_utilizados_mes) →
      (crearReserva env user b db).1.success = false ∧
      (crearReserva env user b db).2 = db ∧
      (faltanDatos b = false → (∀ p, env.falla p = false) →
        (crearReserva env user b db).1 = respuestaSinCupo)) ∧
    (plan.cantidad_servicios_mes = 0 → (crearReserva env user b db).1 ≠ respuestaSinCupo) ∧
    (¬ (0 < plan.cantidad_servicios_mes ∧
        plan.cantidad_servicios_mes ≤ susc.servicios_utilizados_mes) →
      (((crearReserva env user b db).1.status = 201 ∨ (crearReserva env user b db).2 ≠ db) →
        (crearReserva env user b db).2.suscripciones =
          db.suscripciones.map fun su =>
            if su.id_suscripcion = sid then
              { su with servicios_utilizados_mes := su.servicios_utilizados_mes + 1 }
            else su) ∧
      (faltanDatos b = false → (∀ p, env.falla p = false) →
        (crearReserva env user b db).1.status = 201)) := by
  have hs : suscripcionSolicitada b = some sid := by
    simp [suscripcionSolicitada, hsol.1, hsol.2.1, truthyNat, hsol.2.2]
  have hh : (suscripcionesActivas db sid user.id).head? = some (susc, plan) := by
    rw [← hid]
    exact suscripcionesActivas_head db user.id susc plan hpkS hpkP hsusc hown hact hplan hpid
  have hutil : suscripcionUtilizada b db user.id = some sid := by
    simp [suscripcionUtilizada, hs, hh]
  refine ⟨fun hq => ?_, fun h0 => ?_, fun hq => ⟨fun hcommit => ?_, fun hv hno => ?_⟩⟩
  · have hc : cupoAgotado susc plan = true := by
      simp only [cupoAgotado, decide_eq_true_eq]; exact ⟨hq.1, hq.2⟩
    rcases crearReserva_curso env user b db with ⟨h1, h2, _, _, _⟩ | ⟨_, hp, _⟩
    · exact ⟨h2, h1, fun hv hno =>
        by rw [crearReserva_sinCupo env user b db sid susc plan hv (fun _ => hno _) (hno _)
          (hno _) hs hh hc]⟩
    · have := hp.2.2.1
      simp [suscripcionPasa, hs, hh, hc] at this
  · intro hresp
    rcases crearReserva_curso env user b db with ⟨_, _, _, _, h5⟩ | ⟨_, _, g, _, hval⟩
    · obtain ⟨sid2, susc2, plan2, hs2, hh2, hc2⟩ := h5 hresp
      rw [hs] at hs2
      obtain rfl : sid = sid2 := by simpa using hs2
      rw [hh] at hh2
      obtain ⟨rfl, rfl⟩ : susc = susc2 ∧ plan = plan2 := by simpa using hh2
      simp only [cupoAgotado, decide_eq_true_eq] at hc2
      omega
    · rw [hval] at hresp
      by_cases hsel : env.falla .selectCompleta = true
      · simp [hsel, respuestaSinCupo] at hresp
      · simp [hsel, respuestaSinCupo] at hresp
  · obtain ⟨_, _, g, _, hval⟩ := crearReserva_confirmada env user b db hcommit
    rw [hval]
    show (tablasConfirmadas env user.id b db g.numero).suscripciones = _
    rw [tablasConfirmadas_suscripciones]
    simp [tablasTrasSuscripcion, hutil, incrementarContador]
  · have hc : cupoAgotado susc plan = false := by
      simp only [cupoAgotado, decide_eq_false_iff_not]
      exact fun h => hq ⟨h.1, h.2⟩
    rcases crearReserva_curso env user b db with ⟨_, _, _, h4, _⟩ | ⟨_, _, g, _, hval⟩
    · exfalso
      apply h4
      refine ⟨hv, ⟨fun _ => hno _, hno _, ?_, hno _, fun j _ => ⟨hno _, hno _⟩, hno _⟩,
        numeroGenerado_sin_fallos env b db hno⟩
      simp [suscripcionPasa, hs, hh, hc, hno]
    · rw [hval]
      simp [hno]


theorem crearReserva_cupo_witness :
    ((dbEjemplo "pendiente").suscripciones.map fun su => su.id_suscripcion).Nodup ∧
    ((dbEjemplo "pendiente").planes.map fun p => p.id_plan).Nodup ∧
    ((bodySuscripcion 1).usar_suscripcion = true ∧
      (bodySuscripcion 1).suscripcion_id = some 1 ∧ 1 ≠ 0) ∧
    (⟨1, 1, 1, "activa", 3, 0⟩ : Suscripcion) ∈ (dbEjemplo "pendiente").suscripciones ∧
    (⟨1, 3⟩ : Plan) ∈ (dbEjemplo "pendiente").planes ∧
    (crearReserva entornoEjemplo ⟨1, "cliente"⟩ (bodySuscripcion 1)
      (dbEjemplo "pendiente")).1.success = false ∧
    (crearReserva entornoEjemplo ⟨1, "cliente"⟩ (bodySuscripcion 1)
      (dbEjemplo "pendiente")).2 = dbEjemplo "pendiente" ∧
    (crearReserva entornoEjemplo ⟨1, "cliente"⟩ (bodySuscripcion 1)
      (dbEjemplo "pendiente")).1 = respuestaSinCupo :=
  have hS : ((dbEjemplo "pendiente").suscripciones.map fun su => su.id_suscripcion).Nodup := by
    decide
  have hP : ((dbEjemplo "pendiente").planes.map fun p => p.id_plan).Nodup := by decide
  have hsol : (bodySuscripcion 1).usar_suscripcion = true ∧
      (bodySuscripcion 1).suscripcion_id = some 1 ∧ 1 ≠ 0 := by decide
  have hs : (⟨1, 1, 1, "activa", 3, 0⟩ : Suscripcion) ∈ (dbEjemplo "pendiente").suscripciones :=
    by decide
  have hp : (⟨1, 3⟩ : Plan) ∈ (dbEjemplo "pendiente").planes := by decide
  have h := (crearReserva_cupo entornoEjemplo ⟨1, "cliente"⟩ (bodySuscripcion 1)
    (dbEjemplo "pendiente") 1 ⟨1, 1, 1, "activa", 3, 0⟩ ⟨1, 3⟩ hS hP hsol hs rfl rfl rfl hp
    rfl).1 ⟨by decide, by decide⟩
  ⟨hS, hP, hsol, hs, hp, h.1, h.2.1, h.2.2 (by decide) (fun _ => rfl)⟩

/-! ## All or nothing -/

/-- C9: a `crearReserva` request commits nothing or everything. Either the committed
tables are unchanged and the answer is a failure, or they are the tables of
`tablasConfirmadas`: one reservation row, one line item per requested service and the
incremented counter of the used subscription. If any statement sent after the
transaction begins throws (`BEGIN`, the subscription query, the counter update, an
existence query of the generator that is reached, the reservation insert, the price
query or the insert of a requested service, `COMMIT`) the committed tables are unchanged,
the subscription counters included. And whenever the committed subscription counters
differ from before, the reservation row that used the subscription is committed with
them. -/
theorem crearReserva_todo_o_nada (env : Entorno) (user : Principal) (b : CrearReservaBody)
    (db : DB) :
    (((crearReserva env user b db).2 = db ∧ (crearReserva env user b db).1.success = false) ∨
      ∃ g, numeroGenerado env b db = some g ∧
        (crearReserva env user b db).2 = tablasConfirmadas env user.id b db g.numero) ∧
    ((env.falla .begin = true ∨
        (suscripcionSolicitada b ≠ none ∧ env.falla .selectSuscripcion = true) ∨
        (suscripcionUtilizada b db user.id ≠ none ∧ env.falla .updateContador = true) ∨
        (∃ k, k < 10 ∧
          (∀ j, j < k →
            propuesta (b.es_reserva_empresarial == some true) env.rnd j ∈ codigos db) ∧
          env.falla (.existeNumero k) = true) ∨
        env.falla .insertReserva = true ∨
        (∃ i, i < (b.servicios.getD []).length ∧
          (env.falla (.selectPrecio i) = true ∨ env.falla (.insertLinea i) = true)) ∨
        env.falla .commit = true) →
      (crearReserva env user b db).2 = db ∧
        (crearReserva env user b db).1.success = false) ∧
    ((crearReserva env user b db).2.suscripciones ≠ db.suscripciones →
      ∃ (sid : Nat) (r : Reserva) (lineas : List ReservaServicio),
        (crearReserva env user b db).2.reservas = db.reservas ++ [r] ∧
        r.suscripcion_utilizada_id = some sid ∧
        (crearReserva env user b db).2.reservaServicios = db.reservaServicios ++ lineas ∧
        lineas.length = (b.servicios.getD []).length ∧
        (crearReserva env user b db).2.suscripciones =
          db.suscripciones.map fun su =>
            if su.id_suscripcion = sid then
              { su with servicios_utilizados_mes := su.servicios_utilizados_mes + 1 }
            else su) := by
  refine ⟨?_, fun hfalla => ?_, fun hsus => ?_⟩
  · rcases crearReserva_curso env user b db with ⟨h1, h2, _⟩ | ⟨_, _, g, hg, hval⟩
    · exact Or.inl ⟨h1, h2⟩
    · exact Or.inr ⟨g, hg, by rw [hval]⟩
  · rcases crearReserva_curso env user b db with ⟨h1, h2, _⟩ | ⟨_, hp, g, hg, _⟩
    · exact ⟨h1, h2⟩
    · exfalso
      obtain ⟨_, hb, hsp, hins, hlin, hcom⟩ := hp
      rcases hfalla with h | ⟨hne, h⟩ | ⟨hne, h⟩ | ⟨k, hk, hprev, h⟩ | h | ⟨i, hi, h⟩ | h
      · rw [hb] at h; exact Bool.false_ne_true h
      · cases hs : suscripcionSolicitada b with
        | none => exact hne hs
        | some sid =>
          simp only [suscripcionPasa, hs] at hsp
          rw [hsp.1] at h; exact Bool.false_ne_true h
      · cases hs : suscripcionSolicitada b with
        | none => simp [suscripcionUtilizada, hs] at hne
        | some sid =>
          cases hh : (suscripcionesActivas db sid user.id).head? with
          | none => simp [suscripcionUtilizada, hs, hh] at hne
          | some sp =>
            simp only [suscripcionPasa, hs, hh] at hsp
            rw [hsp.2.2] at h; exact Bool.false_ne_true h
      · rcases numeroGenerado_some env b db g hg with ⟨k2, _, hnum, hnot, hok, _⟩ | ⟨_, hall⟩
        · by_cases hle : k ≤ k2
          · rw [hok k hle] at h; exact Bool.false_ne_true h
          · exact hnot (hnum ▸ hprev k2 (by omega))
        · rw [(hall k hk).1] at h; exact Bool.false_ne_true h
      · rw [hins] at h; exact Bool.false_ne_true h
      · rcases h with h | h
        · rw [(hlin i hi).1] at h; exact Bool.false_ne_true h
        · rw [(hlin i hi).2] at h; exact Bool.false_ne_true h
      · rw [hcom] at h; exact Bool.false_ne_true h
  · rcases crearReserva_curso env user b db with ⟨h1, _⟩ | ⟨_, _, g, _, hval⟩
    · rw [h1] at hsus; exact absurd rfl hsus
    · rw [hval] at hsus ⊢
      simp only [tablasConfirmadas_suscripciones] at hsus
      cases hu : suscripcionUtilizada b db user.id with
      | none => simp [tablasTrasSuscripcion, hu] at hsus
      | some sid =>
        refine ⟨sid, _, lineasServicios env.idNuevo db (b.servicios.getD []),
          tablasConfirmadas_reservas env user.id b db g.numero, ?_,
          tablasConfirmadas_lineas env user.id b db g.numero, by simp [lineasServicios], ?_⟩
        · simp [nuevaReserva, hu]
        · show (tablasConfirmadas env user.id b db g.numero).suscripciones = _
          rw [tablasConfirmadas_suscripciones]
          simp [tablasTrasSuscripcion, hu, incrementarContador]

/-- A request of user 2 on the unlimited subscription 2 whose line-item insert throws:
the answer is 500 and the committed tables, the usage counter included, are unchanged;
the same request with no statement throwing answers 201 and commits the counter 8. -/
theorem crearReserva_fallo_linea_ejemplo :
    crearReserva { entornoEjemplo with falla := fun p => p == .insertLinea 0 } ⟨2, "cliente"⟩
        (bodySuscripcion 2) (dbEjemplo "pendiente")
      = (⟨500, false, "Error al crear la reserva"⟩, dbEjemplo "pendiente") ∧
    (crearReserva entornoEjemplo ⟨2, "cliente"⟩ (bodySuscripcion 2)
        (dbEjemplo "pendiente")).1.status = 201 ∧
    (crearReserva entornoEjemplo ⟨2, "cliente"⟩ (bodySuscripcion 2)
        (dbEjemplo "pendiente")).2.suscripciones
      = [⟨1, 1, 1, "activa", 3, 0⟩, ⟨2, 2, 2, "activa", 8, 0⟩] := by
  decide

/-! ## State changes from a terminal or expired state -/

theorem actualizarReserva_reservas (db : DB) (reservaId : Nat) (f : Reserva → Reserva) :
    (actualizarReserva db reservaId f).reservas =
      db.reservas.map fun r => if r.id_reserva = reservaId then f r else r := rfl

/-- C11 (counterexample): reservation 1 of business 1 is `completado`; the business asks
for the state `pendiente` and gets 200, and the reservation is `pendiente` again. -/
theorem empresa_reabre_completado :
    (buscarReserva (dbEjemplo "completado") 1).map (fun r => (r.empresa_id, r.estado))
      = some (1, "completado") ∧
    (actualizarEstadoReserva ⟨1, "empresa"⟩ 1 ⟨some "pendiente"⟩
      (dbEjemplo "completado")).1 = ⟨200, true, "Estado actualizado correctamente"⟩ ∧
    (buscarReserva (actualizarEstadoReserva ⟨1, "empresa"⟩ 1 ⟨some "pendiente"⟩
      (dbEjemplo "completado")).2 1).map (fun r => r.estado) = some "pendiente" := by
  decide

/-- C11 (amended): for every reservation of the business, whatever its current state
(`completado` and `cancelada` included), `actualizarEstadoReserva` rejects the request
with status 400 and leaves the stored state unchanged when the requested target state is
missing or is not one of `pendiente`, `completado`, `cancelada`; for a target among
these three it answers 200 and the reservation has the target state afterwards, every
other field and every other reservation being unchanged. -/
theorem actualizarEstadoReserva_efecto (user : Principal) (reservaId : Nat) (R : Reserva)
    (db : DB) (hR : R ∈ db.reservas) (hid : R.id_reserva = reservaId)
    (hemp : R.empresa_id = user.id) :
    (∀ body : EstadoBody,
      (∀ e, body.estado = some e → e ∉ estadosValidos) →
        actualizarEstadoReserva user reservaId body db = (⟨400, false, "Estado no válido"⟩, db)) ∧
    (∀ estado, estado ∈ estadosValidos →
      (actualizarEstadoReserva user reservaId ⟨some estado⟩ db).1
        = ⟨200, true, "Estado actualizado correctamente"⟩ ∧
      (actualizarEstadoReserva user reservaId ⟨some estado⟩ db).2
        = { db with reservas := db.reservas.map fun r =>
              if r.id_reserva = reservaId then { r with estado := estado } else r } ∧
      { R with estado := estado } ∈
        (actualizarEstadoReserva user reservaId ⟨some estado⟩ db).2.reservas) := by
  have hne : (reservasDeEmpresa db reservaId user.id).length ≠ 0 := by
    have : R ∈ reservasDeEmpresa db reservaId user.id := by
      simp [reservasDeEmpresa, List.mem_filter, hR, hid, hemp]
    intro h0
    rw [List.length_eq_zero] at h0
    rw [h0] at this
    simp at this
  refine ⟨fun body hbad => ?_, fun estado hval => ?_⟩
  · unfold actualizarEstadoReserva
    cases he : body.estado with
    | none => rfl
    | some e =>
      have := hbad e he
      simp [this]
  · have hval2 : estadosValidos.contains estado = true := by simpa using hval
    have hrun : actualizarEstadoReserva user reservaId ⟨some estado⟩ db =
        (⟨200, true, "Estado actualizado correctamente"⟩,
          actualizarReserva db reservaId fun r => { r with estado := estado }) := by
      have hne2 : reservasDeEmpresa db reservaId user.id ≠ [] := fun h => hne (by rw [h]; rfl)
      simp [actualizarEstadoReserva, hval, hne2]
    rw [hrun]
    refine ⟨rfl, rfl, ?_⟩
    simp only [actualizarReserva_reservas, List.mem_map]
    exact ⟨R, hR, by simp [hid]⟩

theorem actualizarEstadoReserva_efecto_witness :
    reservaEjemplo 1 "ANW-B0000000" "cancelada" ∈ (dbEjemplo "cancelada").reservas ∧
    (reservaEjemplo 1 "ANW-B0000000" "cancelada").id_reserva = 1 ∧
    (reservaEjemplo 1 "ANW-B0000000" "cancelada").empresa_id = (⟨1, "empresa"⟩ : Principal).id ∧
    actualizarEstadoReserva ⟨1, "empresa"⟩ 1 ⟨some "vencida"⟩ (dbEjemplo "cancelada")
      = (⟨400, false, "Estado no válido"⟩, dbEjemplo "cancelada") ∧
    (actualizarEstadoReserva ⟨1, "empresa"⟩ 1 ⟨some "completado"⟩ (dbEjemplo "cancelada")).1
      = ⟨200, true, "Estado actualizado correctamente"⟩ :=
  have hR : reservaEjemplo 1 "ANW-B0000000" "cancelada" ∈ (dbEjemplo "cancelada").reservas := by
    decide
  have h := actualizarEstadoReserva_efecto ⟨1, "empresa"⟩ 1
    (reservaEjemplo 1 "ANW-B0000000" "cancelada") (dbEjemplo "cancelada") hR rfl rfl
  ⟨hR, rfl, rfl,
    h.1 ⟨some "vencida"⟩ (fun e he => by
      have : e = "vencida" := by simpa using he.symm
      rw [this]; decide),
    (h.2 "completado" (by decide)).1⟩

/-- C12 (counterexample): reservation 1 of user 1 is `vencida`; `cancelarReserva` answers
200 and the reservation is `cancelada`. -/
theorem cancelar_desde_vencida :
    (buscarReserva (dbEjemplo "vencida") 1).map (fun r => r.estado) = some "vencida" ∧
    (cancelarReserva ⟨1, "cliente"⟩ 1 ⟨some 1⟩ (dbEjemplo "vencida")).1
      = ⟨200, true, "Reserva cancelada exitosamente"⟩ ∧
    (buscarReserva (cancelarReserva ⟨1, "cliente"⟩ 1 ⟨some 1⟩ (dbEjemplo "vencida")).2 1).map
      (fun r => r.estado) = some "cancelada" := by
  decide

/-- C12 (amended): `cancelarReserva` writes only when the reservation exists, the
ownership check passes and its current state is neither `cancelada` nor `completado`
(so from `pendiente`, and also from `vencida`); it then answers 200 and sets the state
of that reservation to `cancelada`, nothing else. For a reservation in state
`completado` or `cancelada` it answers with an error and writes nothing. -/
theorem cancelarReserva_efecto (user : Principal) (reservaId : Nat) (body : CancelarBody)
    (db : DB) :
    (∀ r, buscarReserva db reservaId = some r →
      body.usuario_id = some (r.usuario_id : Int) →
      r.estado ≠ "cancelada" → r.estado ≠ "completado" →
      cancelarReserva user reservaId body db =
        (⟨200, true, "Reserva cancelada exitosamente"⟩,
          { db with reservas := db.reservas.map fun x =>
              if x.id_reserva = reservaId then { x with estado := "cancelada" } else x })) ∧
    ((cancelarReserva user reservaId body db).2 ≠ db →
      ∃ r, buscarReserva db reservaId = some r ∧
        body.usuario_id = some (r.usuario_id : Int) ∧
        r.estado ≠ "cancelada" ∧ r.estado ≠ "completado") ∧
    (∀ r, buscarReserva db reservaId = some r →
      (r.estado = "completado" ∨ r.estado = "cancelada") →
      (cancelarReserva user reservaId body db).1.success = false ∧
        (cancelarReserva user reservaId body db).2 = db) := by
  refine ⟨fun r hb ho h1 h2 => ?_, fun hne => ?_, fun r hb ht => ?_⟩
  · simp [cancelarReserva, hb, ho, h1, h2, actualizarReserva]
  · unfold cancelarReserva at hne
    cases hb : buscarReserva db reservaId with
    | none => simp [hb] at hne
    | some r =>
      simp only [hb] at hne
      by_cases ho : some (r.usuario_id : Int) = body.usuario_id
      · by_cases ht : r.estado = "cancelada" ∨ r.estado = "completado"
        · simp [ho, ht] at hne
        · exact ⟨r, rfl, ho.symm, fun h => ht (Or.inl h), fun h => ht (Or.inr h)⟩
      · simp [ho] at hne
  · simp only [cancelarReserva, hb]
    by_cases ho : some (r.usuario_id : Int) = body.usuario_id
    · simp [← ho, ht.symm]
    · simp [ho]

/-! ## Expiry sweep -/

theorem cadenaLe_total : ∀ x y : List Char, cadenaLe x y = true ∨ cadenaLe y x = true := by
  intro x
  induction x with
  | nil => intro y; exact Or.inl rfl
  | cons a as ih =>
    intro y
    cases y with
    | nil => exact Or.inr rfl
    | cons b bs =>
      simp only [cadenaLe, Bool.or_eq_true, Bool.and_eq_true, decide_eq_true_eq]
      rcases Nat.lt_trichotomy a.toNat b.toNat with h | h | h
      · exact Or.inl (Or.inl h)
      · rcases ih bs with h2 | h2
        · exact Or.inl (Or.inr ⟨h, h2⟩)
        · exact Or.inr (Or.inr ⟨h.symm, h2⟩)
      · exact Or.inr (Or.inl h)

theorem cadenaLe_trans : ∀ x y z : List Char,
    cadenaLe x y = true → cadenaLe y z = true → cadenaLe x z = true := by
  intro x
  induction x with
  | nil => intro y z _ _; rfl
  | cons a as ih =>
    intro y z hxy hyz
    cases y with
    | nil => simp [cadenaLe] at hxy
    | cons b bs =>
      cases z with
      | nil => simp [cadenaLe] at hyz
      | cons c cs =>
        simp only [cadenaLe, Bool.or_eq_true, Bool.and_eq_true, decide_eq_true_eq] at *
        rcases hxy with h1 | ⟨h1, h2⟩ <;> rcases hyz with h3 | ⟨h3, h4⟩
        · exact Or.inl (by omega)
        · exact Or.inl (by omega)
        · exact Or.inl (by omega)
        · exact Or.inr ⟨by omega, ih bs cs h2 h4⟩

theorem cadenaLe_antisymm : ∀ x y : List Char,
    cadenaLe x y = true → cadenaLe y x = true → x = y := by
  intro x
  induction x with
  | nil =>
    intro y _ hyx
    cases y with
    | nil => rfl
    | cons b bs => simp [cadenaLe] at hyx
  | cons a as ih =>
    intro y hxy hyx
    cases y with
    | nil => simp [cadenaLe] at hxy
    | cons b bs =>
      simp only [cadenaLe, Bool.or_eq_true, Bool.and_eq_true, decide_eq_true_eq] at hxy hyx
      rcases hxy with h1 | ⟨h1, h2⟩ <;> rcases hyx with h3 | ⟨h3, h4⟩
      · omega
      · omega
      · omega
      · have hab : a = b := Char.ext (UInt32.ext (by simpa [Char.toNat] using h1))
        rw [hab, ih bs h2 h4]

theorem masReciente_total (a b : Reserva) : masReciente a b ∨ masReciente b a := by
  unfold masReciente
  by_cases h : b.fecha = a.fecha
  · rw [if_pos h, if_pos h.symm]
    exact (cadenaLe_total b.hora.data a.hora.data)
  · rw [if_neg h, if_neg (fun h2 => h h2.symm)]
    exact (cadenaLe_total b.fecha.data a.fecha.data)

theorem masReciente_trans (a b c : Reserva) (hab : masReciente a b) (hbc : masReciente b c) :
    masReciente a c := by
  unfold masReciente at *
  by_cases h1 : b.fecha = a.fecha <;> by_cases h2 : c.fecha = b.fecha
  · rw [if_pos h1] at hab
    rw [if_pos h2] at hbc
    rw [if_pos (h2.trans h1)]
    exact cadenaLe_trans _ _ _ hbc hab
  · rw [if_pos h1] at hab
    rw [if_neg h2] at hbc
    rw [if_neg (fun h => h2 (h.trans h1.symm)), ← h1]
    exact hbc
  · rw [if_neg h1] at hab
    rw [if_pos h2] at hbc
    rw [if_neg (fun h => h1 (h2.symm.trans h)), h2]
    exact hab
  · rw [if_neg h1] at hab
    rw [if_neg h2] at hbc
    have hca := cadenaLe_trans _ _ _ hbc hab
    by_cases h3 : c.fecha = a.fecha
    · exfalso
      have hac : cadenaLe a.fecha.data b.fecha.data = true := by
        rw [← h3]; exact hbc
      have := cadenaLe_antisymm _ _ hab hac
      exact h1 (String.ext this)
    · rw [if_neg h3]; exact hca

theorem marcarVencidas_idem (instante : String → String → Nat) (ahora usuarioId : Nat)
    (db : DB) :
    marcarVencidas instante ahora usuarioId (marcarVencidas instante ahora usuarioId db)
      = marcarVencidas instante ahora usuarioId db := by
  simp only [marcarVencidas, List.map_map]
  congr 1
  apply List.map_congr_left
  intro r _
  simp only [Function.comp]
  by_cases h : debeVencer instante ahora usuarioId r = true
  · have h2 : debeVencer instante ahora usuarioId { r with estado := "vencida" } = false := by
      simp [debeVencer]
    simp [h, h2]
  · simp [h]

/-- C13: `getReservasPorUsuario` for user `u` at time `ahora` first rewrites the
reservations row by row: a reservation of `u` in state `pendiente` or `confirmada` whose
`fecha + hora + 1 hour` is strictly before `ahora` becomes the same row with state
`vencida`, every other reservation stays as it is, and no other table changes. The rows
it returns are, up to their order, the reservations of `u` (with an existing business,
and with the requested state when a filter is given) as they stand after that update,
most recent first. Doing it twice at the same time gives the same stored state as doing
it once. -/
theorem getReservasPorUsuario_barrido (user : Principal) (instante : String → String → Nat)
    (ahora u : Nat) (estado : Option String) (db : DB) :
    List.Forall₂ (fun (antes despues : Reserva) =>
        ((antes.usuario_id = u ∧ (antes.estado = "pendiente" ∨ antes.estado = "confirmada") ∧
            instante antes.fecha antes.hora + unaHora < ahora) →
          despues = { antes with estado := "vencida" }) ∧
        (¬ (antes.usuario_id = u ∧ (antes.estado = "pendiente" ∨ antes.estado = "confirmada") ∧
            instante antes.fecha antes.hora + unaHora < ahora) →
          despues = antes))
      db.reservas (getReservasPorUsuario user instante ahora u estado db).2.reservas ∧
    (getReservasPorUsuario user instante ahora u estado db).2 =
      { db with reservas := (getReservasPorUsuario user instante ahora u estado db).2.reservas } ∧
    (getReservasPorUsuario user instante ahora u estado db).1.respuesta.success = true ∧
    List.Perm (getReservasPorUsuario user instante ahora u estado db).1.reservas
      ((getReservasPorUsuario user instante ahora u estado db).2.reservas.filter fun r =>
        r.usuario_id = u ∧ (db.empresas.any fun e => r.empresa_id = e.id_empresa) ∧
          (estado = none ∨ estado = some "" ∨ estado = some r.estado)) ∧
    List.Sorted masReciente (getReservasPorUsuario user instante ahora u estado db).1.reservas ∧
    (getReservasPorUsuario user instante ahora u estado
        (getReservasPorUsuario user instante ahora u estado db).2).2 =
      (getReservasPorUsuario user instante ahora u estado db).2 := by
  refine ⟨?_, rfl, rfl, ?_, ?_, ?_⟩
  · show List.Forall₂ _ db.reservas (marcarVencidas instante ahora u db).reservas
    simp only [marcarVencidas]
    rw [List.forall₂_map_right_iff, List.forall₂_same]
    intro r _
    by_cases h : debeVencer instante ahora u r = true
    · have h2 := h
      simp only [debeVencer, decide_eq_true_eq] at h2
      simp [h, h2]
    · have h2 := h
      simp only [debeVencer, decide_eq_true_eq] at h2
      simp [h, h2]
  · show List.Perm (listarReservas (marcarVencidas instante ahora u db) u estado) _
    unfold listarReservas
    refine (List.perm_insertionSort masReciente _).trans ?_
    have hfilt : ∀ r : Reserva,
        decide (r.usuario_id = u ∧
          ((marcarVencidas instante ahora u db).empresas.any fun e =>
            decide (r.empresa_id = e.id_empresa)) = true ∧
          (if truthyStr estado = true then some r.estado = estado else True)) =
        decide (r.usuario_id = u ∧
          (db.empresas.any fun e => decide (r.empresa_id = e.id_empresa)) = true ∧
          (estado = none ∨ estado = some "" ∨ estado = some r.estado)) := by
      intro r
      congr 1
      have hemp : (marcarVencidas instante ahora u db).empresas = db.empresas := rfl
      rw [hemp]
      cases estado with
      | none => simp [truthyStr]
      | some e =>
        by_cases he : e = ""
        · simp [truthyStr, he]
        · have hiff : (some r.estado = some e) ↔ (e = r.estado) :=
            ⟨fun h => (Option.some.inj h).symm, fun h => by rw [h]⟩
          simp [truthyStr, he, hiff]
    rw [List.filter_congr (fun r _ => hfilt r)]
    exact List.Perm.refl _
  · show List.Sorted masReciente (listarReservas (marcarVencidas instante ahora u db) u estado)
    unfold listarReservas
    haveI : IsTotal Reserva masReciente := ⟨masReciente_total⟩
    haveI : IsTrans Reserva masReciente := ⟨masReciente_trans⟩
    exact List.sorted_insertionSort masReciente _
  · show marcarVencidas instante ahora u (marcarVencidas instante ahora u db)
      = marcarVencidas instante ahora u db
    exact marcarVencidas_idem instante ahora u db

/-- At noon of `2025-03-10` the reservation of user 1 at `10:00` is swept to `vencida`
and the one at `11:00` is not (its hour plus one is not strictly past); the cancelled
reservation of user 2 is untouched, and the listing returns the later reservation
first. -/
theorem getReservasPorUsuario_ejemplo :
    ((getReservasPorUsuario ⟨1, "cliente"⟩ instanteEjemplo (20157 * 86400000 + 12 * unaHora) 1
        none dbDos).2.reservas.map fun r => (r.id_reserva, r.estado))
      = [(1, "vencida"), (2, "pendiente"), (3, "cancelada")] ∧
    ((getReservasPorUsuario ⟨1, "cliente"⟩ instanteEjemplo (20157 * 86400000 + 12 * unaHora) 1
        none dbDos).1.reservas.map fun r => (r.id_reserva, r.estado))
      = [(2, "pendiente"), (1, "vencida")] := by
  decide

/-! ## Completion by code -/

theorem mensaje_estado_ne_fecha (estado : String) :
    "Esta reserva ya está " ++ estado ++ ". No se puede completar." ≠
      "Solo puedes completar reservas del día de hoy." := by
  intro h
  have hd := congrArg String.data h
  simp only [String.data_append] at hd
  have h0 := congrArg List.head? hd
  simp at h0

/-- C14: `verificarYCompletarReservaQR` completes a reservation exactly when a code or id
is submitted, the lookup finds a reservation, that reservation belongs to the
authenticated caller, is `pendiente` and is dated today: then it answers 200 and sets the
state of that reservation to `completado`, nothing else. In every other case the stored
state is unchanged. A reservation of another user is answered 403, a reservation of the
caller in another state is answered 400 with the message naming the state, and a pending
reservation of the caller dated another day is answered 400 with the message about the
date; the three answers are pairwise different. -/
theorem verificarYCompletarReservaQR_efecto (user : Principal) (hoy : String) (body : QRBody)
    (db : DB) :
    (∀ r, (truthyStr body.numero_reserva = true ∨ truthyNat body.id_reserva = true) →
      buscarReservaQR db body = some r →
      r.usuario_id = user.id → r.estado = "pendiente" → r.fecha = hoy →
      verificarYCompletarReservaQR user hoy body db =
        (⟨200, true, "¡Reserva completada exitosamente!"⟩,
          { db with reservas := db.reservas.map fun x =>
              if x.id_reserva = r.id_reserva then { x with estado := "completado" } else x })) ∧
    ((verificarYCompletarReservaQR user hoy body db).2 ≠ db →
      ∃ r, (truthyStr body.numero_reserva = true ∨ truthyNat body.id_reserva = true) ∧
        buscarReservaQR db body = some r ∧
        r.usuario_id = user.id ∧ r.estado = "pendiente" ∧ r.fecha = hoy) ∧
    (∀ r, (truthyStr body.numero_reserva = true ∨ truthyNat body.id_reserva = true) →
      buscarReservaQR db body = some r →
      (r.usuario_id ≠ user.id →
        (verificarYCompletarReservaQR user hoy body db).1 = ⟨403, false,
          "Esta reserva no te pertenece. Solo puedes completar tus propias reservas."⟩) ∧
      (r.usuario_id = user.id → r.estado ≠ "pendiente" →
        (verificarYCompletarReservaQR user hoy body db).1 = ⟨400, false,
          "Esta reserva ya está " ++ r.estado ++ ". No se puede completar."⟩) ∧
      (r.usuario_id = user.id → r.estado = "pendiente" → r.fecha ≠ hoy →
        (verificarYCompletarReservaQR user hoy body db).1 = ⟨400, false,
          "Solo puedes completar reservas del día de hoy."⟩)) ∧
    (∀ estado : String,
      (⟨403, false,
          "Esta reserva no te pertenece. Solo puedes completar tus propias reservas."⟩ :
          Respuesta) ≠
        ⟨400, false, "Esta reserva ya está " ++ estado ++ ". No se puede completar."⟩ ∧
      (⟨403, false,
          "Esta reserva no te pertenece. Solo puedes completar tus propias reservas."⟩ :
          Respuesta) ≠ ⟨400, false, "Solo puedes completar reservas del día de hoy."⟩ ∧
      (⟨400, false, "Esta reserva ya está " ++ estado ++ ". No se puede completar."⟩ :
          Respuesta) ≠ ⟨400, false, "Solo puedes completar reservas del día de hoy."⟩) := by
  have hval : ∀ (h : truthyStr body.numero_reserva = true ∨ truthyNat body.id_reserva = true),
      (!truthyStr body.numero_reserva && !truthyNat body.id_reserva) = false := by
    intro h
    rcases h with h | h <;> simp [h]
  refine ⟨fun r hv hb ho hp hf => ?_, fun hne => ?_, fun r hv hb => ⟨fun ho => ?_,
    fun ho hp => ?_, fun ho hp hf => ?_⟩, fun estado => ⟨?_, ?_, ?_⟩⟩
  · simp [verificarYCompletarReservaQR, hval hv, hb, ho, hp, hf, actualizarReserva]
  · unfold verificarYCompletarReservaQR at hne
    by_cases hv : (!truthyStr body.numero_reserva && !truthyNat body.id_reserva) = true
    · simp [hv] at hne
    · have hv2 : truthyStr body.numero_reserva = true ∨ truthyNat body.id_reserva = true := by
        simp only [Bool.and_eq_true, Bool.not_eq_true', not_and, Bool.not_eq_false] at hv
        by_cases h1 : truthyStr body.numero_reserva = true
        · exact Or.inl h1
        · exact Or.inr (hv (by simpa using h1))
      simp only [hval hv2, Bool.false_eq_true, if_false] at hne
      cases hb : buscarReservaQR db body with
      | none => simp [hb] at hne
      | some r =>
        simp only [hb] at hne
        by_cases ho : r.usuario_id = user.id
        · by_cases hp : r.estado = "pendiente"
          · by_cases hf : r.fecha = hoy
            · exact ⟨r, hv2, rfl, ho, hp, hf⟩
            · simp [ho, hp, hf] at hne
          · simp [ho, hp] at hne
        · simp [ho] at hne
  · simp [verificarYCompletarReservaQR, hval hv, hb, ho]
  · simp [verificarYCompletarReservaQR, hval hv, hb, ho, hp]
  · simp [verificarYCompletarReservaQR, hval hv, hb, ho, hp, hf]
  · intro h; exact absurd (congrArg Respuesta.status h) (by simp)
  · intro h; exact absurd (congrArg Respuesta.status h) (by simp)
  · intro h; exact mensaje_estado_ne_fecha estado (congrArg Respuesta.message h)

/-! ## Recovery of an expired reservation -/

/-- C15: `recuperarReservaVencida` writes only when `pago_confirmado` is true, the
reservation exists and is `vencida`, and every other reservation of the same business at
the new date and time is `cancelada` or `vencida`; a request with `pago_confirmado`
false is rejected and leaves the stored state unchanged. -/
theorem recuperarReservaVencida_sin_escritura (user : Principal) (reservaId : Nat)
    (body : RecuperarBody) (db : DB) :
    ((recuperarReservaVencida user reservaId body db).2 ≠ db →
      body.pago_confirmado = true ∧
      ∃ R nf nh, body.nueva_fecha = some nf ∧ body.nueva_hora = some nh ∧
        buscarReserva db reservaId = some R ∧ R.estado = "vencida" ∧
        ∀ r ∈ db.reservas, r.id_reserva ≠ reservaId → r.empresa_id = R.empresa_id →
          r.fecha = nf → r.hora = nh → (r.estado = "cancelada" ∨ r.estado = "vencida")) ∧
    (body.pago_confirmado = false →
      (recuperarReservaVencida user reservaId body db).1 =
        ⟨400, false, "Debe confirmar el pago del recargo para recuperar la reserva"⟩ ∨
      (recuperarReservaVencida user reservaId body db).1 =
        ⟨400, false, "Se requiere nueva_fecha y nueva_hora"⟩) ∧
    (body.pago_confirmado = false → (recuperarReservaVencida user reservaId body db).2 = db) := by
  refine ⟨fun hne => ?_, fun hp => ?_, fun hp => ?_⟩
  · unfold recuperarReservaVencida at hne
    by_cases hv : (!truthyStr body.nueva_fecha || !truthyStr body.nueva_hora) = true
    · simp [hv] at hne
    · simp only [hv, Bool.false_eq_true, if_false] at hne
      by_cases hp : body.pago_confirmado = true
      · simp only [hp, Bool.not_true, Bool.false_eq_true, if_false] at hne
        cases hb : buscarReserva db reservaId with
        | none => simp [hb] at hne
        | some R =>
          simp only [hb] at hne
          by_cases ho : some (R.usuario_id : Int) = body.usuario_id
          · by_cases he : R.estado = "vencida"
            · by_cases hoc : (horarioOcupadoRecuperar db R.empresa_id
                  (body.nueva_fecha.getD "") (body.nueva_hora.getD "") reservaId).length > 0
              · simp [ho, he, hoc] at hne
              · cases hnf : body.nueva_fecha with
                | none => simp [hnf, truthyStr] at hv
                | some nf =>
                  cases hnh : body.nueva_hora with
                  | none => simp [hnh, truthyStr] at hv
                  | some nh =>
                    refine ⟨hp, R, nf, nh, rfl, rfl, rfl, he, ?_⟩
                    intro r hr hid hemp hf hh
                    by_contra hst
                    apply hoc
                    have : r ∈ horarioOcupadoRecuperar db R.empresa_id
                        (body.nueva_fecha.getD "") (body.nueva_hora.getD "") reservaId := by
                      simp only [horarioOcupadoRecuperar, List.mem_filter, decide_eq_true_eq]
                      simp only [not_or] at hst
                      exact ⟨hr, hemp, by simp [hnf, hf], by simp [hnh, hh], hst, hid⟩
                    exact List.length_pos_of_mem this
            · simp [ho, he] at hne
          · simp [ho] at hne
      · simp [hp] at hne
  · unfold recuperarReservaVencida
    by_cases hv : (!truthyStr body.nueva_fecha || !truthyStr body.nueva_hora) = true
    · right; simp [hv]
    · left; simp [hv, hp]
  · unfold recuperarReservaVencida
    by_cases hv : (!truthyStr body.nueva_fecha || !truthyStr body.nueva_hora) = true
    · simp [hv]
    · simp [hv, hp]

theorem head_filter_and {α : Type} (p q : α → Bool) (x : α) :
    ∀ l : List α, (l.filter p).head? = some x → q x = true →
      (l.filter fun y => p y && q y).head? = some x := by
  intro l
  induction l with
  | nil => intro h; simp at h
  | cons y ys ih =>
    intro h hq
    by_cases hp : p y = true
    · simp only [List.filter_cons, hp, if_true, List.head?_cons, Option.some.injEq] at h
      subst h
      simp [List.filter_cons, hp, hq]
    · have hp2 : p y = false := by simpa using hp
      simp only [List.filter_cons, hp2, Bool.false_eq_true, if_false] at h
      simp [List.filter_cons, hp2, ih h hq]

/-- The quote of `calcularRecargoRecuperacion`, when it gives one, is a quarter of the
sum of the applied prices of the line items of the reservation. -/
theorem calcularRecargoRecuperacion_recargo (user : Principal) (reservaId : Nat)
    (usuario_id : Option Int) (db : DB) (q : ℚ)
    (h : (calcularRecargoRecuperacion user reservaId usuario_id db).recargo = some q) :
    q = 0.25 * ((db.reservaServicios.filter fun l => l.reserva_id = reservaId).map
      fun l => l.precio_aplicado).sum := by
  unfold calcularRecargoRecuperacion at h
  cases hb : buscarReservaConEmpresa db reservaId with
  | none => simp [hb] at h
  | some r =>
    simp only [hb] at h
    by_cases ho : some (r.usuario_id : Int) = usuario_id
    · by_cases he : r.estado = "vencida"
      · simp only [ho, he, ne_eq, not_true_eq_false, if_false, Option.some.injEq] at h
        rw [← h, totalOriginal, mul_comm]
      · simp [ho, he] at h
    · simp [ho] at h

/-- C16: when `recuperarReservaVencida` answers 200, the reservation was `vencida`, and
afterwards it carries the requested new date and time, state `pendiente`,
`fue_recuperada` true and `recargo_recuperacion` equal to 0.25 times the sum of
`precio_aplicado` over its line items, its other fields and every other reservation
being as before; the line items are unchanged; and any quote that
`calcularRecargoRecuperacion` gives for that reservation on the stored state before the
recovery is the same amount, which it does give to the same caller when the business of
the reservation exists. -/
theorem recuperarReservaVencida_resultado (user : Principal) (reservaId : Nat)
    (body : RecuperarBody) (db : DB)
    (h : (recuperarReservaVencida user reservaId body db).1.status = 200) :
    ∃ R nf nh, body.nueva_fecha = some nf ∧ body.nueva_hora = some nh ∧
      buscarReserva db reservaId = some R ∧ R.estado = "vencida" ∧
      (recuperarReservaVencida user reservaId body db).2 =
        { db with reservas := db.reservas.map fun r =>
            if r.id_reserva = reservaId then
              { r with
                fecha := nf, hora := nh, estado := "pendiente", fue_recuperada := true,
                recargo_recuperacion :=
                  0.25 * ((db.reservaServicios.filter fun l => l.reserva_id = reservaId).map
                    fun l => l.precio_aplicado).sum }
            else r } ∧
      (recuperarReservaVencida user reservaId body db).2.reservaServicios
        = db.reservaServicios ∧
      (∀ (p : Principal) (u : Option Int) (q : ℚ),
        (calcularRecargoRecuperacion p reservaId u db).recargo = some q →
        q = 0.25 * ((db.reservaServicios.filter fun l => l.reserva_id = reservaId).map
          fun l => l.precio_aplicado).sum) ∧
      ((db.empresas.any fun e => R.empresa_id = e.id_empresa) = true →
        (calcularRecargoRecuperacion user reservaId body.usuario_id db).recargo =
          some (0.25 * ((db.reservaServicios.filter fun l => l.reserva_id = reservaId).map
            fun l => l.precio_aplicado).sum)) := by
  unfold recuperarReservaVencida at h
  by_cases hv : (!truthyStr body.nueva_fecha || !truthyStr body.nueva_hora) = true
  · simp [hv] at h
  · by_cases hp : body.pago_confirmado = true
    · cases hb : buscarReserva db reservaId with
      | none => simp [hv, hp, hb] at h
      | some R =>
        by_cases ho : some (R.usuario_id : Int) = body.usuario_id
        · by_cases he : R.estado = "vencida"
          · by_cases hoc : (horarioOcupadoRecuperar db R.empresa_id
                (body.nueva_fecha.getD "") (body.nueva_hora.getD "") reservaId).length > 0
            · simp [hv, hp, hb, ho, he, hoc] at h
            · cases hnf : body.nueva_fecha with
              | none => simp [hnf, truthyStr] at hv
              | some nf =>
                cases hnh : body.nueva_hora with
                | none => simp [hnh, truthyStr] at hv
                | some nh =>
                  have hoc2 : horarioOcupadoRecuperar db R.empresa_id nf nh reservaId = [] := by
                    have : (horarioOcupadoRecuperar db R.empresa_id nf nh reservaId).length = 0 := by
                      simpa [hnf, hnh] using hoc
                    exact List.length_eq_zero.mp this
                  have hv2 : truthyStr (some nf) = true ∧ truthyStr (some nh) = true := by
                    simpa [hnf, hnh] using hv
                  refine ⟨R, nf, nh, rfl, rfl, rfl, he, ?_, ?_,
                    fun p u q hq => calcularRecargoRecuperacion_recargo p reservaId u db q hq,
                    fun hemp => ?_⟩
                  · simp [recuperarReservaVencida, hnf, hnh, hv2.1, hv2.2, hp, hb, ho, he,
                      hoc2, actualizarReserva, totalOriginal, mul_comm]
                  · simp [recuperarReservaVencida, hnf, hnh, hv2.1, hv2.2, hp, hb, ho, he,
                      hoc2, actualizarReserva]
                  · have hbe : buscarReservaConEmpresa db reservaId = some R := by
                      unfold buscarReservaConEmpresa
                      have := head_filter_and (fun r : Reserva => decide (r.id_reserva = reservaId))
                        (fun r => db.empresas.any fun e => decide (r.empresa_id = e.id_empresa))
                        R db.reservas hb hemp
                      rw [← this]
                      congr 1
                      apply List.filter_congr
                      intro x _
                      simp only [Bool.decide_and, Bool.decide_eq_true]
                    simp [calcularRecargoRecuperacion, hbe, ho, he, totalOriginal, mul_comm]
          · simp [hv, hp, hb, ho, he] at h
        · simp [hv, hp, hb, ho] at h
    · simp [hv, hp] at h

theorem recuperarReservaVencida_resultado_witness :
    (recuperarReservaVencida ⟨1, "cliente"⟩ 1 ⟨some "2025-04-01", some "15:00", some 1, true⟩
        (dbEjemplo "vencida")).1.status = 200 ∧
    (calcularRecargoRecuperacion ⟨1, "cliente"⟩ 1 (some 1) (dbEjemplo "vencida")).recargo
      = some 25 ∧
    ∃ R nf nh,
      (⟨some "2025-04-01", some "15:00", some 1, true⟩ : RecuperarBody).nueva_fecha = some nf ∧
      (⟨some "2025-04-01", some "15:00", some 1, true⟩ : RecuperarBody).nueva_hora = some nh ∧
      buscarReserva (dbEjemplo "vencida") 1 = some R ∧ R.estado = "vencida" :=
  have h200 : (recuperarReservaVencida ⟨1, "cliente"⟩ 1
      ⟨some "2025-04-01", some "15:00", some 1, true⟩ (dbEjemplo "vencida")).1.status = 200 := by
    decide
  have h := recuperarReservaVencida_resultado ⟨1, "cliente"⟩ 1
    ⟨some "2025-04-01", some "15:00", some 1, true⟩ (dbEjemplo "vencida") h200
  have hq : (calcularRecargoRecuperacion ⟨1, "cliente"⟩ 1 (some 1)
      (dbEjemplo "vencida")).recargo = some 25 := by
    obtain ⟨R, nf, nh, _, _, hR, _, _, _, _, hcalc⟩ := h
    have hR2 : R = reservaEjemplo 1 "ANW-B0000000" "vencida" := by
      have : buscarReserva (dbEjemplo "vencida") 1
          = some (reservaEjemplo 1 "ANW-B0000000" "vencida") := by decide
      rw [this] at hR
      exact (Option.some.inj hR).symm
    have := hcalc (by rw [hR2]; decide)
    rw [this]
    norm_num [dbEjemplo]
  have hex := h
  ⟨h200, hq, by
    obtain ⟨R, nf, nh, h1, h2, h3, h4, _⟩ := hex
    exact ⟨R, nf, nh, h1, h2, h3, h4⟩⟩

/-! ## Invariant of the surcharge -/

/-- Rewriting rows by a function that keeps the surcharge invariant on each row keeps it
on the table. -/
theorem recargo_map (db : DB) (g : Reserva → Reserva)
    (hg : ∀ r, (r.recargo_recuperacion ≠ 0 → r.fue_recuperada = true) →
      ((g r).recargo_recuperacion ≠ 0 → (g r).fue_recuperada = true))
    (hinv : recargoSoloSiRecuperada db) :
    recargoSoloSiRecuperada { db with reservas := db.reservas.map g } := by
  intro r hr
  obtain ⟨r0, hr0, rfl⟩ := List.mem_map.mp hr
  exact hg r0 (hinv r0 hr0)

theorem recargo_actualizar (db : DB) (reservaId : Nat) (f : Reserva → Reserva)
    (hf : ∀ r, (r.recargo_recuperacion ≠ 0 → r.fue_recuperada = true) →
      ((f r).recargo_recuperacion ≠ 0 → (f r).fue_recuperada = true))
    (hinv : recargoSoloSiRecuperada db) :
    recargoSoloSiRecuperada (actualizarReserva db reservaId f) := by
  apply recargo_map db (fun r => if r.id_reserva = reservaId then f r else r) _ hinv
  intro r hr
  by_cases h : r.id_reserva = reservaId
  · simp only [h, if_true]; exact hf r hr
  · simp only [h, if_false]; exact hr

/-- C17: the reservation row that `crearReserva` commits has surcharge 0 and
`fue_recuperada` false, and from a state in which every reservation with a non-zero
surcharge has `fue_recuperada` true, the state after `crearReserva`, `cancelarReserva`,
`reagendarReserva`, `getReservasPorUsuario` (its expiry sweep),
`verificarYCompletarReservaQR`, `recuperarReservaVencida` and
`actualizarEstadoReserva` has the same property, whatever the request. -/
theorem recargo_invariante (db : DB) (hinv : recargoSoloSiRecuperada db) :
    (∀ env user b,
      (∃ nuevas, (crearReserva env user b db).2.reservas = db.reservas ++ nuevas ∧
        ∀ r ∈ nuevas, r.recargo_recuperacion = 0 ∧ r.fue_recuperada = false) ∧
      recargoSoloSiRecuperada (crearReserva env user b db).2) ∧
    (∀ user reservaId body,
      recargoSoloSiRecuperada (cancelarReserva user reservaId body db).2) ∧
    (∀ user reservaId body,
      recargoSoloSiRecuperada (reagendarReserva user reservaId body db).2) ∧
    (∀ user instante ahora u estado,
      recargoSoloSiRecuperada (getReservasPorUsuario user instante ahora u estado db).2) ∧
    (∀ user hoy body,
      recargoSoloSiRecuperada (verificarYCompletarReservaQR user hoy body db).2) ∧
    (∀ user reservaId body,
      recargoSoloSiRecuperada (recuperarReservaVencida user reservaId body db).2) ∧
    (∀ user reservaId body,
      recargoSoloSiRecuperada (actualizarEstadoReserva user reservaId body db).2) := by
  refine ⟨fun env user b => ?_, fun user reservaId body => ?_, fun user reservaId body => ?_,
    fun user instante ahora u estado => ?_, fun user hoy body => ?_,
    fun user reservaId body => ?_, fun user reservaId body => ?_⟩
  · rcases crearReserva_curso env user b db with ⟨h1, _⟩ | ⟨_, _, g, _, hval⟩
    · rw [h1]
      exact ⟨⟨[], by simp, fun r hr => absurd hr (List.not_mem_nil r)⟩, hinv⟩
    · rw [hval]
      have hres := tablasConfirmadas_reservas env user.id b db g.numero
      refine ⟨⟨_, hres, fun r hr => ?_⟩, fun r hr => ?_⟩
      · rw [List.mem_singleton] at hr
        rw [hr]; exact ⟨rfl, rfl⟩
      · have hr2 : r ∈ (tablasConfirmadas env user.id b db g.numero).reservas := hr
        rw [hres, List.mem_append, List.mem_singleton] at hr2
        rcases hr2 with hr2 | hr2
        · exact hinv r hr2
        · intro hne
          rw [hr2] at hne
          exact absurd rfl hne
  · unfold cancelarReserva
    split
    · exact hinv
    · split
      · exact hinv
      · split
        · exact hinv
        · exact recargo_actualizar db reservaId _ (fun r hr => hr) hinv
  · unfold reagendarReserva
    split
    · exact hinv
    · split
      · exact hinv
      · split
        · exact hinv
        · split
          · exact hinv
          · split
            · exact hinv
            · exact recargo_actualizar db reservaId _ (fun r hr => hr) hinv
  · show recargoSoloSiRecuperada (marcarVencidas instante ahora u db)
    unfold marcarVencidas
    apply recargo_map db _ _ hinv
    intro r hr
    split
    · exact hr
    · exact hr
  · unfold verificarYCompletarReservaQR
    split
    · exact hinv
    · split
      · exact hinv
      · split
        · exact hinv
        · split
          · exact hinv
          · split
            · exact hinv
            · exact recargo_actualizar db _ _ (fun r hr => hr) hinv
  · unfold recuperarReservaVencida
    split
    · exact hinv
    · split
      · exact hinv
      · split
        · exact hinv
        · split
          · exact hinv
          · split
            · exact hinv
            · split
              · exact hinv
              · exact recargo_actualizar db reservaId _ (fun r _ _ => rfl) hinv
  · unfold actualizarEstadoReserva
    split
    · exact hinv
    · split
      · exact hinv
      · split
        · exact hinv
        · exact recargo_actualizar db reservaId _ (fun r hr => hr) hinv

theorem recargo_invariante_witness :
    recargoSoloSiRecuperada (dbEjemplo "vencida") ∧
    recargoSoloSiRecuperada (recuperarReservaVencida ⟨1, "cliente"⟩ 1
      ⟨some "2025-04-01", some "15:00", some 1, true⟩ (dbEjemplo "vencida")).2 :=
  have h0 : recargoSoloSiRecuperada (dbEjemplo "vencida") := by
    intro r hr hne
    simp only [dbEjemplo, List.mem_singleton] at hr
    rw [hr] at hne
    exact absurd rfl hne
  ⟨h0, (recargo_invariante (dbEjemplo "vencida") h0).2.2.2.2.2.1 ⟨1, "cliente"⟩ 1
    ⟨some "2025-04-01", some "15:00", some 1, true⟩⟩

/-! ## Rescheduling -/

/-- C18: when another reservation of the business of `R`, in a state other than
`cancelada`, is at the destination date and time, `reagendarReserva` fails and leaves
the stored state (`R` and every other row) unchanged; when the request passes the earlier
checks the answer is the 400 of the occupied slot. -/
theorem reagendarReserva_ocupado (user : Principal) (reservaId : Nat) (body : ReagendarBody)
    (db : DB) (R : Reserva) (nf nh : String)
    (hR : buscarReserva db reservaId = some R)
    (hnf : body.nueva_fecha = some nf) (hnh : body.nueva_hora = some nh)
    (hocc : ∃ r ∈ db.reservas, r.id_reserva ≠ reservaId ∧ r.empresa_id = R.empresa_id ∧
      r.fecha = nf ∧ r.hora = nh ∧ r.estado ≠ "cancelada") :
    (reagendarReserva user reservaId body db).1.success = false ∧
    (reagendarReserva user reservaId body db).2 = db ∧
    (nf ≠ "" → nh ≠ "" → body.usuario_id = some (R.usuario_id : Int) →
      R.estado ≠ "cancelada" → R.estado ≠ "completado" →
      (reagendarReserva user reservaId body db).1 =
        ⟨400, false, "El horario seleccionado ya no está disponible"⟩) := by
  obtain ⟨r, hr, hid, hemp, hf, hh, hst⟩ := hocc
  have hmem : r ∈ horarioOcupado db R.empresa_id nf nh reservaId := by
    simp only [horarioOcupado, List.mem_filter, decide_eq_true_eq]
    exact ⟨hr, hemp, hf, hh, hst, hid⟩
  have hlen : (horarioOcupado db R.empresa_id nf nh reservaId).length > 0 :=
    List.length_pos_of_mem hmem
  have hne : horarioOcupado db R.empresa_id nf nh reservaId ≠ [] :=
    List.ne_nil_of_mem hmem
  unfold reagendarReserva
  by_cases hv : (!truthyStr body.nueva_fecha || !truthyStr body.nueva_hora) = true
  · refine ⟨by simp [hv], by simp [hv], fun h1 h2 => ?_⟩
    simp [hnf, hnh, truthyStr, h1, h2] at hv
  · by_cases ho : some (R.usuario_id : Int) = body.usuario_id
    · by_cases ht : R.estado = "cancelada" ∨ R.estado = "completado"
      · refine ⟨by simp [hv, hR, ← ho, ht], by simp [hv, hR, ← ho, ht], fun _ _ _ h1 h2 => ?_⟩
        rcases ht with ht | ht
        · exact absurd ht h1
        · exact absurd ht h2
      · have hv2 : truthyStr (some nf) = true ∧ truthyStr (some nh) = true := by
          simpa [hnf, hnh] using hv
        simp [hR, ← ho, ht, hnf, hnh, hv2.1, hv2.2, hlen]
    · have ho2 : ¬ body.usuario_id = some (R.usuario_id : Int) := fun h => ho h.symm
      simp [hv, hR, ho, ho2]

theorem reagendarReserva_ocupado_witness :
    buscarReserva dbDos 1 = some (reservaEjemplo 1 "ANW-B0000000" "pendiente") ∧
    (∃ r ∈ dbDos.reservas, r.id_reserva ≠ 1 ∧
      r.empresa_id = (reservaEjemplo 1 "ANW-B0000000" "pendiente").empresa_id ∧
      r.fecha = "2025-03-10" ∧ r.hora = "11:00" ∧ r.estado ≠ "cancelada") ∧
    (reagendarReserva ⟨1, "cliente"⟩ 1 ⟨some "2025-03-10", some "11:00", some 1⟩ dbDos).1 =
      ⟨400, false, "El horario seleccionado ya no está disponible"⟩ ∧
    (reagendarReserva ⟨1, "cliente"⟩ 1 ⟨some "2025-03-10", some "11:00", some 1⟩ dbDos).2
      = dbDos :=
  have hR : buscarReserva dbDos 1 = some (reservaEjemplo 1 "ANW-B0000000" "pendiente") := by
    decide
  have hocc : ∃ r ∈ dbDos.reservas, r.id_reserva ≠ 1 ∧
      r.empresa_id = (reservaEjemplo 1 "ANW-B0000000" "pendiente").empresa_id ∧
      r.fecha = "2025-03-10" ∧ r.hora = "11:00" ∧ r.estado ≠ "cancelada" :=
    ⟨{ reservaEjemplo 2 "ANW-B0000002" "pendiente" with hora := "11:00" }, by decide, by decide,
      rfl, rfl, rfl, by decide⟩
  have h := reagendarReserva_ocupado ⟨1, "cliente"⟩ 1
    ⟨some "2025-03-10", some "11:00", some 1⟩ dbDos
    (reservaEjemplo 1 "ANW-B0000000" "pendiente") "2025-03-10" "11:00" hR rfl rfl hocc
  ⟨hR, hocc, h.2.2 (by decide) (by decide) rfl (by decide) (by decide), h.2.1⟩

/-- C19 at the owner of a pending reservation and a free destination: user 1 owns
reservation 1 of `dbDos`, no stored reservation is at `15:00` on `2025-03-10`, and the
request of user 1 carries no `usuario_id` in its body. `reagendarReserva` compares the
owner with the body and never with the caller: it answers 403 and moves nothing. The same
move asked by principal 2, who does not own the reservation, with `usuario_id: 1` in the
body, is answered 200. -/
theorem reagendarReserva_propietario_rechazado :
    buscarReserva dbDos 1 = some (reservaEjemplo 1 "ANW-B0000000" "pendiente") ∧
    (reservaEjemplo 1 "ANW-B0000000" "pendiente").usuario_id = (⟨1, "cliente"⟩ : Principal).id ∧
    (∀ r ∈ dbDos.reservas, ¬(r.fecha = "2025-03-10" ∧ r.hora = "15:00")) ∧
    reagendarReserva ⟨1, "cliente"⟩ 1 ⟨some "2025-03-10", some "15:00", none⟩ dbDos =
      (⟨403, false, "No tienes permiso para modificar esta reserva"⟩, dbDos) ∧
    (reagendarReserva ⟨2, "cliente"⟩ 1 ⟨some "2025-03-10", some "15:00", some 1⟩ dbDos).1 =
      ⟨200, true, "Reserva reagendada exitosamente"⟩ := by
  decide

/-! ## Available time slots -/

theorem horarioConEstado_hora (ocupadas : List String) (esHoy : Bool) (horaActual : Nat)
    (hora : String) : (horarioConEstado ocupadas esHoy horaActual hora).hora = hora := rfl

theorem horasOcupadas_mem (db : DB) (empresaId : Nat) (fecha h : String) :
    h ∈ horasOcupadas db empresaId fecha ↔
      ∃ r ∈ db.reservas, r.empresa_id = empresaId ∧ r.fecha = fecha ∧
        r.estado ≠ "cancelada" ∧ primerosCinco r.hora = h := by
  simp only [horasOcupadas, List.mem_map, List.mem_filter, decide_eq_true_eq]
  constructor
  · rintro ⟨r, ⟨hr, h1, h2, h3⟩, h4⟩
    exact ⟨r, hr, h1, h2, h3, h4⟩
  · rintro ⟨r, hr, h1, h2, h3, h4⟩
    exact ⟨r, ⟨hr, h1, h2, h3⟩, h4⟩

/-- C20: for a business and a date, `getHorariosDisponibles` answers with
`horariosDisponibles` made of slots of the grid `08:00`, ..., `18:00` (hours 8 to 18) in
grid order, a slot being listed exactly when no reservation of that business on that
date in a state other than `cancelada` has that `HH:MM` and, if the date is today, its
hour is strictly greater than the current hour; when the date is not today no slot is
marked past. -/
theorem getHorariosDisponibles_exacto (hoy : String) (horaActual empresaId : Nat)
    (fecha : String) (db : DB) (hf : fecha ≠ "") :
    (getHorariosDisponibles hoy horaActual (some empresaId) (some fecha) db).respuesta
      = ⟨200, true, ""⟩ ∧
    todosLosHorarios.map horaNum = [8, 9, 10, 11, 12, 13, 14, 15, 16, 17, 18] ∧
    List.Sublist
      (getHorariosDisponibles hoy horaActual (some empresaId) (some fecha) db).horariosDisponibles
      todosLosHorarios ∧
    (∀ h : String,
      h ∈ (getHorariosDisponibles hoy horaActual (some empresaId) (some fecha)
          db).horariosDisponibles ↔
        (h ∈ todosLosHorarios ∧
          ¬ (∃ r ∈ db.reservas, r.empresa_id = empresaId ∧ r.fecha = fecha ∧
              r.estado ≠ "cancelada" ∧ primerosCinco r.hora = h) ∧
          (fecha = hoy → horaActual < horaNum h))) ∧
    (fecha ≠ hoy →
      ∀ x ∈ (getHorariosDisponibles hoy horaActual (some empresaId) (some fecha)
          db).todosLosHorarios, x.pasado = false) := by
  have hdisp : (getHorariosDisponibles hoy horaActual (some empresaId) (some fecha)
      db).horariosDisponibles =
      todosLosHorarios.filter fun h =>
        (horarioConEstado (horasOcupadas db empresaId fecha) (decide (hoy = fecha)) horaActual
          h).disponible := by
    simp only [getHorariosDisponibles, hf, if_false, List.filter_map, List.map_map]
    have : (fun h : HorarioEstado => h.hora) ∘
        horarioConEstado (horasOcupadas db empresaId fecha) (decide (hoy = fecha)) horaActual
        = id := by
      funext h; rfl
    rw [this, List.map_id]
    rfl
  refine ⟨by simp [getHorariosDisponibles, hf], by decide, ?_, fun h => ?_, fun hne x hx => ?_⟩
  · rw [hdisp]; exact List.filter_sublist _
  · rw [hdisp, List.mem_filter, ← horasOcupadas_mem]
    simp only [horarioConEstado, Bool.and_eq_true, Bool.not_eq_true', Bool.and_eq_false_imp,
      decide_eq_true_eq, decide_eq_false_iff_not, List.contains, List.elem_eq_mem]
    constructor
    · rintro ⟨hg, hoc, hpas⟩
      refine ⟨hg, by simpa using hoc, fun hhoy => ?_⟩
      have := hpas hhoy.symm
      omega
    · rintro ⟨hg, hoc, hpas⟩
      refine ⟨hg, by simpa using hoc, fun hhoy => ?_⟩
      have := hpas hhoy.symm
      omega
  · simp only [getHorariosDisponibles, hf, if_false, List.mem_map] at hx
    obtain ⟨h, _, rfl⟩ := hx
    have : decide (hoy = fecha) = false := by
      simp only [decide_eq_false_iff_not]; exact fun h => hne h.symm
    simp [horarioConEstado, this]

theorem getHorariosDisponibles_exacto_witness :
    ("2025-03-10" : String) ≠ "" ∧
    (getHorariosDisponibles "2025-03-10" 9 (some 1) (some "2025-03-10") dbDos).respuesta
      = ⟨200, true, ""⟩ ∧
    (getHorariosDisponibles "2025-03-10" 9 (some 1) (some "2025-03-10") dbDos).horariosDisponibles
      = ["12:00", "13:00", "14:00", "15:00", "16:00", "17:00", "18:00"] ∧
    List.Sublist
      (getHorariosDisponibles "2025-03-10" 9 (some 1) (some "2025-03-10")
        dbDos).horariosDisponibles todosLosHorarios :=
  ⟨by decide,
    (getHorariosDisponibles_exacto "2025-03-10" 9 1 "2025-03-10" dbDos (by decide)).1,
    by decide,
    (getHorariosDisponibles_exacto "2025-03-10" 9 1 "2025-03-10" dbDos (by decide)).2.2.1⟩

/-! ## Password hashes: the written format is the one read back -/

theorem splitDolar_ne_nil : ∀ s : List Char, splitDolar s ≠ [] := by
  intro s
  cases s with
  | nil => simp [splitDolar]
  | cons c cs =>
    simp only [splitDolar]
    split
    · simp
    · split <;> simp

/-- A string without the separator is its own single piece. -/
theorem splitDolar_sin : ∀ s : List Char, '$' ∉ s → splitDolar s = [s] := by
  intro s
  induction s with
  | nil => intro _; rfl
  | cons c cs ih =>
    intro h
    have hc : c ≠ '$' := fun e => h (by simp [e])
    have hcs : '$' ∉ cs := fun e => h (by simp [e])
    simp [splitDolar, hc, ih hcs]

/-- The first piece ends at the first separator. -/
theorem splitDolar_append : ∀ (a b : List Char), '$' ∉ a →
    splitDolar (a ++ '$' :: b) = a :: splitDolar b := by
  intro a b
  induction a with
  | nil => intro _; simp [splitDolar]
  | cons c cs ih =>
    intro h
    have hc : c ≠ '$' := fun e => h (by simp [e])
    have hcs : '$' ∉ cs := fun e => h (by simp [e])
    simp [splitDolar, hc, ih hcs]

theorem car64_mem (n : Nat) : car64 n ∈ alfabeto64 := by
  have h : ∀ i : Fin 64, alfabeto64.getD i.val 'A' ∈ alfabeto64 := by decide
  exact h ⟨n % 64, Nat.mod_lt n (by decide)⟩

theorem car64_ne_dolar (n : Nat) : car64 n ≠ '$' := by
  intro h
  have hm := car64_mem n
  rw [h] at hm
  revert hm
  decide

/-- The `base64` encoding of a buffer never contains the separator of the hash format. -/
theorem base64_sin_dolar : ∀ bs : List Byte, '$' ∉ base64 bs := by
  intro bs
  induction bs using base64.induct with
  | case1 => simp [base64]
  | case2 a =>
    simp only [base64, List.mem_cons, List.mem_singleton, not_or, List.not_mem_nil,
      or_false]
    exact ⟨fun h => car64_ne_dolar _ h.symm, fun h => car64_ne_dolar _ h.symm, by decide,
      by decide⟩
  | case3 a b =>
    simp only [base64, List.mem_cons, List.mem_singleton, not_or, List.not_mem_nil,
      or_false]
    exact ⟨fun h => car64_ne_dolar _ h.symm, fun h => car64_ne_dolar _ h.symm,
      fun h => car64_ne_dolar _ h.symm, by decide⟩
  | case4 a b c resto ih =>
    simp only [base64, List.mem_cons, not_or]
    exact ⟨fun h => car64_ne_dolar _ h.symm, fun h => car64_ne_dolar _ h.symm,
      fun h => car64_ne_dolar _ h.symm, fun h => car64_ne_dolar _ h.symm, ih⟩

theorem digitoEnBase_digitChar (d : Fin 10) :
    digitoEnBase 10 (Nat.digitChar d.val) = some d.val := by
  revert d; decide

theorem digitChar_no_especial (d : Fin 10) :
    esEspacio (Nat.digitChar d.val) = false ∧ Nat.digitChar d.val ≠ '-' ∧
      Nat.digitChar d.val ≠ '+' ∧ Nat.digitChar d.val ≠ 'x' ∧ Nat.digitChar d.val ≠ 'X' ∧
      Nat.digitChar d.val ≠ '$' := by
  revert d; decide

/-- Reading a run of decimal digits gives the number they spell. -/
theorem leerDigitos_cifras : ∀ (ds : List (Fin 10)) (acc : Option Nat),
    leerDigitos 10 (ds.map fun d => Nat.digitChar d.val) acc =
      if ds = [] then acc else some (ds.foldl (fun a d => a * 10 + d.val) (acc.getD 0)) := by
  intro ds
  induction ds with
  | nil => intro acc; simp [leerDigitos]
  | cons d ds ih =>
    intro acc
    simp only [List.map_cons, leerDigitos, digitoEnBase_digitChar, ih, List.foldl_cons,
      Option.getD_some]
    by_cases h : ds = []
    · simp [h]
    · simp [h]

/-- The decimal digits `Nat.toDigitsCore` writes, given enough fuel, spell the number. -/
theorem toDigitsCore_cifras (f : Nat) : ∀ n : Nat, n < f →
    ∃ ds : List (Fin 10), ds ≠ [] ∧
      Nat.toDigitsCore 10 f n [] = ds.map (fun d => Nat.digitChar d.val) ∧
      ds.foldl (fun a d => a * 10 + d.val) 0 = n := by
  induction f with
  | zero => intro n h; omega
  | succ f ih =>
    intro n hn
    simp only [Nat.toDigitsCore]
    split
    · rename_i h0
      refine ⟨[⟨n % 10, Nat.mod_lt n (by decide)⟩], by simp, by simp, ?_⟩
      simp; omega
    · rename_i h0
      obtain ⟨ds, hne, hds, hval⟩ := ih (n / 10) (by omega)
      refine ⟨ds ++ [⟨n % 10, Nat.mod_lt n (by decide)⟩], by simp, ?_, ?_⟩
      · rw [toDigitsCore_acc, hds]; simp
      · simp [List.foldl_append, hval]; omega

theorem parseInt_cifras (ds : List (Fin 10)) (hne : ds ≠ []) :
    parseInt (ds.map fun d => Nat.digitChar d.val) =
      some ((ds.foldl (fun a d => a * 10 + d.val) 0 : Nat) : Int) := by
  cases ds with
  | nil => exact absurd rfl hne
  | cons d ds =>
    obtain ⟨h1, h2, h3, h4, h5, _⟩ := digitChar_no_especial d
    have hdrop : List.dropWhile esEspacio
        ((d :: ds).map fun d => Nat.digitChar d.val) =
        (d :: ds).map fun d => Nat.digitChar d.val := by
      simp [List.dropWhile, h1]
    have hsig : quitarSigno ((d :: ds).map fun d => Nat.digitChar d.val) =
        (false, (d :: ds).map fun d => Nat.digitChar d.val) := by
      simp [quitarSigno, h2, h3]
    have hhex : quitarPrefijoHex ((d :: ds).map fun d => Nat.digitChar d.val) =
        (10, (d :: ds).map fun d => Nat.digitChar d.val) := by
      cases ds with
      | nil => simp [quitarPrefijoHex]
      | cons e es =>
        obtain ⟨_, _, _, h4e, h5e, _⟩ := digitChar_no_especial e
        simp [quitarPrefijoHex, h4e, h5e]
    unfold parseInt
    rw [hdrop, hsig]
    simp only [hhex, leerDigitos_cifras]
    simp

/-- Reading back the decimal string of a natural number gives the number. -/
theorem parseInt_toDigits (n : Nat) : parseInt (Nat.toDigits 10 n) = some (n : Int) := by
  obtain ⟨ds, hne, hds, hval⟩ := toDigitsCore_cifras (n + 1) n (by omega)
  unfold Nat.toDigits
  rw [hds, parseInt_cifras ds hne, hval]

theorem toDigits_sin_dolar (n : Nat) : '$' ∉ Nat.toDigits 10 n := by
  obtain ⟨ds, _, hds, _⟩ := toDigitsCore_cifras (n + 1) n (by omega)
  unfold Nat.toDigits
  rw [hds]
  intro h
  obtain ⟨d, _, hd⟩ := List.mem_map.mp h
  exact (digitChar_no_especial d).2.2.2.2.2 hd

theorem saltAleatorio_sin_dolar (randomBytes : Fin 12 → Byte) :
    '$' ∉ (saltAleatorio randomBytes).data := by
  intro h
  exact base64_sin_dolar _ (List.mem_of_mem_take h)

/-- The four pieces of a hash in the written format. -/
theorem formatoDjango_split (iterations : Nat) (salt : String) (hash : List Byte)
    (hsalt : '$' ∉ salt.data) :
    splitDolar (formatoDjango iterations salt hash).data =
      [algoritmoDjango.data, (toString iterations).data, salt.data, base64 hash] := by
  have halg : '$' ∉ algoritmoDjango.data := by decide
  have e : (formatoDjango iterations salt hash).data =
      algoritmoDjango.data ++ '$' :: ((toString iterations).data ++ '$' ::
        (salt.data ++ '$' :: base64 hash)) := by
    simp [formatoDjango, String.data_append]
  rw [e, splitDolar_append _ _ halg,
    splitDolar_append _ _ (by rw [toString_nat_data]; exact toDigits_sin_dolar iterations),
    splitDolar_append _ _ hsalt, splitDolar_sin _ (base64_sin_dolar hash)]

/-- C26: for every password and iteration count and every draw of the salt, whenever the
key derivation returns, `hashDjangoPassword` returns the string
`pbkdf2_sha256$n$salt$hash`, which has exactly four pieces between the separators, is
accepted by `isDjangoHash`, is verified by `verifyDjangoPassword` for the same password,
and so passes the verification of the login path. -/
theorem hashDjangoPassword_verifica (pbkdf2Sync : Pbkdf2) (bcryptCompare : BcryptCompare)
    (randomBytes : Fin 12 → Byte) (p : String) (n : Nat) (key : List Byte)
    (hkey : pbkdf2Sync p (saltAleatorio randomBytes) (some (n : Int)) = some key) :
    ∃ h : String, hashDjangoPassword pbkdf2Sync randomBytes p n = some h ∧
      h = "pbkdf2_sha256$" ++ toString n ++ "$" ++ saltAleatorio randomBytes ++ "$" ++
        String.mk (base64 key) ∧
      splitDolar h.data = ["pbkdf2_sha256".data, (toString n).data,
        (saltAleatorio randomBytes).data, base64 key] ∧
      (splitDolar h.data).length = 4 ∧
      isDjangoHash h = true ∧
      verifyDjangoPassword pbkdf2Sync p h = true ∧
      isPasswordValid pbkdf2Sync bcryptCompare p h = true := by
  have hsplit := formatoDjango_split n (saltAleatorio randomBytes) key
    (saltAleatorio_sin_dolar randomBytes)
  have hne : formatoDjango n (saltAleatorio randomBytes) key ≠ "" := by
    intro e
    have := congrArg String.data e
    rw [formatoDjango] at this
    simp [String.data_append, algoritmoDjango] at this
  have hdj : isDjangoHash (formatoDjango n (saltAleatorio randomBytes) key) = true := by
    simp [isDjangoHash, hne, hsplit]
  have hver : verifyDjangoPassword pbkdf2Sync p
      (formatoDjango n (saltAleatorio randomBytes) key) = true := by
    simp only [verifyDjangoPassword, hsplit]
    simp [toString_nat_data, parseInt_toDigits, hkey]
  refine ⟨formatoDjango n (saltAleatorio randomBytes) key, ?_, ?_, hsplit, ?_, hdj, hver, ?_⟩
  · simp [hashDjangoPassword, hkey]
  · simp [formatoDjango, algoritmoDjango, String.append_assoc]
  · simp [hsplit]
  · simp [isPasswordValid, hdj, hver]
theorem hashDjangoPassword_verifica_witness :
    pbkdf2Ejemplo "secreto1" (saltAleatorio fun _ => 0) (some ((260000 : Nat) : Int)) =
      some (("secreto1" ++ saltAleatorio fun _ => 0).data.map fun ch =>
        (Fin.ofNat ch.toNat : Byte)) ∧
    ∃ h : String, hashDjangoPassword pbkdf2Ejemplo (fun _ => 0) "secreto1" 260000 = some h ∧
      isDjangoHash h = true ∧ verifyDjangoPassword pbkdf2Ejemplo "secreto1" h = true ∧
      isPasswordValid pbkdf2Ejemplo bcryptEjemplo "secreto1" h = true :=
  have hkey : pbkdf2Ejemplo "secreto1" (saltAleatorio fun _ => 0)
      (some ((260000 : Nat) : Int)) =
      some (("secreto1" ++ saltAleatorio fun _ => 0).data.map fun ch =>
        (Fin.ofNat ch.toNat : Byte)) := rfl
  have h := hashDjangoPassword_verifica pbkdf2Ejemplo bcryptEjemplo (fun _ => 0) "secreto1"
    260000 _ hkey
  ⟨hkey, h.choose, h.choose_spec.1, h.choose_spec.2.2.2.2.1, h.choose_spec.2.2.2.2.2.1,
    h.choose_spec.2.2.2.2.2.2⟩
/-! ## Lockout of the two logins -/

/-- Two updates of the same account are one update. -/
theorem actualizarUsuario_dos (c : Cuentas) (id : Nat) (f g : CuentaUsuario → CuentaUsuario)
    (hg : ∀ u, (g u).id_usuario = u.id_usuario) :
    actualizarUsuario (actualizarUsuario c id g) id f = actualizarUsuario c id (f ∘ g) := by
  simp only [actualizarUsuario, List.map_map]
  congr 1
  apply List.map_congr_left
  intro u _
  by_cases h : u.id_usuario = id
  · simp [h, hg]
  · simp [h]

/-- Under the primary key, an update of the account `u` rewrites `u` alone. -/
theorem actualizarUsuario_fila (c : Cuentas) (u : CuentaUsuario)
    (f : CuentaUsuario → CuentaUsuario) (hu : u ∈ c.usuarios)
    (hpk : (c.usuarios.map fun x => x.id_usuario).Nodup) :
    actualizarUsuario c u.id_usuario f = actualizarUsuario c u.id_usuario fun _ => f u := by
  simp only [actualizarUsuario]
  congr 1
  apply List.map_congr_left
  intro x hx
  by_cases h : x.id_usuario = u.id_usuario
  · have : x = u := List.inj_on_of_nodup_map hpk hx hu h
    simp [this]
  · simp [h]

theorem actualizarEmpresa_dos (c : Cuentas) (id : Nat) (f g : CuentaEmpresa → CuentaEmpresa)
    (hg : ∀ e, (g e).id_empresa = e.id_empresa) :
    actualizarEmpresa (actualizarEmpresa c id g) id f = actualizarEmpresa c id (f ∘ g) := by
  simp only [actualizarEmpresa, List.map_map]
  congr 1
  apply List.map_congr_left
  intro e _
  by_cases h : e.id_empresa = id
  · simp [h, hg]
  · simp [h]

theorem actualizarEmpresa_fila (c : Cuentas) (e : CuentaEmpresa)
    (f : CuentaEmpresa → CuentaEmpresa) (he : e ∈ c.empresas)
    (hpk : (c.empresas.map fun x => x.id_empresa).Nodup) :
    actualizarEmpresa c e.id_empresa f = actualizarEmpresa c e.id_empresa fun _ => f e := by
  simp only [actualizarEmpresa]
  congr 1
  apply List.map_congr_left
  intro x hx
  by_cases h : x.id_empresa = e.id_empresa
  · have : x = e := List.inj_on_of_nodup_map hpk hx he h
    simp [this]
  · simp [h]

/-- What a wrong password does to the account `u` of a customer: the answer and the row
that replaces `u`. -/
theorem loginPassword_fallo (pbkdf2Sync : Pbkdf2) (bcryptCompare : BcryptCompare) (now : Nat)
    (password : String) (u : CuentaUsuario) (c : Cuentas)
    (hbad : isPasswordValid pbkdf2Sync bcryptCompare password u.password = false) :
    loginPassword pbkdf2Sync bcryptCompare now password u c =
      if u.first_warning_sent = false ∧ 3 ≤ u.failed_login_attempts + 1 then
        (respuestaBloqueo, actualizarUsuario c u.id_usuario fun x =>
          { x with
            failed_login_attempts := u.failed_login_attempts + 1
            last_failed_login := some now
            lockout_time := some now
            first_warning_sent := true })
      else if u.first_warning_sent = true ∧ 6 ≤ u.failed_login_attempts + 1 then
        (respuestaDesactivada, actualizarUsuario c u.id_usuario fun x =>
          { x with
            failed_login_attempts := u.failed_login_attempts + 1
            last_failed_login := some now
            is_active := false
            lockout_time := none })
      else
        (respuestaIntentos
            ((if u.first_warning_sent then 6 else 3) - ((u.failed_login_attempts + 1 : Nat) : Int)),
          actualizarUsuario c u.id_usuario fun x =>
            { x with
              failed_login_attempts := u.failed_login_attempts + 1
              last_failed_login := some now }) := by
  unfold loginPassword
  simp only [hbad, Bool.not_false, if_true]
  cases hw : u.first_warning_sent <;> by_cases h3 : 3 ≤ u.failed_login_attempts + 1 <;>
    by_cases h6 : 6 ≤ u.failed_login_attempts + 1 <;> simp [h3, h6]
theorem loginEmpresaPassword_fallo (pbkdf2Sync : Pbkdf2) (bcryptCompare : BcryptCompare)
    (now : Nat) (password : String) (e : CuentaEmpresa) (c : Cuentas)
    (hbad : isPasswordValid pbkdf2Sync bcryptCompare password e.contrasena = false) :
    loginEmpresaPassword pbkdf2Sync bcryptCompare now password e c =
      if e.first_warning_sent = false ∧ 3 ≤ e.failed_login_attempts + 1 then
        (respuestaBloqueo, actualizarEmpresa c e.id_empresa fun x =>
          { x with
            failed_login_attempts := e.failed_login_attempts + 1
            last_failed_login := some now
            lockout_time := some now
            first_warning_sent := true })
      else if e.first_warning_sent = true ∧ 6 ≤ e.failed_login_attempts + 1 then
        (respuestaDesactivada, actualizarEmpresa c e.id_empresa fun x =>
          { x with
            failed_login_attempts := e.failed_login_attempts + 1
            last_failed_login := some now
            is_active := false
            lockout_time := none })
      else
        (respuestaIntentos
            ((if e.first_warning_sent then 6 else 3) - ((e.failed_login_attempts + 1 : Nat) : Int)),
          actualizarEmpresa c e.id_empresa fun x =>
            { x with
              failed_login_attempts := e.failed_login_attempts + 1
              last_failed_login := some now }) := by
  unfold loginEmpresaPassword
  simp only [hbad, Bool.not_false, if_true]
  cases hw : e.first_warning_sent <;> by_cases h3 : 3 ≤ e.failed_login_attempts + 1 <;>
    by_cases h6 : 6 ≤ e.failed_login_attempts + 1 <;> simp [h3, h6]

/-- The tables after the lock check of `login` on an account that is not locked: an
expired lock is cleared. -/
theorem login_sin_bloqueo (pbkdf2Sync : Pbkdf2) (bcryptCompare : BcryptCompare)
    (currentTime now : Nat) (body : LoginBody) (u : CuentaUsuario) (c : Cuentas)
    (hcorreo : truthyStr body.correo = true) (hpass : truthyStr body.password = true)
    (hu : (usuariosPorCorreo c (body.correo.getD "")).head? = some u)
    (hact : u.is_active = true)
    (hlibre : ∀ t, u.lockout_time = some t → ¬ timeDiff currentTime t < 15) :
    login pbkdf2Sync bcryptCompare currentTime now body c =
      loginPassword pbkdf2Sync bcryptCompare now (body.password.getD "") u
        (actualizarUsuario c u.id_usuario fun x =>
          { x with lockout_time := if u.lockout_time.isSome then none else x.lockout_time }) := by
  unfold login
  simp only [hcorreo, hpass, hu, hact, Bool.not_true, Bool.or_self, Bool.false_eq_true,
    if_false]
  cases hl : u.lockout_time with
  | none =>
    have : (actualizarUsuario c u.id_usuario fun x =>
        { x with lockout_time := if (none : Option Nat).isSome then none else x.lockout_time })
        = c := by
      simp [actualizarUsuario]
    simp only [this]
  | some t =>
    simp only [if_neg (hlibre t hl)]
    simp

theorem loginEmpresa_sin_bloqueo (pbkdf2Sync : Pbkdf2) (bcryptCompare : BcryptCompare)
    (currentTime now : Nat) (body : LoginEmpresaBody) (e : CuentaEmpresa) (c : Cuentas)
    (hemail : truthyStr body.email = true) (hpass : truthyStr body.password = true)
    (he : (empresasPorEmail c (body.email.getD "")).head? = some e)
    (hact : e.is_active = true) (hver : e.verificada = true)
    (hlibre : ∀ t, e.lockout_time = some t → ¬ timeDiff currentTime t < 15) :
    loginEmpresa pbkdf2Sync bcryptCompare currentTime now body c =
      loginEmpresaPassword pbkdf2Sync bcryptCompare now (body.password.getD "") e
        (actualizarEmpresa c e.id_empresa fun x =>
          { x with lockout_time := if e.lockout_time.isSome then none else x.lockout_time }) := by
  unfold loginEmpresa
  simp only [hemail, hpass, he, hact, hver, Bool.not_true, Bool.or_self, Bool.false_eq_true,
    if_false]
  cases hl : e.lockout_time with
  | none =>
    have : (actualizarEmpresa c e.id_empresa fun x =>
        { x with lockout_time := if (none : Option Nat).isSome then none else x.lockout_time })
        = c := by
      simp [actualizarEmpresa]
    simp only [this]
  | some t =>
    simp only [if_neg (hlibre t hl)]
    simp

/-- The account `u` after the lock check and one more update, under the primary key. -/
theorem actualizarUsuario_tras_bloqueo (c : Cuentas) (u : CuentaUsuario)
    (f : CuentaUsuario → CuentaUsuario) (hu : u ∈ c.usuarios)
    (hpk : (c.usuarios.map fun x => x.id_usuario).Nodup) :
    actualizarUsuario
        (actualizarUsuario c u.id_usuario fun x =>
          { x with lockout_time := if u.lockout_time.isSome then none else x.lockout_time })
        u.id_usuario f =
      actualizarUsuario c u.id_usuario fun _ => f { u with lockout_time := none } := by
  rw [actualizarUsuario_dos c u.id_usuario f
      (fun x => { x with lockout_time := if u.lockout_time.isSome then none else x.lockout_time })
      (fun _ => rfl),
    actualizarUsuario_fila c u _ hu hpk]
  congr 1
  funext _
  cases h : u.lockout_time <;> simp [h]

theorem actualizarEmpresa_tras_bloqueo (c : Cuentas) (e : CuentaEmpresa)
    (f : CuentaEmpresa → CuentaEmpresa) (he : e ∈ c.empresas)
    (hpk : (c.empresas.map fun x => x.id_empresa).Nodup) :
    actualizarEmpresa
        (actualizarEmpresa c e.id_empresa fun x =>
          { x with lockout_time := if e.lockout_time.isSome then none else x.lockout_time })
        e.id_empresa f =
      actualizarEmpresa c e.id_empresa fun _ => f { e with lockout_time := none } := by
  rw [actualizarEmpresa_dos c e.id_empresa f
      (fun x => { x with lockout_time := if e.lockout_time.isSome then none else x.lockout_time })
      (fun _ => rfl),
    actualizarEmpresa_fila c e _ he hpk]
  congr 1
  funext _
  cases h : e.lockout_time <;> simp [h]
/-- C23, as stated, fails for a business: an active business that is not locked and not
verified is answered 403 on a wrong password, and its failure counter stays 0. -/
theorem empresa_no_verificada_sin_conteo :
    (empresaEjemplo 4 "cuatro@x.co" false 0 none false).is_active = true ∧
    (empresaEjemplo 4 "cuatro@x.co" false 0 none false).lockout_time = none ∧
    isPasswordValid pbkdf2Ejemplo bcryptEjemplo "otra"
      (empresaEjemplo 4 "cuatro@x.co" false 0 none false).contrasena = false ∧
    loginEmpresa pbkdf2Ejemplo bcryptEjemplo 2000000 2000000 ⟨some "cuatro@x.co", some "otra"⟩
        ⟨[], [empresaEjemplo 4 "cuatro@x.co" false 0 none false]⟩ =
      (soloRespuesta
        ⟨403, false, "Tu empresa aún no ha sido verificada. Contacta al administrador."⟩,
        ⟨[], [empresaEjemplo 4 "cuatro@x.co" false 0 none false]⟩) := by
  decide

/-- C23, amended: for a customer account and for a verified business account, active and
not locked at the time of the request, with failure counter `n` and warning flag `w`,
a wrong password has exactly this effect on the account, the other rows staying as they
are. If `w` is false and `n + 1 ≥ 3`: the counter becomes `n + 1`, the lock starts at the
clock of the storage, the warning flag becomes true, and the answer is 423. If `w` is true
and `n + 1 ≥ 6`: the counter becomes `n + 1`, the account is deactivated, and the answer
is 403. Otherwise the counter becomes `n + 1`, the account stays unlocked, and the answer
is 401 with at least one attempt left. Every case records the time of the failure. -/
theorem password_incorrecto_efecto (pbkdf2Sync : Pbkdf2) (bcryptCompare : BcryptCompare)
    (currentTime now : Nat) (c : Cuentas)
    (body : LoginBody) (u : CuentaUsuario) (bodyE : LoginEmpresaBody) (e : CuentaEmpresa)
    (hcorreo : truthyStr body.correo = true) (hpass : truthyStr body.password = true)
    (hu : (usuariosPorCorreo c (body.correo.getD "")).head? = some u)
    (hpk : (c.usuarios.map fun x => x.id_usuario).Nodup)
    (hact : u.is_active = true)
    (hlibre : ∀ t, u.lockout_time = some t → ¬ timeDiff currentTime t < 15)
    (hbad : isPasswordValid pbkdf2Sync bcryptCompare (body.password.getD "") u.password = false)
    (hemail : truthyStr bodyE.email = true) (hpassE : truthyStr bodyE.password = true)
    (he : (empresasPorEmail c (bodyE.email.getD "")).head? = some e)
    (hpkE : (c.empresas.map fun x => x.id_empresa).Nodup)
    (hactE : e.is_active = true) (hverE : e.verificada = true)
    (hlibreE : ∀ t, e.lockout_time = some t → ¬ timeDiff currentTime t < 15)
    (hbadE : isPasswordValid pbkdf2Sync bcryptCompare (bodyE.password.getD "") e.contrasena
      = false) :
    login pbkdf2Sync bcryptCompare currentTime now body c =
      (if u.first_warning_sent = false ∧ 3 ≤ u.failed_login_attempts + 1 then
        (respuestaBloqueo, actualizarUsuario c u.id_usuario fun _ =>
          { u with
            failed_login_attempts := u.failed_login_attempts + 1
            last_failed_login := some now
            lockout_time := some now
            first_warning_sent := true })
      else if u.first_warning_sent = true ∧ 6 ≤ u.failed_login_attempts + 1 then
        (respuestaDesactivada, actualizarUsuario c u.id_usuario fun _ =>
          { u with
            failed_login_attempts := u.failed_login_attempts + 1
            last_failed_login := some now
            is_active := false
            lockout_time := none })
      else
        (respuestaIntentos
            ((if u.first_warning_sent then 6 else 3) - ((u.failed_login_attempts + 1 : Nat) : Int)),
          actualizarUsuario c u.id_usuario fun _ =>
            { u with
              failed_login_attempts := u.failed_login_attempts + 1
              last_failed_login := some now
              lockout_time := none })) ∧
    loginEmpresa pbkdf2Sync bcryptCompare currentTime now bodyE c =
      (if e.first_warning_sent = false ∧ 3 ≤ e.failed_login_attempts + 1 then
        (respuestaBloqueo, actualizarEmpresa c e.id_empresa fun _ =>
          { e with
            failed_login_attempts := e.failed_login_attempts + 1
            last_failed_login := some now
            lockout_time := some now
            first_warning_sent := true })
      else if e.first_warning_sent = true ∧ 6 ≤ e.failed_login_attempts + 1 then
        (respuestaDesactivada, actualizarEmpresa c e.id_empresa fun _ =>
          { e with
            failed_login_attempts := e.failed_login_attempts + 1
            last_failed_login := some now
            is_active := false
            lockout_time := none })
      else
        (respuestaIntentos
            ((if e.first_warning_sent then 6 else 3) - ((e.failed_login_attempts + 1 : Nat) : Int)),
          actualizarEmpresa c e.id_empresa fun _ =>
            { e with
              failed_login_attempts := e.failed_login_attempts + 1
              last_failed_login := some now
              lockout_time := none })) ∧
    respuestaBloqueo.respuesta.status = 423 ∧
    respuestaDesactivada.respuesta.status = 403 ∧
    (∀ k : Int, (respuestaIntentos k).respuesta.status = 401 ∧
      (respuestaIntentos k).remainingAttempts = some k) ∧
    (∀ (n : Nat) (w : Bool), ¬(w = false ∧ 3 ≤ n + 1) → ¬(w = true ∧ 6 ≤ n + 1) →
      (1 : Int) ≤ (if w then 6 else 3) - ((n + 1 : Nat) : Int)) := by
  have hmem : u ∈ c.usuarios := (List.mem_filter.mp (List.mem_of_mem_head? hu)).1
  have hmemE : e ∈ c.empresas := (List.mem_filter.mp (List.mem_of_mem_head? he)).1
  refine ⟨?_, ?_, rfl, rfl, fun k => ⟨rfl, rfl⟩, ?_⟩
  · rw [login_sin_bloqueo pbkdf2Sync bcryptCompare currentTime now body u c hcorreo hpass hu
      hact hlibre, loginPassword_fallo _ _ _ _ _ _ hbad]
    simp only [actualizarUsuario_tras_bloqueo c u _ hmem hpk]
  · rw [loginEmpresa_sin_bloqueo pbkdf2Sync bcryptCompare currentTime now bodyE e c hemail
      hpassE he hactE hverE hlibreE, loginEmpresaPassword_fallo _ _ _ _ _ _ hbadE]
    simp only [actualizarEmpresa_tras_bloqueo c e _ hmemE hpkE]
  · intro n w h3 h6
    cases w
    · simp at h3 ⊢; omega
    · simp at h6 ⊢; omega
theorem password_incorrecto_efecto_witness :
    isPasswordValid pbkdf2Ejemplo bcryptEjemplo "otra"
      (usuarioEjemplo 1 "ana@x.co" 2 none false).password = false ∧
    isPasswordValid pbkdf2Ejemplo bcryptEjemplo "otra"
      (empresaEjemplo 2 "dos@x.co" true 5 none true).contrasena = false ∧
    login pbkdf2Ejemplo bcryptEjemplo 2000000 2000000 ⟨some "ana@x.co", some "otra"⟩
        cuentasEjemplo =
      (respuestaBloqueo, actualizarUsuario cuentasEjemplo 1 fun _ =>
        { usuarioEjemplo 1 "ana@x.co" 3 (some 2000000) true with
          last_failed_login := some 2000000 }) ∧
    loginEmpresa pbkdf2Ejemplo bcryptEjemplo 2000000 2000000 ⟨some "dos@x.co", some "otra"⟩
        cuentasEjemplo =
      (respuestaDesactivada, actualizarEmpresa cuentasEjemplo 2 fun _ =>
        { empresaEjemplo 2 "dos@x.co" true 6 none true with
          last_failed_login := some 2000000, is_active := false }) :=
  have hbad : isPasswordValid pbkdf2Ejemplo bcryptEjemplo "otra"
      (usuarioEjemplo 1 "ana@x.co" 2 none false).password = false := by decide
  have hbadE : isPasswordValid pbkdf2Ejemplo bcryptEjemplo "otra"
      (empresaEjemplo 2 "dos@x.co" true 5 none true).contrasena = false := by decide
  have h := password_incorrecto_efecto pbkdf2Ejemplo bcryptEjemplo 2000000 2000000
    cuentasEjemplo ⟨some "ana@x.co", some "otra"⟩ (usuarioEjemplo 1 "ana@x.co" 2 none false)
    ⟨some "dos@x.co", some "otra"⟩ (empresaEjemplo 2 "dos@x.co" true 5 none true)
    (by decide) (by decide) (by decide) (by decide) rfl (fun t ht => by cases ht) hbad
    (by decide) (by decide) (by decide) (by decide) rfl rfl (fun t ht => by cases ht) hbadE
  ⟨hbad, hbadE, h.1.trans (by decide), h.2.1.trans (by decide)⟩

/-- A customer with five failures after a warning is deactivated by the sixth, and a
business with two failures and no warning is locked by the third without being
deactivated. -/
theorem password_incorrecto_ejemplos :
    login pbkdf2Ejemplo bcryptEjemplo 2000000 2000000 ⟨some "luis@x.co", some "otra"⟩
        cuentasEjemplo =
      (respuestaDesactivada, actualizarUsuario cuentasEjemplo 2 fun _ =>
        { usuarioEjemplo 2 "luis@x.co" 6 none true with
          last_failed_login := some 2000000, is_active := false }) ∧
    loginEmpresa pbkdf2Ejemplo bcryptEjemplo 2000000 2000000 ⟨some "uno@x.co", some "otra"⟩
        cuentasEjemplo =
      (respuestaBloqueo, actualizarEmpresa cuentasEjemplo 1 fun _ =>
        { empresaEjemplo 1 "uno@x.co" true 3 (some 2000000) true with
          last_failed_login := some 2000000 }) := by
  decide
/-- The minutes a lock of less than fifteen minutes still lasts, rounded up, are between
1 and 15. -/
theorem minutosRestantes_cotas (currentTime lockoutTime : Nat) (h0 : lockoutTime ≤ currentTime)
    (h15 : currentTime - lockoutTime < 15 * 60000) :
    timeDiff currentTime lockoutTime < 15 ∧
      1 ≤ ⌈15 - timeDiff currentTime lockoutTime⌉ ∧
      ⌈15 - timeDiff currentTime lockoutTime⌉ ≤ 15 := by
  have hc : (lockoutTime : ℚ) ≤ currentTime := by exact_mod_cast h0
  have hd : (currentTime : ℚ) - lockoutTime < 900000 := by
    have : ((currentTime - lockoutTime : Nat) : ℚ) < ((15 * 60000 : Nat) : ℚ) := by
      exact_mod_cast h15
    rw [Nat.cast_sub h0] at this
    simpa using this
  have hlt : timeDiff currentTime lockoutTime < 15 := by
    unfold timeDiff
    rw [div_lt_iff₀ (by norm_num)]
    linarith
  have hge : 0 ≤ timeDiff currentTime lockoutTime := by
    unfold timeDiff
    apply div_nonneg <;> linarith
  refine ⟨hlt, ?_, ?_⟩
  · have : 0 < ⌈15 - timeDiff currentTime lockoutTime⌉ := Int.ceil_pos.mpr (by linarith)
    omega
  · rw [Int.ceil_le]
    push_cast
    linarith

/-- C24, as stated, fails for a business: an active business whose lock started five
minutes ago and that is not verified is answered 403, not 423. -/
theorem empresa_no_verificada_bloqueada_403 :
    (empresaEjemplo 4 "cuatro@x.co" false 0 (some 1000000) false).is_active = true ∧
    (empresaEjemplo 4 "cuatro@x.co" false 0 (some 1000000) false).lockout_time = some 1000000 ∧
    1300000 - 1000000 < 15 * 60000 ∧
    (loginEmpresa pbkdf2Ejemplo bcryptEjemplo 1300000 1300000
        ⟨some "cuatro@x.co", some "clave"⟩ cuentasEjemplo).1.respuesta.status = 403 ∧
    (loginEmpresa pbkdf2Ejemplo bcryptEjemplo 1300000 1300000
        ⟨some "cuatro@x.co", some "clave"⟩ cuentasEjemplo).2 = cuentasEjemplo := by
  decide

/-- C24, amended: for a customer account and for a verified business account, active and
with a lock that started less than fifteen minutes before the clock of the server, every
login attempt, whatever the password, is answered 423 and changes no stored field; the
reported `remainingMinutes` is the ceiling of 15 minus the minutes elapsed, and lies
between 1 and 15. -/
theorem cuenta_bloqueada_rechaza (pbkdf2Sync : Pbkdf2) (bcryptCompare : BcryptCompare)
    (currentTime now : Nat) (c : Cuentas)
    (body : LoginBody) (u : CuentaUsuario) (t : Nat)
    (bodyE : LoginEmpresaBody) (e : CuentaEmpresa) (tE : Nat)
    (hcorreo : truthyStr body.correo = true) (hpass : truthyStr body.password = true)
    (hu : (usuariosPorCorreo c (body.correo.getD "")).head? = some u)
    (hact : u.is_active = true) (hlock : u.lockout_time = some t)
    (h0 : t ≤ currentTime) (h15 : currentTime - t < 15 * 60000)
    (hemail : truthyStr bodyE.email = true) (hpassE : truthyStr bodyE.password = true)
    (he : (empresasPorEmail c (bodyE.email.getD "")).head? = some e)
    (hactE : e.is_active = true) (hverE : e.verificada = true)
    (hlockE : e.lockout_time = some tE)
    (h0E : tE ≤ currentTime) (h15E : currentTime - tE < 15 * 60000) :
    (login pbkdf2Sync bcryptCompare currentTime now body c =
        (respuestaBloqueada currentTime t, c) ∧
      (respuestaBloqueada currentTime t).respuesta.status = 423 ∧
      (respuestaBloqueada currentTime t).remainingMinutes =
        some ⌈(15 : ℚ) - ((currentTime : ℚ) - (t : ℚ)) / (1000 * 60)⌉ ∧
      1 ≤ ⌈(15 : ℚ) - ((currentTime : ℚ) - (t : ℚ)) / (1000 * 60)⌉ ∧
      ⌈(15 : ℚ) - ((currentTime : ℚ) - (t : ℚ)) / (1000 * 60)⌉ ≤ 15) ∧
    (loginEmpresa pbkdf2Sync bcryptCompare currentTime now bodyE c =
        (respuestaBloqueada currentTime tE, c) ∧
      (respuestaBloqueada currentTime tE).respuesta.status = 423 ∧
      (respuestaBloqueada currentTime tE).remainingMinutes =
        some ⌈(15 : ℚ) - ((currentTime : ℚ) - (tE : ℚ)) / (1000 * 60)⌉ ∧
      1 ≤ ⌈(15 : ℚ) - ((currentTime : ℚ) - (tE : ℚ)) / (1000 * 60)⌉ ∧
      ⌈(15 : ℚ) - ((currentTime : ℚ) - (tE : ℚ)) / (1000 * 60)⌉ ≤ 15) := by
  obtain ⟨hlt, h1, h2⟩ := minutosRestantes_cotas currentTime t h0 h15
  obtain ⟨hltE, h1E, h2E⟩ := minutosRestantes_cotas currentTime tE h0E h15E
  refine ⟨⟨?_, rfl, rfl, h1, h2⟩, ⟨?_, rfl, rfl, h1E, h2E⟩⟩
  · unfold login
    simp only [hcorreo, hpass, hu, hact, hlock, Bool.not_true, Bool.or_self,
      Bool.false_eq_true, if_false, if_pos hlt]
  · unfold loginEmpresa
    simp only [hemail, hpassE, he, hactE, hverE, hlockE, Bool.not_true, Bool.or_self,
      Bool.false_eq_true, if_false, if_pos hltE]
theorem cuenta_bloqueada_rechaza_witness :
    (usuarioEjemplo 3 "eva@x.co" 3 (some 1000000) true).lockout_time = some 1000000 ∧
    (empresaEjemplo 3 "tres@x.co" true 3 (some 1000000) true).lockout_time = some 1000000 ∧
    (1000000 ≤ 1300000 ∧ 1300000 - 1000000 < 15 * 60000) ∧
    login pbkdf2Ejemplo bcryptEjemplo 1300000 1300000 ⟨some "eva@x.co", some "clave"⟩
        cuentasEjemplo = (respuestaBloqueada 1300000 1000000, cuentasEjemplo) ∧
    loginEmpresa pbkdf2Ejemplo bcryptEjemplo 1300000 1300000 ⟨some "tres@x.co", some "clave"⟩
        cuentasEjemplo = (respuestaBloqueada 1300000 1000000, cuentasEjemplo) ∧
    (respuestaBloqueada 1300000 1000000).respuesta.status = 423 ∧
    (respuestaBloqueada 1300000 1000000).remainingMinutes = some 10 :=
  have h := cuenta_bloqueada_rechaza pbkdf2Ejemplo bcryptEjemplo 1300000 1300000 cuentasEjemplo
    ⟨some "eva@x.co", some "clave"⟩ (usuarioEjemplo 3 "eva@x.co" 3 (some 1000000) true) 1000000
    ⟨some "tres@x.co", some "clave"⟩ (empresaEjemplo 3 "tres@x.co" true 3 (some 1000000) true)
    1000000
    (by decide) (by decide) (by decide) rfl rfl (by decide) (by decide)
    (by decide) (by decide) (by decide) rfl rfl rfl (by decide) (by decide)
  ⟨rfl, rfl, by decide, h.1.1, h.2.1, h.1.2.1,
    h.1.2.2.1.trans (by
      congr 1
      rw [Int.ceil_eq_iff]
      norm_num)⟩

/-! ## Password verification of the four handlers -/

/-- A hash that `verifyDjangoPassword` accepts is in the legacy format. -/
theorem verifyDjangoPassword_isDjangoHash (pbkdf2Sync : Pbkdf2) (password stored : String)
    (h : verifyDjangoPassword pbkdf2Sync password stored = true) :
    isDjangoHash stored = true := by
  unfold verifyDjangoPassword at h
  split at h
  · rename_i algorithm iterations salt originalHash hs
    by_cases ha : algorithm = algoritmoDjango.data
    · have hne : stored ≠ "" := by
        intro e
        rw [e] at hs
        have h0 : splitDolar "".data = [[]] := rfl
        rw [h0] at hs
        simp at hs
      simp [isDjangoHash, hne, hs, ha]
    · simp [ha] at h
  · exact absurd h (by simp)

/-- The password check of `cambiarContrasena` has no fallback: it rejects every password
when the stored hash is not in the legacy format. -/
theorem cambiarContrasena_sin_fallback (pbkdf2Sync : Pbkdf2) (randomBytes : Fin 12 → Byte)
    (user : Principal) (body : CambiarContrasenaBody) (c : Cuentas) (e : CuentaEmpresa)
    (hactual : truthyStr body.contrasena_actual = true)
    (hnueva : truthyStr body.nueva_contrasena = true)
    (hlen : 6 ≤ jsLength (body.nueva_contrasena.getD ""))
    (he : (c.empresas.filter fun x => x.id_empresa = user.id).head? = some e)
    (hformato : isDjangoHash e.contrasena = false) :
    cambiarContrasena pbkdf2Sync randomBytes user body c =
      (⟨400, false, "La contraseña actual es incorrecta"⟩, c) := by
  have hv : verifyDjangoPassword pbkdf2Sync (body.contrasena_actual.getD "") e.contrasena
      = false := by
    by_contra hne
    have := verifyDjangoPassword_isDjangoHash pbkdf2Sync _ _ (by simpa using hne)
    rw [hformato] at this
    exact absurd this (by decide)
  unfold cambiarContrasena
  simp [hactual, hnueva, he, hv, Nat.not_lt.mpr hlen]

/-- The three handlers that check a password through `isPasswordValid` accept the right
password in either format: the legacy one, when the legacy verification succeeds, and any
other, when `bcrypt.compare` succeeds. -/
theorem isPasswordValid_ambos (pbkdf2Sync : Pbkdf2) (bcryptCompare : BcryptCompare)
    (password stored : String) :
    (isDjangoHash stored = true → verifyDjangoPassword pbkdf2Sync password stored = true →
      isPasswordValid pbkdf2Sync bcryptCompare password stored = true) ∧
    (isDjangoHash stored = false → bcryptCompare password stored = true →
      isPasswordValid pbkdf2Sync bcryptCompare password stored = true) := by
  constructor
  · intro h1 h2; simp [isPasswordValid, h1, h2]
  · intro h1 h2; simp [isPasswordValid, h1, h2]

/-- A password that passes `isPasswordValid` logs the customer in. -/
theorem login_acepta (pbkdf2Sync : Pbkdf2) (bcryptCompare : BcryptCompare)
    (currentTime now : Nat) (body : LoginBody) (u : CuentaUsuario) (c : Cuentas)
    (hcorreo : truthyStr body.correo = true) (hpass : truthyStr body.password = true)
    (hu : (usuariosPorCorreo c (body.correo.getD "")).head? = some u)
    (hact : u.is_active = true)
    (hlibre : ∀ t, u.lockout_time = some t → ¬ timeDiff currentTime t < 15)
    (hok : isPasswordValid pbkdf2Sync bcryptCompare (body.password.getD "") u.password = true) :
    (login pbkdf2Sync bcryptCompare currentTime now body c).1.respuesta =
        ⟨200, true, "Login exitoso"⟩ ∧
      (login pbkdf2Sync bcryptCompare currentTime now body c).1.token =
        some ⟨u.id_usuario, u.correo, u.rol⟩ := by
  rw [login_sin_bloqueo pbkdf2Sync bcryptCompare currentTime now body u c hcorreo hpass hu
    hact hlibre]
  simp [loginPassword, hok]

/-- A password that passes `isPasswordValid` logs the verified business in. -/
theorem loginEmpresa_acepta (pbkdf2Sync : Pbkdf2) (bcryptCompare : BcryptCompare)
    (currentTime now : Nat) (body : LoginEmpresaBody) (e : CuentaEmpresa) (c : Cuentas)
    (hemail : truthyStr body.email = true) (hpass : truthyStr body.password = true)
    (he : (empresasPorEmail c (body.email.getD "")).head? = some e)
    (hact : e.is_active = true) (hver : e.verificada = true)
    (hlibre : ∀ t, e.lockout_time = some t → ¬ timeDiff currentTime t < 15)
    (hok : isPasswordValid pbkdf2Sync bcryptCompare (body.password.getD "") e.contrasena
      = true) :
    (loginEmpresa pbkdf2Sync bcryptCompare currentTime now body c).1.respuesta =
        ⟨200, true, "Login exitoso"⟩ ∧
      (loginEmpresa pbkdf2Sync bcryptCompare currentTime now body c).1.token =
        some ⟨e.id_empresa, e.email, "empresa"⟩ := by
  rw [loginEmpresa_sin_bloqueo pbkdf2Sync bcryptCompare currentTime now body e c hemail hpass
    he hact hver hlibre]
  simp [loginEmpresaPassword, hok]

/-- A current password that passes `isPasswordValid` gets past the check of
`changePassword`: the answer is not the 401 of a wrong password. -/
theorem changePassword_acepta (pbkdf2Sync : Pbkdf2) (bcryptCompare : BcryptCompare)
    (randomBytes : Fin 12 → Byte) (user : Principal) (body : ChangePasswordBody)
    (u : CuentaUsuario) (c : Cuentas)
    (hactual : truthyStr body.currentPassword = true)
    (hnueva : truthyStr body.newPassword = true)
    (hlen : 6 ≤ jsLength (body.newPassword.getD ""))
    (hu : (c.usuarios.filter fun x => x.id_usuario = user.id ∧ x.rol = "cliente").head?
      = some u)
    (hok : isPasswordValid pbkdf2Sync bcryptCompare (body.currentPassword.getD "") u.password
      = true) :
    changePassword pbkdf2Sync bcryptCompare randomBytes user body c =
      match hashDjangoPassword pbkdf2Sync randomBytes (body.newPassword.getD "")
          iteracionesDjango with
      | none => (⟨500, false, "Error al cambiar contraseña"⟩, c)
      | some hashedPassword =>
          (⟨200, true, "Contraseña actualizada exitosamente"⟩,
            actualizarUsuario c user.id fun x => { x with password := hashedPassword }) := by
  have hl : ¬ jsLength (body.newPassword.getD "") < 6 := Nat.not_lt.mpr hlen
  unfold changePassword
  simp only [hactual, hnueva, hu, hok, hl, Bool.not_true, Bool.or_self, Bool.false_eq_true,
    if_false]

/-- C25 at a business whose stored hash is in the `bcrypt` format: `loginEmpresa` accepts
the right password, and `cambiarContrasena` answers that the same password is wrong and
changes nothing. -/
theorem cambiarContrasena_rechaza_bcrypt :
    (empresaEjemplo 1 "uno@x.co" true 2 none false).contrasena = "$2a$10$clave" ∧
    bcryptEjemplo "clave" "$2a$10$clave" = true ∧
    (loginEmpresa pbkdf2Ejemplo bcryptEjemplo 2000000 2000000 ⟨some "uno@x.co", some "clave"⟩
        cuentasEjemplo).1.respuesta = ⟨200, true, "Login exitoso"⟩ ∧
    cambiarContrasena pbkdf2Ejemplo (fun _ => 0) ⟨1, "empresa"⟩
        ⟨some "clave", some "nueva123"⟩ cuentasEjemplo =
      (⟨400, false, "La contraseña actual es incorrecta"⟩, cuentasEjemplo) := by
  decide

/-! ## Password change of a business -/

/-- The name `makeDjangoPassword` is not among the exports: the binding is `undefined`. -/
theorem makeDjangoPassword_undefined (pbkdf2Sync : Pbkdf2) (randomBytes : Fin 12 → Byte) :
    makeDjangoPassword pbkdf2Sync randomBytes = none := by
  simp [makeDjangoPassword, exportsHash, List.lookup]

/-- No request to `cambiarContrasena` succeeds or changes a stored credential. -/
theorem cambiarContrasena_nunca_escribe (pbkdf2Sync : Pbkdf2) (randomBytes : Fin 12 → Byte)
    (user : Principal) (body : CambiarContrasenaBody) (c : Cuentas) :
    (cambiarContrasena pbkdf2Sync randomBytes user body c).2 = c ∧
      (cambiarContrasena pbkdf2Sync randomBytes user body c).1.success = false := by
  unfold cambiarContrasena
  rw [makeDjangoPassword_undefined]
  split
  · exact ⟨rfl, rfl⟩
  · split
    · exact ⟨rfl, rfl⟩
    · split
      · exact ⟨rfl, rfl⟩
      · split <;> exact ⟨rfl, rfl⟩

/-- C27 at a business whose stored credential is the legacy hash of `secreto1`: called
with that password and a new one of eight characters, `cambiarContrasena` answers 500 and
leaves the stored credential as it was. -/
theorem cambiarContrasena_falla_500 :
    isDjangoHash hashEjemplo = true ∧
    verifyDjangoPassword pbkdf2Ejemplo "secreto1" hashEjemplo = true ∧
    jsLength "nuevo123" = 8 ∧
    cambiarContrasena pbkdf2Ejemplo (fun _ => 0) ⟨1, "empresa"⟩
        ⟨some "secreto1", some "nuevo123"⟩
        ⟨[], [{ empresaEjemplo 1 "uno@x.co" true 0 none false with contrasena := hashEjemplo }]⟩ =
      (⟨500, false, "Error al cambiar contraseña"⟩,
        ⟨[], [{ empresaEjemplo 1 "uno@x.co" true 0 none false with
          contrasena := hashEjemplo }]⟩) := by
  decide

/-! ## Lazy reset of the monthly counter -/

/-- The test of `verificarSuscripcion` for the reset is the test of the elapsed time
against thirty days. -/
theorem diasDesdeReinicio_treinta (ahora ultimoReinicio : Nat) :
    diasDesdeReinicio ahora ultimoReinicio ≥ 30 ↔
      (ahora : Int) - (ultimoReinicio : Int) ≥ 30 * unDia := by
  unfold diasDesdeReinicio unDia
  omega

/-- What `verificarSuscripcion` does with the counter of the subscription it reads: after
thirty days or more it resets the counter, stamps the reset with the clock of the storage
and reports usage 0; before, it writes nothing and reports the stored usage. -/
theorem verificarSuscripcion_reinicio (hoy ahora now : Nat) (user : Principal) (db : Planes)
    (su : SuscripcionFechas) (plan : Plan)
    (hsu : (suscripcionesVigentes db hoy (some user.id)).head? = some (su, plan)) :
    ((ahora : Int) - (su.ultimo_reinicio_contador : Int) ≥ 30 * unDia →
      (verificarSuscripcion hoy ahora now user db).2 =
          reiniciarContador db now su.id_suscripcion ∧
        (verificarSuscripcion hoy ahora now user db).1.serviciosUtilizadosMes = some 0 ∧
        ∀ x ∈ (verificarSuscripcion hoy ahora now user db).2.suscripciones,
          x.id_suscripcion = su.id_suscripcion →
            x.servicios_utilizados_mes = 0 ∧ x.ultimo_reinicio_contador = now) ∧
    ((ahora : Int) - (su.ultimo_reinicio_contador : Int) < 30 * unDia →
      (verificarSuscripcion hoy ahora now user db).2 = db ∧
        (verificarSuscripcion hoy ahora now user db).1.serviciosUtilizadosMes =
          some su.servicios_utilizados_mes) := by
  constructor
  · intro h
    have hd : diasDesdeReinicio ahora su.ultimo_reinicio_contador ≥ 30 :=
      (diasDesdeReinicio_treinta _ _).mpr h
    have hdb : (verificarSuscripcion hoy ahora now user db).2 =
        reiniciarContador db now su.id_suscripcion := by
      simp [verificarSuscripcion, hsu, hd]
    refine ⟨hdb, by simp [verificarSuscripcion, hsu, hd], ?_⟩
    rw [hdb]
    intro x hx hid
    simp only [reiniciarContador, List.mem_map] at hx
    obtain ⟨y, _, rfl⟩ := hx
    by_cases hy : y.id_suscripcion = su.id_suscripcion
    · simp [hy]
    · simp [hy] at hid
  · intro h
    have hd : ¬ diasDesdeReinicio ahora su.ultimo_reinicio_contador ≥ 30 := fun hc =>
      absurd ((diasDesdeReinicio_treinta _ _).mp hc) (by omega)
    constructor
    · simp [verificarSuscripcion, hsu, hd]
    · simp [verificarSuscripcion, hsu, hd]

/-- The handler of `GET /mi-suscripcion/activa` never writes. -/
theorem miSuscripcionActiva_sin_escritura (hoy ahora : Nat) (user : Principal) (db : Planes) :
    (miSuscripcionActiva hoy ahora user db).2 = db := by
  unfold miSuscripcionActiva
  split <;> rfl

/-- C21 at a subscription whose counter was last reset thirty-one days ago with two
services used: `verificarSuscripcion` resets the counter and reports usage 0, and
`GET /mi-suscripcion/activa` on the same state reports usage 2 and the old reset time and
leaves both fields as they were. -/
theorem miSuscripcionActiva_sin_reinicio :
    (treintaYUnDias : Int) - 0 ≥ 30 * unDia ∧
    (verificarSuscripcion treintaYUnDias treintaYUnDias treintaYUnDias ⟨1, "cliente"⟩
        planesEjemplo).1.serviciosUtilizadosMes = some 0 ∧
    (verificarSuscripcion treintaYUnDias treintaYUnDias treintaYUnDias ⟨1, "cliente"⟩
        planesEjemplo).2 = reiniciarContador planesEjemplo treintaYUnDias 1 ∧
    ((miSuscripcionActiva treintaYUnDias treintaYUnDias ⟨1, "cliente"⟩ planesEjemplo).1.data.map
        fun d => (d.servicios_utilizados_mes, d.ultimo_reinicio_contador, d.servicios_restantes))
      = some (2, 0, .numero 1) ∧
    (miSuscripcionActiva treintaYUnDias treintaYUnDias ⟨1, "cliente"⟩ planesEjemplo).2 =
      planesEjemplo := by
  decide

/-! ## Remaining quota -/

/-- C22, as stated, fails twice. On the unlimited plan `verificarSuscripcion` reports the
number -1. On a plan of three services with five counted as used, both reads report 0,
not 3 - 5. -/
theorem cupo_restante_contraejemplo :
    (verificarSuscripcion 0 0 0 ⟨2, "cliente"⟩ planesEjemplo).1.cantidadServiciosMes = some 0 ∧
    (verificarSuscripcion 0 0 0 ⟨2, "cliente"⟩ planesEjemplo).1.serviciosDisponibles =
      .numero (-1) ∧
    (verificarSuscripcion 0 0 0 ⟨3, "cliente"⟩ planesExcedido).1.cantidadServiciosMes = some 3 ∧
    (verificarSuscripcion 0 0 0 ⟨3, "cliente"⟩ planesExcedido).1.serviciosUtilizadosMes =
      some 5 ∧
    (verificarSuscripcion 0 0 0 ⟨3, "cliente"⟩ planesExcedido).1.serviciosDisponibles =
      .numero 0 ∧
    ((miSuscripcionActiva 0 0 ⟨3, "cliente"⟩ planesExcedido).1.data.map
        fun d => (d.cantidad_servicios_mes, d.servicios_utilizados_mes, d.servicios_restantes))
      = some (3, 5, .numero 0) := by
  decide

/-- C22, amended: for the active subscription both reads select, when the monthly quota is
not 0 the remaining quota each read reports is the quota minus the usage the same answer
reports, and 0 when that difference is negative; when the monthly quota is 0,
`verificarSuscripcion` reports the number -1 and `GET /mi-suscripcion/activa` reports the
string `Ilimitado`, which is not a number. -/
theorem cupo_restante (hoy ahora now : Nat) (user : Principal) (db : Planes)
    (su : SuscripcionFechas) (plan : Plan) (hid : user.id ≠ 0)
    (hsu : (suscripcionesVigentes db hoy (some user.id)).head? = some (su, plan)) :
    (plan.cantidad_servicios_mes ≠ 0 →
      (∃ usados : Int,
        (verificarSuscripcion hoy ahora now user db).1.serviciosUtilizadosMes = some usados ∧
        (verificarSuscripcion hoy ahora now user db).1.serviciosDisponibles =
          .numero (max 0 (plan.cantidad_servicios_mes - usados)) ∧
        (usados ≤ plan.cantidad_servicios_mes → max 0 (plan.cantidad_servicios_mes - usados) =
          plan.cantidad_servicios_mes - usados)) ∧
      (∃ d, (miSuscripcionActiva hoy ahora user db).1.data = some d ∧
        d.servicios_utilizados_mes = su.servicios_utilizados_mes ∧
        d.servicios_restantes =
          .numero (max 0 (plan.cantidad_servicios_mes - d.servicios_utilizados_mes)) ∧
        (d.servicios_utilizados_mes ≤ plan.cantidad_servicios_mes →
          max 0 (plan.cantidad_servicios_mes - d.servicios_utilizados_mes) =
            plan.cantidad_servicios_mes - d.servicios_utilizados_mes))) ∧
    (plan.cantidad_servicios_mes = 0 →
      (verificarSuscripcion hoy ahora now user db).1.serviciosDisponibles = .numero (-1) ∧
      (∃ d, (miSuscripcionActiva hoy ahora user db).1.data = some d ∧
        d.servicios_restantes = .texto "Ilimitado" ∧
        ∀ n : Int, d.servicios_restantes ≠ .numero n)) := by
  constructor
  · intro hc
    constructor
    · refine ⟨_, by simp [verificarSuscripcion, hsu]; rfl, by simp [verificarSuscripcion, hsu, hc],
        fun h => by omega⟩
    · refine ⟨_, by simp [miSuscripcionActiva, hid, hsu]; rfl, rfl, by simp [hc],
        fun h => by simp at h ⊢; omega⟩
  · intro hc
    constructor
    · simp [verificarSuscripcion, hsu, hc]
    · refine ⟨_, by simp [miSuscripcionActiva, hid, hsu]; rfl, by simp [hc], ?_⟩
      intro n
      simp [hc]

theorem cupo_restante_witness :
    (suscripcionesVigentes planesEjemplo 0 (some 1)).head? =
      some (⟨⟨1, 1, 1, "activa", 2, 0⟩, 0, 400 * 86400000⟩, ⟨1, 3⟩) ∧
    (verificarSuscripcion 0 0 0 ⟨1, "cliente"⟩ planesEjemplo).1.serviciosDisponibles =
      .numero 1 ∧
    ((miSuscripcionActiva 0 0 ⟨1, "cliente"⟩ planesEjemplo).1.data.map
      fun d => d.servicios_restantes) = some (.numero 1) :=
  have hsu : (suscripcionesVigentes planesEjemplo 0 (some 1)).head? =
      some (⟨⟨1, 1, 1, "activa", 2, 0⟩, 0, 400 * 86400000⟩, ⟨1, 3⟩) := by decide
  have h := cupo_restante 0 0 0 ⟨1, "cliente"⟩ planesEjemplo _ _ (by decide) hsu
  ⟨hsu, by
    obtain ⟨u, hu, hd, _⟩ := (h.1 (by decide)).1
    have hu2 : (verificarSuscripcion 0 0 0 ⟨1, "cliente"⟩ planesEjemplo).1.serviciosUtilizadosMes
        = some 2 := by decide
    rw [hu2] at hu
    cases hu
    rw [hd]; decide, by
    obtain ⟨d, hd, hus, hr, _⟩ := (h.1 (by decide)).2
    rw [hd, Option.map_some', hr, hus]; decide⟩

/-! ## Booking code of the business side -/

/-- A string in the format `ANW-[BE]\d{7}` has twelve characters. -/
theorem FormatoNumero_length (letra : Char) (s : String) (h : FormatoNumero letra s) :
    s.data.length = 12 := by
  obtain ⟨ds, hs, hlen, _⟩ := h
  rw [hs]
  simp [hlen]

theorem generarNumeroReservaEmpresa_data (letra : Fin 26) (numero : Fin 90000000) :
    (generarNumeroReservaEmpresa letra numero).data =
      ['A', 'N', 'W', '-', letras.getD letra.val 'A'] ++
        Nat.toDigits 10 (10000000 + numero.val) := by
  simp [generarNumeroReservaEmpresa, String.data_append, toString_nat_data]

/-- The code of the business-side generator has at least thirteen characters: its number
is at least 10000000 and so has eight digits or more. -/
theorem generarNumeroReservaEmpresa_length (letra : Fin 26) (numero : Fin 90000000) :
    13 ≤ (generarNumeroReservaEmpresa letra numero).data.length := by
  rw [generarNumeroReservaEmpresa_data]
  have h := toDigitsCore_length_ge (10000000 + numero.val + 1) (10000000 + numero.val) 7 []
    (by omega) (by omega)
  simp only [List.length_append, List.length_cons, List.length_nil, Nat.toDigits] at h ⊢
  omega

/-- Whatever the random draws, the code of the business-side generator is not in the
format `ANW-[BE]\d{7}`, nor in that format with any other letter. -/
theorem generarNumeroReservaEmpresa_fuera_de_formato (letra : Fin 26)
    (numero : Fin 90000000) (l : Char) :
    ¬FormatoNumero l (generarNumeroReservaEmpresa letra numero) := by
  intro h
  have h12 := FormatoNumero_length l _ h
  have h13 := generarNumeroReservaEmpresa_length letra numero
  omega

/-- What `getReservaParaQR` does for a pending reservation of the business that has no
code: it stores the code of the business-side generator and answers with it. -/
theorem getReservaParaQR_asigna (letra : Fin 26) (numero : Fin 90000000) (user : Principal)
    (reservaId : Nat) (db : DB) (r : Reserva)
    (hr : (reservasParaQR db reservaId user.id).head? = some r)
    (hest : r.estado = "pendiente") (hnum : truthyStr r.numero_reserva = false) :
    getReservaParaQR letra numero user reservaId db =
      (⟨⟨200, true, ""⟩, some (generarNumeroReservaEmpresa letra numero)⟩,
        actualizarReserva db r.id_reserva fun x =>
          { x with numero_reserva := some (generarNumeroReservaEmpresa letra numero) }) := by
  unfold getReservaParaQR
  simp only [hr, hest, hnum, ne_eq, not_true_eq_false, if_false, Bool.not_false, if_true]

/-- C28 at a pending reservation without a code: `getReservaParaQR` stores and answers the
code `ANW-A10000000` when both draws are the least ones, a letter other than `B` and `E`
followed by eight digits, which is not in the format `ANW-[BE]\d{7}`. -/
theorem getReservaParaQR_codigo_fuera_de_formato :
    getReservaParaQR 0 0 ⟨1, "empresa"⟩ 1 dbSinNumero =
      (⟨⟨200, true, ""⟩, some "ANW-A10000000"⟩,
        { dbSinNumero with reservas := [reservaEjemplo 1 "ANW-A10000000" "pendiente"] }) ∧
    ¬FormatoNumero 'B' "ANW-A10000000" ∧ ¬FormatoNumero 'E' "ANW-A10000000" := by
  have hg : generarNumeroReservaEmpresa 0 0 = "ANW-A10000000" := by decide
  refine ⟨by decide, ?_, ?_⟩
  · rw [← hg]; exact generarNumeroReservaEmpresa_fuera_de_formato 0 0 'B'
  · rw [← hg]; exact generarNumeroReservaEmpresa_fuera_de_formato 0 0 'E'

/-! ## Ratings -/

/-- C29, as stated, fails: a rating is stored for a reservation in state `pendiente`. -/
theorem calificacion_de_reserva_pendiente :
    ((dbEjemplo "pendiente").reservas.map fun r => (r.id_reserva, r.estado)) =
      [(1, "pendiente")] ∧
    crearCalificacion 1 ⟨1, "cliente"⟩ ⟨some 1, some 1, some 5, some "bien"⟩
        (dbEjemplo "pendiente") [] =
      (⟨201, true, "Calificación enviada exitosamente"⟩, [⟨1, 1, 1, 1, 5, "bien"⟩]) := by
  decide

/-- The two outcomes of `crearCalificacion`: nothing is written, and the answer is 400 when
the reservation is already rated; or the fields are present, the score is between 1 and 5,
the reservation is not rated yet, and one row is appended with the answer 201. -/
theorem crearCalificacion_casos (idNuevo : Nat) (user : Principal) (body : CalificacionBody)
    (db : DB) (calificaciones : List Calificacion) :
    ((crearCalificacion idNuevo user body db calificaciones).2 = calificaciones ∧
      ((∃ k ∈ calificaciones, some k.reserva_id = body.reserva_id) →
        (crearCalificacion idNuevo user body db calificaciones).1.status = 400)) ∨
    (∃ (rid : Nat) (p : Int), body.reserva_id = some rid ∧ body.puntuacion = some p ∧
      1 ≤ p ∧ p ≤ 5 ∧ (∀ k ∈ calificaciones, k.reserva_id ≠ rid) ∧
      crearCalificacion idNuevo user body db calificaciones =
        (⟨201, true, "Calificación enviada exitosamente"⟩,
          calificaciones ++
            [{ id_calificacion := idNuevo
               reserva_id := rid
               empresa_id := body.empresa_id.getD 0
               usuario_id := user.id
               puntuacion := p
               comentario :=
                 if truthyStr body.comentario then body.comentario.getD "" else "" }])) := by
  unfold crearCalificacion
  by_cases h1 : (!truthyNat body.reserva_id || !truthyNat body.empresa_id ||
      (body.puntuacion.getD 0 == 0)) = true
  · left
    rw [if_pos h1]
    exact ⟨rfl, fun _ => rfl⟩
  · rw [if_neg h1]
    by_cases h2 : (decide (body.puntuacion.getD 0 < 1) || decide (body.puntuacion.getD 0 > 5))
        = true
    · left
      rw [if_pos h2]
      exact ⟨rfl, fun _ => rfl⟩
    · rw [if_neg h2]
      by_cases h3 : (calificaciones.filter fun k => some k.reserva_id = body.reserva_id).length
          > 0
      · left
        rw [if_pos h3]
        exact ⟨rfl, fun _ => rfl⟩
      · rw [if_neg h3]
        have hvacio : ∀ k ∈ calificaciones, some k.reserva_id ≠ body.reserva_id := by
          intro k hk he
          apply h3
          apply List.length_pos_of_mem (a := k)
          simp [List.mem_filter, hk, he]
        simp only [Bool.or_eq_true, Bool.not_eq_true', not_or, Bool.not_eq_false,
          beq_iff_eq, decide_eq_true_eq, not_lt, gt_iff_lt] at h1 h2
        obtain ⟨⟨hres, _⟩, hp0⟩ := h1
        obtain ⟨rid, hrid⟩ : ∃ rid, body.reserva_id = some rid := by
          cases hb : body.reserva_id with
          | none => simp [hb, truthyNat] at hres
          | some rid => exact ⟨rid, rfl⟩
        obtain ⟨p, hp⟩ : ∃ p, body.puntuacion = some p := by
          cases hb : body.puntuacion with
          | none => simp [hb] at hp0
          | some p => exact ⟨p, rfl⟩
        simp only [hrid, hp, Option.getD_some] at h2 hvacio ⊢
        by_cases hc : restricciones db calificaciones
            { id_calificacion := idNuevo
              reserva_id := rid
              empresa_id := body.empresa_id.getD 0
              usuario_id := user.id
              puntuacion := p
              comentario := if truthyStr body.comentario then body.comentario.getD "" else "" }
            = true
        · right
          rw [if_pos hc]
          exact ⟨rid, p, rfl, rfl, h2.1, h2.2, fun k hk he => hvacio k hk (by rw [he]), rfl⟩
        · left
          rw [if_neg hc]
          refine ⟨rfl, ?_⟩
          rintro ⟨k, hk, he⟩
          exact absurd he (hvacio k hk)

/-- C29, amended: `crearCalificacion` stores a rating only if the score is between 1 and 5
and no rating exists yet for that reservation, whatever the state of the reservation; what
it stores is one row for that reservation with that score. A rating for an already rated
reservation is answered 400 and writes nothing, and if each reservation has at most one
rating before the request, so it has afterwards. -/
theorem crearCalificacion_efecto (idNuevo : Nat) (user : Principal) (body : CalificacionBody)
    (db : DB) (calificaciones : List Calificacion) :
    ((crearCalificacion idNuevo user body db calificaciones).2 ≠ calificaciones →
      (∃ p : Int, body.puntuacion = some p ∧ 1 ≤ p ∧ p ≤ 5) ∧
      (∀ k ∈ calificaciones, some k.reserva_id ≠ body.reserva_id) ∧
      ∃ fila : Calificacion,
        (crearCalificacion idNuevo user body db calificaciones).2 = calificaciones ++ [fila] ∧
        some fila.reserva_id = body.reserva_id ∧ some fila.puntuacion = body.puntuacion ∧
        fila.usuario_id = user.id ∧
        (crearCalificacion idNuevo user body db calificaciones).1.status = 201) ∧
    ((∃ k ∈ calificaciones, some k.reserva_id = body.reserva_id) →
      (crearCalificacion idNuevo user body db calificaciones).1.status = 400 ∧
      (crearCalificacion idNuevo user body db calificaciones).2 = calificaciones) ∧
    (unaCalificacionPorReserva calificaciones →
      unaCalificacionPorReserva (crearCalificacion idNuevo user body db calificaciones).2) := by
  rcases crearCalificacion_casos idNuevo user body db calificaciones with
    ⟨hsame, h400⟩ | ⟨rid, p, hrid, hp, h1, h5, hvacio, hval⟩
  · refine ⟨fun h => absurd hsame h, fun h => ⟨h400 h, hsame⟩, fun h => ?_⟩
    rw [hsame]; exact h
  · rw [hval]
    refine ⟨fun _ => ⟨⟨p, hp, h1, h5⟩, ?_, _, rfl, hrid.symm, hp.symm, rfl, rfl⟩, ?_, ?_⟩
    · intro k hk he
      rw [hrid] at he
      exact hvacio k hk (Option.some.inj he)
    · rintro ⟨k, hk, he⟩
      rw [hrid] at he
      exact absurd (Option.some.inj he) (hvacio k hk)
    · intro hu
      unfold unaCalificacionPorReserva at hu ⊢
      rw [List.map_append, List.nodup_append]
      refine ⟨hu, by simp, ?_⟩
      intro a ha hb
      simp only [List.map_cons, List.map_nil, List.mem_singleton] at hb
      obtain ⟨k, hk, rfl⟩ := List.mem_map.mp ha
      exact hvacio k hk hb
/-! ## Slots of a business -/

/-- C30 at a business with one pending reservation on `2025-03-10` at `10:00`: a request
of another user to `crearReserva` for the same business, date and time is answered 201 and
stores a second pending reservation in that slot. The predicate holds before the request
and not after it. -/
theorem crearReserva_duplica_horario :
    horariosSinChoque (dbEjemplo "pendiente") ∧
    (crearReserva entornoEjemplo ⟨2, "cliente"⟩
        { bodyEjemplo [.id 1] with fecha := some "2025-03-10", hora := some "10:00" }
        (dbEjemplo "pendiente")).1 = ⟨201, true, "Reserva creada exitosamente"⟩ ∧
    ((crearReserva entornoEjemplo ⟨2, "cliente"⟩
        { bodyEjemplo [.id 1] with fecha := some "2025-03-10", hora := some "10:00" }
        (dbEjemplo "pendiente")).2.reservas.map
      fun r => (r.id_reserva, r.empresa_id, r.fecha, r.hora, r.estado)) =
      [(1, 1, "2025-03-10", "10:00", "pendiente"), (2, 1, "2025-03-10", "10:00", "pendiente")] ∧
    ¬horariosSinChoque (crearReserva entornoEjemplo ⟨2, "cliente"⟩
        { bodyEjemplo [.id 1] with fecha := some "2025-03-10", hora := some "10:00" }
        (dbEjemplo "pendiente")).2 := by
  decide
/-- Moving one reservation, under the primary key, keeps the slots free of clashes when
every other reservation of the business in the slot it moves to is cancelled or expired. -/
theorem horariosSinChoque_mover (db : DB) (reserva : Reserva) (f : Reserva → Reserva)
    (hpk : (db.reservas.map fun r => r.id_reserva).Nodup) (hmem : reserva ∈ db.reservas)
    (hinv : horariosSinChoque db)
    (hemp : (f reserva).empresa_id = reserva.empresa_id)
    (hlibre : ∀ r ∈ db.reservas, r.id_reserva ≠ reserva.id_reserva →
      r.empresa_id = reserva.empresa_id → r.fecha = (f reserva).fecha →
      r.hora = (f reserva).hora → r.estado = "cancelada" ∨ r.estado = "vencida") :
    horariosSinChoque (actualizarReserva db reserva.id_reserva f) := by
  unfold horariosSinChoque at hinv ⊢
  simp only [actualizarReserva]
  rw [List.pairwise_map]
  have hne : db.reservas.Pairwise fun a b => a.id_reserva ≠ b.id_reserva :=
    List.pairwise_map.mp hpk
  refine (hinv.and hne).imp_of_mem ?_
  intro a b ha hb hab
  obtain ⟨hc, hid⟩ := hab
  by_cases haid : a.id_reserva = reserva.id_reserva
  · have haeq : a = reserva := List.inj_on_of_nodup_map hpk ha hmem haid
    have hbid : b.id_reserva ≠ reserva.id_reserva := fun e => hid (haid.trans e.symm)
    rw [if_pos haid, if_neg hbid]
    subst haeq
    rintro ⟨he, hf, hh, _, hb1, hb2⟩
    rcases hlibre b hb hbid (by rw [← he, hemp]) hf.symm hh.symm with h | h
    · exact hb1 h
    · exact hb2 h
  · by_cases hbid : b.id_reserva = reserva.id_reserva
    · have hbeq : b = reserva := List.inj_on_of_nodup_map hpk hb hmem hbid
      rw [if_neg haid, if_pos hbid]
      subst hbeq
      rintro ⟨he, hf, hh, ⟨ha1, ha2⟩, _⟩
      rcases hlibre a ha haid (by rw [he, hemp]) hf hh with h | h
      · exact ha1 h
      · exact ha2 h
    · rw [if_neg haid, if_neg hbid]
      exact hc

theorem buscarReserva_mem (db : DB) (reservaId : Nat) (reserva : Reserva)
    (h : buscarReserva db reservaId = some reserva) :
    reserva ∈ db.reservas ∧ reserva.id_reserva = reservaId := by
  have := List.mem_filter.mp (List.mem_of_mem_head? h)
  exact ⟨this.1, by simpa using this.2⟩

/-- The slot check of `reagendarReserva` keeps the slots of every business free of
clashes, under the primary key of the reservations. -/
theorem reagendarReserva_sin_choque (user : Principal) (reservaId : Nat) (body : ReagendarBody)
    (db : DB) (hpk : (db.reservas.map fun r => r.id_reserva).Nodup)
    (hinv : horariosSinChoque db) :
    horariosSinChoque (reagendarReserva user reservaId body db).2 := by
  unfold reagendarReserva
  split
  · exact hinv
  · cases hR : buscarReserva db reservaId with
    | none => exact hinv
    | some reserva =>
      obtain ⟨hmem, hid⟩ := buscarReserva_mem db reservaId reserva hR
      simp only
      split
      · exact hinv
      · split
        · exact hinv
        · split
          · exact hinv
          · rename_i hocc
            have hvacio : horarioOcupado db reserva.empresa_id (body.nueva_fecha.getD "")
                (body.nueva_hora.getD "") reservaId = [] := by
              apply List.eq_nil_of_length_eq_zero
              omega
            rw [← hid]
            apply horariosSinChoque_mover db reserva _ hpk hmem hinv rfl
            intro r hr hrid hemp hf hh
            left
            by_contra hest
            have : r ∈ horarioOcupado db reserva.empresa_id (body.nueva_fecha.getD "")
                (body.nueva_hora.getD "") reservaId := by
              simp only [horarioOcupado, List.mem_filter, decide_eq_true_eq]
              exact ⟨hr, hemp, hf, hh, hest, by rw [← hid]; exact hrid⟩
            rw [hvacio] at this
            exact absurd this (List.not_mem_nil _)

/-- The slot check of `recuperarReservaVencida` keeps the slots of every business free of
clashes, under the primary key of the reservations. -/
theorem recuperarReservaVencida_sin_choque (user : Principal) (reservaId : Nat)
    (body : RecuperarBody) (db : DB) (hpk : (db.reservas.map fun r => r.id_reserva).Nodup)
    (hinv : horariosSinChoque db) :
    horariosSinChoque (recuperarReservaVencida user reservaId body db).2 := by
  unfold recuperarReservaVencida
  split
  · exact hinv
  · split
    · exact hinv
    · cases hR : buscarReserva db reservaId with
      | none => exact hinv
      | some reserva =>
        obtain ⟨hmem, hid⟩ := buscarReserva_mem db reservaId reserva hR
        simp only
        split
        · exact hinv
        · split
          · exact hinv
          · split
            · exact hinv
            · rename_i hocc
              have hvacio : horarioOcupadoRecuperar db reserva.empresa_id
                  (body.nueva_fecha.getD "") (body.nueva_hora.getD "") reservaId = [] := by
                apply List.eq_nil_of_length_eq_zero
                omega
              rw [← hid]
              apply horariosSinChoque_mover db reserva _ hpk hmem hinv rfl
              intro r hr hrid hemp hf hh
              by_contra hest
              have hest2 : r.estado ≠ "cancelada" ∧ r.estado ≠ "vencida" := by
                constructor
                · intro e; exact hest (Or.inl e)
                · intro e; exact hest (Or.inr e)
              have : r ∈ horarioOcupadoRecuperar db reserva.empresa_id
                  (body.nueva_fecha.getD "") (body.nueva_hora.getD "") reservaId := by
                simp only [horarioOcupadoRecuperar, List.mem_filter, decide_eq_true_eq]
                exact ⟨hr, hemp, hf, hh, hest2, by rw [← hid]; exact hrid⟩
              rw [hvacio] at this
              exact absurd this (List.not_mem_nil _)

end Autonew
